import Mathlib

/-!
# E-commerce backend and storefront

Shallow embedding of `backend/controllers/cartController.js` (first part), of
double-precision arithmetic and the storefront's totals (`Frontend totals`), of
the catalogue controllers,
routers and authentication middleware (`Catalogue and users`), of the checkout
flow of `CheckoutContext.js`, of the upload filter of `middleware/upload.js`, of
the account routes of `routes/auth.js`, of the product listing
(`getAllProducts`, `getCategoryById`) and of the local cart of `CartContext.js`.

Conventions of the cart controller part, kept in the later parts:

* The two tables the cart controller touches (`products`, `cart`) are lists of rows
  held in a `Db` value; a handler is a pure function from the database it reads
  and the request to a `Handled`: the JSON reply together with the one
  data-changing SQL statement it issues (if any).  `Db.after` runs that statement.
* Numbers that travel in a request body or in an integer column are `Int`;
  a body field is `Option Int` (`none` = the field is absent/`undefined`), which
  is what the repository's own client sends (`parseInt(quantity)` in
  `services/cartService.js`).  Other JSON values, and the strings of a
  form-encoded body, are outside the model; `updateCartItemNumber` reads
  `updateCartItem` on numbers that are not whole.
  The prices of the cart controller are two-place decimals kept exact (`ℚ`); the
  storefront's totals are computed in double precision (`toDouble`).
* `NOW()` and the key the database assigns to an inserted row are inputs of the
  model (`now`, `Db.cartAutoInc`).  Database failures (the `catch` → 500 paths)
  are not modelled: every statement of the model succeeds.  The one exception is
  the listing query of `getAllProducts`, whose `LIMIT` and `OFFSET` are written
  into the text: a value that is not a non-negative integer makes it fail.
-/

namespace Ecommerce

/-! ## Data model -/

/-- A row of `products` (the columns read by the cart controller). -/
structure Product where
  id : Int
  name : String
  description : String
  price : ℚ
  image_url : String
  stock_quantity : Int
deriving DecidableEq

/-- A row of `cart`. -/
structure CartRow where
  id : Int
  user_id : Int
  product_id : Int
  quantity : Int
  created_at : Nat
  updated_at : Nat
deriving DecidableEq

/-- The database state seen by the cart controller. -/
structure Db where
  products : List Product
  cart : List CartRow
  /-- Key the database gives to the next row inserted into `cart`. -/
  cartAutoInc : Int
deriving DecidableEq

/-- The data-changing statements issued by the cart controller. -/
inductive Stmt where
  /-- Statement `INSERT INTO cart (user_id, product_id, quantity, created_at, updated_at)
  VALUES (?, ?, ?, NOW(), NOW())`. -/
  | insertCart (user_id product_id quantity : Int)
  /-- Statement `UPDATE cart SET quantity = ?, updated_at = NOW() WHERE id = ?`. -/
  | updateCartQuantity (quantity id : Int)
  /-- Statement `DELETE FROM cart WHERE id = ?`. -/
  | deleteCartById (id : Int)
  /-- Statement `DELETE FROM cart WHERE user_id = ?`. -/
  | deleteCartByUser (user_id : Int)
deriving DecidableEq

/-- The JSON reply of a handler: HTTP status, `success` flag and `message`. -/
structure Reply where
  status : Nat
  success : Bool
  message : String
deriving DecidableEq

/-- What a handler does: its reply and the statement it executed, if any. -/
structure Handled where
  reply : Reply
  stmt : Option Stmt
deriving DecidableEq

/-- Effect of one statement on the database at time `now`. -/
def Stmt.run (now : Nat) (db : Db) : Stmt → Db
  | .insertCart u p q =>
      { db with
        cart := db.cart ++ [{ id := db.cartAutoInc, user_id := u, product_id := p,
                              quantity := q, created_at := now, updated_at := now }]
        cartAutoInc := db.cartAutoInc + 1 }
  | .updateCartQuantity q id =>
      { db with
        cart := db.cart.map fun c =>
          if c.id = id then { c with quantity := q, updated_at := now } else c }
  | .deleteCartById id =>
      { db with cart := db.cart.filter fun c => decide (c.id ≠ id) }
  | .deleteCartByUser u =>
      { db with cart := db.cart.filter fun c => decide (c.user_id ≠ u) }

/-- The database after a handler has run. -/
def Db.after (db : Db) (now : Nat) (h : Handled) : Db :=
  match h.stmt with
  | none => db
  | some s => s.run now db

/-- The quantity a statement writes into a cart line, if it writes one. -/
def Stmt.writtenQuantity : Stmt → Option Int
  | .insertCart _ _ q => some q
  | .updateCartQuantity q _ => some q
  | .deleteCartById _ => none
  | .deleteCartByUser _ => none

/-! ## JavaScript values of the request body -/

/-- JavaScript truthiness of an optional number: `undefined` and `0` are falsy. -/
def truthy : Option Int → Bool
  | none => false
  | some n => decide (n ≠ 0)

/-- JavaScript `a || b`. -/
def jsOr (a b : Option Int) : Option Int :=
  if truthy a then a else b

/-- JavaScript `parseInt` on an integer-valued number. -/
def parseInt (n : Int) : Int := n

/-- Body of `POST /api/cart` as the JSON parser delivers it: each field is
absent or a whole number. -/
structure AddBody where
  product_id : Option Int
  productId : Option Int
  quantity : Option Int
deriving DecidableEq

/-! ## Queries -/

/-- Query `SELECT id, name, price, stock_quantity FROM products WHERE id = ?`. -/
def selectProducts (db : Db) (id : Int) : List Product :=
  db.products.filter fun p => decide (p.id = id)

/-- Query `SELECT id, quantity FROM cart WHERE user_id = ? AND product_id = ?`. -/
def selectExisting (db : Db) (user_id product_id : Int) : List CartRow :=
  db.cart.filter fun c => decide (c.user_id = user_id ∧ c.product_id = product_id)

/-- The join `FROM cart c JOIN products p ON c.product_id = p.id`. -/
def cartJoinProducts (db : Db) : List (CartRow × Product) :=
  db.cart.flatMap fun c =>
    (db.products.filter fun p => decide (c.product_id = p.id)).map fun p => (c, p)

/-- The ownership query of `updateCartItem`:
`SELECT c.id, c.product_id, p.stock_quantity, p.name FROM cart c
JOIN products p ON c.product_id = p.id WHERE c.id = ? AND c.user_id = ?`. -/
def selectOwnedItem (db : Db) (cartId user_id : Int) : List (CartRow × Product) :=
  (cartJoinProducts db).filter fun cp => decide (cp.1.id = cartId ∧ cp.1.user_id = user_id)

/-- The ownership query of `removeFromCart`:
`SELECT id FROM cart WHERE id = ? AND user_id = ?`. -/
def selectOwnedLine (db : Db) (cartId user_id : Int) : List CartRow :=
  db.cart.filter fun c => decide (c.id = cartId ∧ c.user_id = user_id)

/-! ## Handlers -/

/-- Handler `addToCart` of `cartController.js` (lines 54-141). -/
def addToCart (db : Db) (user_id : Int) (body : AddBody) : Handled :=
  let quantity := body.quantity.getD 1
  let actualProductId := jsOr body.product_id body.productId
  if !truthy actualProductId then
    ⟨⟨400, false, "Product ID is required"⟩, none⟩
  else
    match actualProductId with
    | none => ⟨⟨400, false, "Product ID is required"⟩, none⟩
    | some pid =>
      match selectProducts db pid with
      | [] => ⟨⟨404, false, "Product not found"⟩, none⟩
      | product :: _ =>
        if product.stock_quantity < quantity then
          ⟨⟨400, false, "Insufficient stock"⟩, none⟩
        else
          match selectExisting db user_id pid with
          | existing :: _ =>
            let newQuantity := existing.quantity + parseInt quantity
            if newQuantity > product.stock_quantity then
              ⟨⟨400, false, "Cannot add more items than available in stock"⟩, none⟩
            else
              ⟨⟨200, true, product.name ++ " added to cart successfully"⟩,
                some (.updateCartQuantity newQuantity existing.id)⟩
          | [] =>
            ⟨⟨200, true, product.name ++ " added to cart successfully"⟩,
              some (.insertCart user_id pid quantity)⟩

/-- Handler `updateCartItem` of `cartController.js` (lines 144-204) for a
`quantity` that is absent or a whole number; `updateCartItemNumber` reads the
same lines for any number. -/
def updateCartItem (db : Db) (user_id cartId : Int) (quantity : Option Int) : Handled :=
  match quantity with
  | none => ⟨⟨400, false, "Valid quantity is required"⟩, none⟩
  | some q =>
    if q = 0 ∨ q < 1 then
      ⟨⟨400, false, "Valid quantity is required"⟩, none⟩
    else
      match selectOwnedItem db cartId user_id with
      | [] => ⟨⟨404, false, "Cart item not found"⟩, none⟩
      | cartItem :: _ =>
        if q > cartItem.2.stock_quantity then
          ⟨⟨400, false, "Insufficient stock"⟩, none⟩
        else
          ⟨⟨200, true, "Cart updated successfully"⟩, some (.updateCartQuantity q cartId)⟩

/-- Handler `removeFromCart` of `cartController.js` (lines 207-243). -/
def removeFromCart (db : Db) (user_id cartId : Int) : Handled :=
  match selectOwnedLine db cartId user_id with
  | [] => ⟨⟨404, false, "Cart item not found"⟩, none⟩
  | _ :: _ => ⟨⟨200, true, "Item removed from cart successfully"⟩, some (.deleteCartById cartId)⟩

/-- Handler `clearCart` of `cartController.js` (lines 246-267). -/
def clearCart (user_id : Int) : Handled :=
  ⟨⟨200, true, "Cart cleared successfully"⟩, some (.deleteCartByUser user_id)⟩

/-- One element of `cartItems` in the reply of `getCart`. -/
structure CartItem where
  cart_id : Int
  quantity : Int
  created_at : Nat
  id : Int
  name : String
  description : String
  price : ℚ
  image_url : String
  stock_quantity : Int
  subtotal : ℚ
deriving DecidableEq

/-- The `SELECT` list of `getCart`, with `(c.quantity * p.price) as subtotal`. -/
def toCartItem (cp : CartRow × Product) : CartItem :=
  { cart_id := cp.1.id, quantity := cp.1.quantity, created_at := cp.1.created_at,
    id := cp.2.id, name := cp.2.name, description := cp.2.description,
    price := cp.2.price, image_url := cp.2.image_url,
    stock_quantity := cp.2.stock_quantity,
    subtotal := (cp.1.quantity : ℚ) * cp.2.price }

/-- The query of `getCart`: the user's lines joined with their products,
`ORDER BY c.created_at DESC`. -/
def selectCart (db : Db) (user_id : Int) : List CartItem :=
  (((cartJoinProducts db).filter fun cp => decide (cp.1.user_id = user_id)).map
      toCartItem).insertionSort fun a b => b.created_at ≤ a.created_at

/-- JavaScript `parseFloat` of a number: the number itself. -/
def parseFloat (x : ℚ) : ℚ := x

/-- JavaScript `x.toFixed(2)` read back as a number: the multiple of `1/100`
nearest to `x`, the one of larger magnitude on a tie. -/
def toFixed2 (x : ℚ) : ℚ :=
  if x < 0 then -((⌊(-x) * 100 + 1 / 2⌋ : ℤ) / 100 : ℚ)
  else ((⌊x * 100 + 1 / 2⌋ : ℤ) / 100 : ℚ)

/-- The `data` object of the reply of `getCart`. -/
structure CartData where
  cartItems : List CartItem
  total : ℚ
  itemCount : Nat
deriving DecidableEq

/-- Handler `getCart` of `cartController.js` (lines 4-51): the `data` of its
reply (status 200, `success: true`). -/
def getCart (db : Db) (user_id : Int) : CartData :=
  let cartItems := selectCart db user_id
  let total := cartItems.foldl (fun sum item => sum + parseFloat item.subtotal) 0
  { cartItems := cartItems
    total := parseFloat (toFixed2 total)
    itemCount := cartItems.length }

/-- The requested quantity of an add request (`quantity = 1` when absent). -/
def AddBody.requested (body : AddBody) : Int := body.quantity.getD 1

/-! ## Concrete states used in the examples -/

/-- Product 5 of the specification's example: stock 10, price 19.99. -/
def product5 : Product := ⟨5, "Mug", "A mug", 1999 / 100, "", 10⟩

/-- A shop with product 5 and an empty cart table. -/
def db0 : Db := { products := [product5], cart := [], cartAutoInc := 1 }

/-- The state `db0` after user 7 has posted `{product_id: 5, quantity: -3}`. -/
def dbNegative : Db := db0.after 0 (addToCart db0 7 ⟨some 5, none, some (-3)⟩)

/-- A shop where user 7 holds 2 units of product 5 (cart line 1) and user 8
holds 4 units (cart line 2). -/
def db2 : Db :=
  { products := [product5]
    cart := [⟨1, 7, 5, 2, 0, 0⟩, ⟨2, 8, 5, 4, 1, 1⟩]
    cartAutoInc := 3 }

/-- Product 6: stock 4, price 0.50. -/
def product6 : Product := ⟨6, "Pen", "A pen", 1 / 2, "", 4⟩

/-- A shop where user 7 holds 2 units of product 5 (line 1, created first) and
3 units of product 6 (line 3), and user 8 holds 4 units of product 5 (line 2). -/
def db3 : Db :=
  { products := [product5, product6]
    cart := [⟨1, 7, 5, 2, 0, 0⟩, ⟨2, 8, 5, 4, 1, 1⟩, ⟨3, 7, 6, 3, 2, 2⟩]
    cartAutoInc := 4 }

/-! ## Double-precision numbers

A JavaScript number is an IEEE 754 double.  Every finite double is a rational,
and the result of `+` or `*` is the double nearest to the exact result.  Results
beyond the largest double (about 1.8 × 10^308), which JavaScript turns into
`Infinity`, are outside the model. -/

/-- The power of two `2 ^ e` for an integer exponent. -/
def pow2 (e : Int) : ℚ :=
  if 0 ≤ e then ((2 ^ e.toNat : Nat) : ℚ) else 1 / ((2 ^ (-e).toNat : Nat) : ℚ)

/-- The integer nearest to `x`, the even one when `x` lies half-way. -/
def roundHalfEven (x : ℚ) : Int :=
  if x - (⌊x⌋ : ℚ) < 1 / 2 then ⌊x⌋
  else if x - (⌊x⌋ : ℚ) > 1 / 2 then ⌊x⌋ + 1
  else if ⌊x⌋ % 2 = 0 then ⌊x⌋ else ⌊x⌋ + 1

/-- The number of halvings that bring `n` below 2, with `fuel` steps at most. -/
def log2Fuel : Nat → Nat → Nat
  | 0, _ => 0
  | fuel + 1, n => if n < 2 then 0 else log2Fuel fuel (n / 2) + 1

/-- The position of the highest bit of `n`: `2 ^ natLog2 n ≤ n < 2 ^ (natLog2 n + 1)`
for `n ≥ 1`. -/
def natLog2 (n : Nat) : Nat := log2Fuel n n

/-- The exponent of a positive `x`: the integer `e` with `2 ^ e ≤ x < 2 ^ (e + 1)`. -/
def floorLog2 (x : ℚ) : Int :=
  if pow2 ((natLog2 x.num.natAbs : Int) - (natLog2 x.den : Int)) ≤ x then
    (natLog2 x.num.natAbs : Int) - (natLog2 x.den : Int)
  else (natLog2 x.num.natAbs : Int) - (natLog2 x.den : Int) - 1

/-- The double nearest to `x` (IEEE 754 binary64, round to nearest, ties to
even): 53 significant bits, exponents from -1022 on, below which the spacing
stays `2 ^ (-1074)`. -/
def toDouble (x : ℚ) : ℚ :=
  if x = 0 then 0
  else (roundHalfEven (x / pow2 (max (floorLog2 |x|) (-1022) - 52)) : ℚ) *
    pow2 (max (floorLog2 |x|) (-1022) - 52)

/-- JavaScript `a + b` on numbers. -/
def jsAdd (a b : ℚ) : ℚ := toDouble (a + b)

/-- JavaScript `a * b` on numbers. -/
def jsMul (a b : ℚ) : ℚ := toDouble (a * b)


/-- The number JavaScript holds for a number written in a JSON text. -/
def numberOf (written : Option ℚ) : Option ℚ := written.map toDouble

/-! ## Frontend totals (`pages/Cart.js`, `pages/Checkout.js`, `context/CheckoutContext.js`) -/

/-- JavaScript truthiness of an optional decimal: `undefined` and `0` are falsy. -/
def truthyNum : Option ℚ → Bool
  | none => false
  | some x => decide (x ≠ 0)

/-- JavaScript `a || b` on optional decimals. -/
def jsOrNum (a b : Option ℚ) : Option ℚ :=
  if truthyNum a then a else b

/-- An element of the client's `cartItems`: its own `price`, the price of a
nested `product` object (`item.product?.price`) and its `quantity`, each of
which may be missing.  A price is given as it is written; the item holds the
double nearest to it (`numberOf`). -/
structure LineItem where
  id : Int
  price : Option ℚ
  productPrice : Option ℚ
  quantity : Option Int
deriving DecidableEq

/-- The value `cartItems` of the cart context as the pages receive it: an
array, an object that wraps the array as `items` or as `cartItems`, or
anything else. -/
inductive RawCart where
  | array (items : List LineItem)
  | objItems (items : List LineItem)
  | objCartItems (items : List LineItem)
  | other
deriving DecidableEq

/-- Expression `parseFloat(item.price || item.product?.price || 0)`. -/
def linePrice (item : LineItem) : ℚ :=
  parseFloat
    ((jsOrNum (jsOrNum (numberOf item.price) (numberOf item.productPrice)) (some 0)).getD 0)

/-- Expression `parseFloat(item.price || 0)` of `pages/Checkout.js`. -/
def linePriceCheckout (item : LineItem) : ℚ :=
  parseFloat ((jsOrNum (numberOf item.price) (some 0)).getD 0)

/-- Expression `parseInt(item.quantity || 0)`. -/
def lineQuantity (item : LineItem) : Int :=
  parseInt ((jsOr item.quantity (some 0)).getD 0)

/-- The object returned by `calculateTotals`. -/
structure Totals where
  subtotal : ℚ
  tax : ℚ
  shipping : ℚ
  total : ℚ
deriving DecidableEq

/-- Function `calculateTotals` of `context/CheckoutContext.js` (lines 66-78). -/
def calculateTotals (cartItems : RawCart) : Totals :=
  let subtotal : ℚ :=
    match cartItems with
    | .array items =>
      items.foldl (fun total item => jsAdd total (jsMul (linePrice item) (lineQuantity item))) 0
    | _ => 0
  let tax := jsMul subtotal (toDouble (1 / 10))
  let shipping : ℚ := if subtotal > 100 then 0 else 10
  let total := jsAdd (jsAdd subtotal tax) shipping
  { subtotal := subtotal, tax := tax, shipping := shipping, total := total }

/-- The `useMemo` of `pages/Cart.js` (lines 46-67) that turns the context value
into an array. -/
def cartPageItems : RawCart → List LineItem
  | .array items => items
  | .objItems items => items
  | .objCartItems items => items
  | .other => []

/-- Function `calculateSubtotal` of `pages/Cart.js` (lines 72-93). -/
def calculateSubtotal (cartItems : List LineItem) : ℚ :=
  cartItems.foldl (fun total item => jsAdd total (jsMul (linePrice item) (lineQuantity item))) 0

/-- The totals of `pages/Cart.js` (lines 95-99) for the chosen payment method. -/
def cartPageTotals (rawCartItems : RawCart) (paymentMethod : String) : Totals :=
  let subtotal := calculateSubtotal (cartPageItems rawCartItems)
  let tax := jsMul subtotal (toDouble (1 / 10))
  let shipping : ℚ := if paymentMethod = "cod" then 15 else (if subtotal > 100 then 0 else 10)
  let total := jsAdd (jsAdd subtotal tax) shipping
  { subtotal := subtotal, tax := tax, shipping := shipping, total := total }

/-- The totals of `pages/Checkout.js` (lines 32-41). -/
def checkoutPageTotals (cartItems : RawCart) : Totals :=
  let subtotal : ℚ :=
    match cartItems with
    | .array items =>
      items.foldl
        (fun total item => jsAdd total (jsMul (linePriceCheckout item) (lineQuantity item))) 0
    | _ => 0
  let tax := jsMul subtotal (toDouble (1 / 10))
  let shipping : ℚ := if subtotal > 100 then 0 else 10
  let total := jsAdd (jsAdd subtotal tax) shipping
  { subtotal := subtotal, tax := tax, shipping := shipping, total := total }

/-- The cart of the specification's example: price 999 × 2 and price 25 × 1. -/
def exampleCart : List LineItem :=
  [⟨1, some 999, none, some 2⟩, ⟨2, some 25, none, some 1⟩]

/-- A cart whose only item carries its price in the nested `product` object. -/
def nestedCart : List LineItem := [⟨1, none, some 5, some 1⟩]

/-- A cart worth exactly 100. -/
def cartOf100 : List LineItem := [⟨1, some 50, none, some 2⟩]

/-! ## Catalogue and users

Shallow embedding of `controllers/categoryController.js`,
`controllers/productController.js`, `routes/products.js`, `routes/categories.js`,
`routes/admin.js` and `middleware/auth.js`.  A route parameter `:id` is a
non-empty path segment; it is modelled as `Option Int`, `none` standing for a
segment that is not a number (`isNaN(id)`).  Text fields of a body are
`Option String`.  The result of the `express-validator` chain reaches a
controller as `errorsEmpty` (`validationResult(req).isEmpty()`); the chains of
the routers are the `...Validation` functions below, the library predicate
`isURL` being a parameter. -/

/-- A row of `categories`. -/
structure Category where
  id : Int
  name : String
  description : Option String
  created_at : Nat
deriving DecidableEq

/-- A full row of `products`. -/
structure ProductRow where
  id : Int
  name : String
  description : Option String
  price : ℚ
  category_id : Int
  stock_quantity : Int
  image_url : Option String
  created_at : Nat
deriving DecidableEq

/-- A row of `users` (the columns the middleware looks at). -/
structure User where
  id : Int
  username : String
  email : String
  role : String
deriving DecidableEq

/-- The database state seen by the catalogue controllers and the middleware. -/
structure Shop where
  categories : List Category
  products : List ProductRow
  users : List User
  /-- Key the database gives to the next inserted category. -/
  categoryAutoInc : Int
  /-- Key the database gives to the next inserted product. -/
  productAutoInc : Int
deriving DecidableEq

/-- A value bound to a `?` placeholder. -/
inductive SqlValue where
  | null
  | int (n : Int)
  | num (x : ℚ)
  | str (s : String)
deriving DecidableEq

/-- The data-changing statements issued by the catalogue controllers. -/
inductive ShopStmt where
  /-- Statement `INSERT INTO categories (name, description, created_at) VALUES (?, ?, NOW())`. -/
  | insertCategory (name : String) (description : Option String)
  /-- Statement `UPDATE categories SET ... WHERE id = ?` built from `updateFields`,
  run with `updateValues`. -/
  | updateCategories (updateFields : List String) (updateValues : List SqlValue)
  /-- Statement `DELETE FROM categories WHERE id = ?`. -/
  | deleteCategoryById (id : Int)
  /-- Statement `INSERT INTO products (name, description, price, category_id,
  stock_quantity, image_url, created_at) VALUES (?, ?, ?, ?, ?, ?, NOW())`. -/
  | insertProduct (name : String) (description : Option String) (price : ℚ)
      (category_id stock_quantity : Int) (image_url : Option String)
  /-- Statement `UPDATE products SET ... WHERE id = ?` built from `updateFields`,
  run with `updateValues`. -/
  | updateProducts (updateFields : List String) (updateValues : List SqlValue)
  /-- Statement `DELETE FROM products WHERE id = ?`. -/
  | deleteProductById (id : Int)
  /-- Statement `UPDATE products SET name = ?, description = ?, price = ?,
  stock_quantity = ?, category_id = ?, image_url = ? WHERE id = ?` of `routes/admin.js`. -/
  | adminUpdateProduct (name : String) (description : Option String) (price : ℚ)
      (stock_quantity category_id : Int) (image_url : Option String) (id : Int)
deriving DecidableEq

/-- What a catalogue handler does: its reply and the statement it executed, if any. -/
structure ShopHandled where
  reply : Reply
  stmt : Option ShopStmt
deriving DecidableEq

/-- JavaScript `updateFields.join(', ')` inside the text of a dynamic `UPDATE`. -/
def updateQuery (table : String) (updateFields : List String) : String :=
  "UPDATE " ++ table ++ " SET " ++ ", ".intercalate updateFields ++ " WHERE id = ?"

/-- The SQL text of a dynamic `UPDATE` statement. -/
def ShopStmt.query : ShopStmt → Option String
  | .updateCategories updateFields _ => some (updateQuery "categories" updateFields)
  | .updateProducts updateFields _ => some (updateQuery "products" updateFields)
  | _ => none

/-- Number of `?` placeholders in an SQL text. -/
def placeholders (query : String) : Nat := query.toList.count '?'

/-- Effect of one `column = ?` assignment on a category row. -/
def setCategoryColumn (c : Category) (assignment : String × SqlValue) : Category :=
  match assignment with
  | ("name = ?", .str s) => { c with name := s }
  | ("description = ?", .str s) => { c with description := some s }
  | ("description = ?", .null) => { c with description := none }
  | _ => c

/-- Effect of one `column = ?` assignment on a product row. -/
def setProductColumn (p : ProductRow) (assignment : String × SqlValue) : ProductRow :=
  match assignment with
  | ("name = ?", .str s) => { p with name := s }
  | ("description = ?", .str s) => { p with description := some s }
  | ("description = ?", .null) => { p with description := none }
  | ("price = ?", .num x) => { p with price := x }
  | ("category_id = ?", .int n) => { p with category_id := n }
  | ("stock_quantity = ?", .int n) => { p with stock_quantity := n }
  | ("image_url = ?", .str s) => { p with image_url := some s }
  | _ => p

/-- Effect of one statement on the catalogue at time `now`.  In a dynamic
`UPDATE` the last bound value is the `id` of the `WHERE` clause and the others
pair up with the assignments. -/
def ShopStmt.run (now : Nat) (shop : Shop) : ShopStmt → Shop
  | .insertCategory name description =>
      { shop with
        categories := shop.categories ++ [⟨shop.categoryAutoInc, name, description, now⟩]
        categoryAutoInc := shop.categoryAutoInc + 1 }
  | .updateCategories updateFields updateValues =>
      match updateValues.getLast? with
      | some (.int id) =>
        { shop with
          categories := shop.categories.map fun c =>
            if c.id = id then (updateFields.zip updateValues).foldl setCategoryColumn c else c }
      | _ => shop
  | .deleteCategoryById id =>
      { shop with categories := shop.categories.filter fun c => decide (c.id ≠ id) }
  | .insertProduct name description price category_id stock_quantity image_url =>
      { shop with
        products := shop.products ++
          [⟨shop.productAutoInc, name, description, price, category_id, stock_quantity,
            image_url, now⟩]
        productAutoInc := shop.productAutoInc + 1 }
  | .updateProducts updateFields updateValues =>
      match updateValues.getLast? with
      | some (.int id) =>
        { shop with
          products := shop.products.map fun p =>
            if p.id = id then (updateFields.zip updateValues).foldl setProductColumn p else p }
      | _ => shop
  | .deleteProductById id =>
      { shop with products := shop.products.filter fun p => decide (p.id ≠ id) }
  | .adminUpdateProduct name description price stock_quantity category_id image_url id =>
      { shop with
        products := shop.products.map fun p =>
          if p.id = id then
            { p with name := name, description := description, price := price,
                     stock_quantity := stock_quantity, category_id := category_id,
                     image_url := image_url }
          else p }

/-- The catalogue after a handler has run. -/
def Shop.after (shop : Shop) (now : Nat) (h : ShopHandled) : Shop :=
  match h.stmt with
  | none => shop
  | some s => s.run now shop

/-- JavaScript truthiness of an optional string: `undefined` and `''` are falsy. -/
def truthyStr : Option String → Bool
  | none => false
  | some s => decide (s ≠ "")

/-- The characters that JavaScript strips in `trim` and skips at the start of
`parseInt` (and that `\s` matches): tab, line feed, vertical tab, form feed,
carriage return, space, no-break space, the Unicode space separators
(U+1680, U+2000 to U+200A, U+202F, U+205F, U+3000), the line and paragraph
separators U+2028 and U+2029, and U+FEFF. -/
def isJsWhiteSpace (c : Char) : Bool :=
  [0x9, 0xA, 0xB, 0xC, 0xD, 0x20, 0xA0, 0x1680, 0x2028, 0x2029, 0x202F, 0x205F, 0x3000,
    0xFEFF].contains c.toNat || (decide (0x2000 ≤ c.toNat) && decide (c.toNat ≤ 0x200A))

/-- JavaScript `s.trim()`. -/
def jsTrim (s : String) : String :=
  String.mk ((s.toList.dropWhile isJsWhiteSpace).reverse.dropWhile isJsWhiteSpace).reverse

/-- Expression `description?.trim() || null`. -/
def trimOrNull : Option String → Option String
  | none => none
  | some d => if jsTrim d = "" then none else some (jsTrim d)

/-- The bound value for a text that may be `null`. -/
def SqlValue.ofText : Option String → SqlValue
  | none => .null
  | some s => .str s

/-- Expression `parseInt(x) || 0`. -/
def parseIntOr0 (x : Option Int) : Int :=
  match x with
  | none => 0
  | some n => (jsOr (some (parseInt n)) (some 0)).getD 0

/-- Body of the category routes. -/
structure CategoryBody where
  name : Option String
  description : Option String
deriving DecidableEq

/-- Body of the product routes as the JSON parser delivers it: texts are
strings, `price` is a number, `category_id` and `stock_quantity` are whole
numbers, and each field may be absent. -/
structure ProductBody where
  name : Option String
  description : Option String
  price : Option ℚ
  category_id : Option Int
  stock_quantity : Option Int
  image_url : Option String
deriving DecidableEq

/-- Body of `PUT /api/admin/products/:id` with all six fields bound. -/
structure AdminProductBody where
  name : String
  description : Option String
  price : ℚ
  stock_quantity : Int
  category_id : Int
  image_url : Option String
deriving DecidableEq

/-! ### Validation chains of the routers -/

/-- The custom price check `/^\d+(\.\d{1,2})?$/`: no sign, at most two decimals. -/
def twoDecimals (price : ℚ) : Bool :=
  decide (0 ≤ price) && (price * 100).isInt

/-- Chain `productUpdateValidation` of `routes/products.js` (lines 49-82):
`true` when it records no error. -/
def productUpdateValidation (isURL : String → Bool) (body : ProductBody) : Bool :=
  (match body.name with
    | none => true
    | some s => decide (s ≠ "") && decide (2 ≤ s.length) && decide (s.length ≤ 255)) &&
  (match body.description with
    | none => true
    | some d => decide (d.length ≤ 1000)) &&
  (match body.price with
    | none => true
    | some p => decide (0 ≤ p) && twoDecimals p) &&
  (match body.stock_quantity with
    | none => true
    | some n => decide (0 ≤ n)) &&
  (match body.category_id with
    | none => true
    | some n => decide (1 ≤ n)) &&
  (match body.image_url with
    | none => true
    | some u => isURL u)

/-- Chain `productValidation` of `routes/products.js` (lines 16-46). -/
def productValidation (isURL : String → Bool) (body : ProductBody) : Bool :=
  (match body.name with
    | none => false
    | some s => decide (s ≠ "") && decide (2 ≤ s.length) && decide (s.length ≤ 255)) &&
  (match body.description with
    | none => true
    | some d => decide (d.length ≤ 1000)) &&
  (match body.price with
    | none => false
    | some p => decide (0 ≤ p) && twoDecimals p) &&
  (match body.stock_quantity with
    | none => false
    | some n => decide (0 ≤ n)) &&
  (match body.category_id with
    | none => false
    | some n => decide (1 ≤ n)) &&
  (match body.image_url with
    | none => true
    | some u => isURL u)

/-- Chain `categoryValidation` of `routes/categories.js` (lines 15-27). -/
def categoryValidation (body : CategoryBody) : Bool :=
  (match body.name with
    | none => false
    | some s => decide (s ≠ "") && decide (2 ≤ s.length) && decide (s.length ≤ 100)) &&
  (match body.description with
    | none => true
    | some d => decide (d.length ≤ 500))

/-- Chain `categoryUpdateValidation` of `routes/categories.js` (lines 30-43). -/
def categoryUpdateValidation (body : CategoryBody) : Bool :=
  (match body.name with
    | none => true
    | some s => decide (s ≠ "") && decide (2 ≤ s.length) && decide (s.length ≤ 100)) &&
  (match body.description with
    | none => true
    | some d => decide (d.length ≤ 500))

/-- The `.trim()` sanitizers that close both category chains. -/
def categorySanitize (body : CategoryBody) : CategoryBody :=
  { name := body.name.map jsTrim, description := body.description.map jsTrim }

/-! ### Category controller -/

/-- Handler `createCategory` of `categoryController.js` (lines 108-161).  A
missing `name` makes `name.trim()` throw, which the `catch` answers with 500. -/
def createCategory (shop : Shop) (errorsEmpty : Bool) (body : CategoryBody) : ShopHandled :=
  if !errorsEmpty then
    ⟨⟨400, false, "Validation failed"⟩, none⟩
  else
    match body.name with
    | none => ⟨⟨500, false, "Failed to create category"⟩, none⟩
    | some name =>
      let existingCategory := shop.categories.filter fun c => decide (c.name = jsTrim name)
      if existingCategory.length > 0 then
        ⟨⟨400, false, "Category name already exists"⟩, none⟩
      else
        ⟨⟨201, true, "Category created successfully"⟩,
          some (.insertCategory (jsTrim name) (trimOrNull body.description))⟩

/-- The arrays `updateFields` and `updateValues` of `updateCategory`
(lines 215-226). -/
def categoryUpdateArrays (updateData : CategoryBody) : List String × List SqlValue :=
  let updateFields : List String := []
  let updateValues : List SqlValue := []
  let (updateFields, updateValues) :=
    if truthyStr updateData.name then
      (updateFields ++ ["name = ?"], updateValues ++ [.str (jsTrim (updateData.name.getD ""))])
    else (updateFields, updateValues)
  let (updateFields, updateValues) :=
    if updateData.description.isSome then
      (updateFields ++ ["description = ?"],
        updateValues ++ [.ofText (trimOrNull updateData.description)])
    else (updateFields, updateValues)
  (updateFields, updateValues)

/-- Handler `updateCategory` of `categoryController.js` (lines 164-263). -/
def updateCategory (shop : Shop) (errorsEmpty : Bool) (id : Option Int)
    (updateData : CategoryBody) : ShopHandled :=
  if !errorsEmpty then
    ⟨⟨400, false, "Validation failed"⟩, none⟩
  else
    match id with
    | none => ⟨⟨400, false, "Valid category ID is required"⟩, none⟩
    | some id =>
      match shop.categories.filter fun c => decide (c.id = id) with
      | [] => ⟨⟨404, false, "Category not found"⟩, none⟩
      | existing :: _ =>
        if truthyStr updateData.name && decide (jsTrim (updateData.name.getD "") ≠ existing.name)
            && decide ((shop.categories.filter fun c =>
                  decide (c.name = jsTrim (updateData.name.getD "") ∧ c.id ≠ id)).length > 0) then
          ⟨⟨400, false, "Category name already exists"⟩, none⟩
        else
          let (updateFields, updateValues) := categoryUpdateArrays updateData
          if updateFields.length = 0 then
            ⟨⟨400, false, "No valid fields to update"⟩, none⟩
          else
            ⟨⟨200, true, "Category updated successfully"⟩,
              some (.updateCategories updateFields (updateValues ++ [.int id]))⟩

/-- Handler `deleteCategory` of `categoryController.js` (lines 266-318). -/
def deleteCategory (shop : Shop) (id : Option Int) : ShopHandled :=
  match id with
  | none => ⟨⟨400, false, "Valid category ID is required"⟩, none⟩
  | some id =>
    match shop.categories.filter fun c => decide (c.id = id) with
    | [] => ⟨⟨404, false, "Category not found"⟩, none⟩
    | _ :: _ =>
      let products := shop.products.filter fun p => decide (p.category_id = id)
      if products.length > 0 then
        ⟨⟨400, false, "Cannot delete category. It contains " ++ toString products.length ++
            " product(s). Please move or delete the products first."⟩, none⟩
      else
        ⟨⟨200, true, "Category deleted successfully"⟩, some (.deleteCategoryById id)⟩

/-! ### Product controller -/

/-- Handler `createProduct` of `productController.js` (lines 128-195); `file` is
the name under which an uploaded image was stored. -/
def createProduct (shop : Shop) (errorsEmpty : Bool) (body : ProductBody)
    (file : Option String) : ShopHandled :=
  if !errorsEmpty then
    ⟨⟨400, false, "Validation failed"⟩, none⟩
  else if !truthyStr body.name || !truthyNum body.price || !truthy body.category_id then
    ⟨⟨400, false, "Name, price, and category_id are required"⟩, none⟩
  else
    match shop.categories.filter fun c =>
        decide (c.id = parseInt (body.category_id.getD 0)) with
    | [] => ⟨⟨400, false, "Invalid category ID"⟩, none⟩
    | _ :: _ =>
      ⟨⟨201, true, "Product created successfully"⟩,
        some (.insertProduct (jsTrim (body.name.getD "")) (trimOrNull body.description)
          (parseFloat (body.price.getD 0)) (parseInt (body.category_id.getD 0))
          (parseIntOr0 body.stock_quantity) (file.map fun f => "/uploads/" ++ f))⟩

/-- The arrays `updateFields` and `updateValues` of `updateProduct`
(lines 248-279). -/
def productUpdateArrays (updateData : ProductBody) (file : Option String) :
    List String × List SqlValue :=
  let updateFields : List String := []
  let updateValues : List SqlValue := []
  let (updateFields, updateValues) :=
    if truthyStr updateData.name then
      (updateFields ++ ["name = ?"], updateValues ++ [.str (jsTrim (updateData.name.getD ""))])
    else (updateFields, updateValues)
  let (updateFields, updateValues) :=
    if updateData.description.isSome then
      (updateFields ++ ["description = ?"],
        updateValues ++ [.ofText (trimOrNull updateData.description)])
    else (updateFields, updateValues)
  let (updateFields, updateValues) :=
    if truthyNum updateData.price then
      (updateFields ++ ["price = ?"], updateValues ++ [.num (parseFloat (updateData.price.getD 0))])
    else (updateFields, updateValues)
  let (updateFields, updateValues) :=
    if truthy updateData.category_id then
      (updateFields ++ ["category_id = ?"],
        updateValues ++ [.int (parseInt (updateData.category_id.getD 0))])
    else (updateFields, updateValues)
  let (updateFields, updateValues) :=
    if updateData.stock_quantity.isSome then
      (updateFields ++ ["stock_quantity = ?"],
        updateValues ++ [.int (parseIntOr0 updateData.stock_quantity)])
    else (updateFields, updateValues)
  let (updateFields, updateValues) :=
    match file with
    | some filename =>
      (updateFields ++ ["image_url = ?"], updateValues ++ [.str ("/uploads/" ++ filename)])
    | none => (updateFields, updateValues)
  (updateFields, updateValues)

/-- What the upload middleware `uploadSingle` of the product routes leaves on a
request.  It acts on `multipart/form-data` only: it then builds `req.body`
itself, as an object without prototype, and sets `req.file` when an image came
with it.  Any other request passes through with the body of the JSON parser and
without `req.file`. -/
inductive Upload where
  | notMultipart
  | multipart (file : Option String)
deriving DecidableEq

/-- The value `req.file`: the stored name of the uploaded image. -/
def Upload.file : Upload → Option String
  | .notMultipart => none
  | .multipart file => file

/-- Whether `req.body` has `Object.prototype`, and with it `hasOwnProperty`. -/
def Upload.bodyHasPrototype : Upload → Bool
  | .notMultipart => true
  | .multipart _ => false

/-- Handler `updateProduct` of `productController.js` (lines 198-314).  On a
multipart body `updateData.hasOwnProperty` (line 256) is not a function: the
call throws and the `catch` answers 500 before any `UPDATE`. -/
def updateProduct (shop : Shop) (errorsEmpty : Bool) (id : Option Int)
    (updateData : ProductBody) (upload : Upload) : ShopHandled :=
  if !errorsEmpty then
    ⟨⟨400, false, "Validation failed"⟩, none⟩
  else
    match id with
    | none => ⟨⟨400, false, "Valid product ID is required"⟩, none⟩
    | some id =>
      match shop.products.filter fun p => decide (p.id = parseInt id) with
      | [] => ⟨⟨404, false, "Product not found"⟩, none⟩
      | _ :: _ =>
        if truthy updateData.category_id &&
            (shop.categories.filter fun c =>
              decide (c.id = parseInt (updateData.category_id.getD 0))).length = 0 then
          ⟨⟨400, false, "Invalid category ID"⟩, none⟩
        else if !upload.bodyHasPrototype then
          ⟨⟨500, false, "Failed to update product"⟩, none⟩
        else
          let (updateFields, updateValues) := productUpdateArrays updateData upload.file
          if updateFields.length = 0 then
            ⟨⟨400, false, "No valid fields to update"⟩, none⟩
          else
            ⟨⟨200, true, "Product updated successfully"⟩,
              some (.updateProducts updateFields (updateValues ++ [.int (parseInt id)]))⟩

/-- Handler `deleteProduct` of `productController.js` (lines 317-356). -/
def deleteProduct (shop : Shop) (id : Option Int) : ShopHandled :=
  match id with
  | none => ⟨⟨400, false, "Valid product ID is required"⟩, none⟩
  | some id =>
    match shop.products.filter fun p => decide (p.id = parseInt id) with
    | [] => ⟨⟨404, false, "Product not found"⟩, none⟩
    | _ :: _ =>
      ⟨⟨200, true, "Product deleted successfully"⟩, some (.deleteProductById (parseInt id))⟩

/-- The handler of `PUT /api/admin/products/:id` in `routes/admin.js`
(lines 21-35), behind its gate `authenticateAdmin`. -/
def adminPutProduct (id : Int) (body : AdminProductBody) : ShopHandled :=
  ⟨⟨200, true, "Product updated successfully"⟩,
    some (.adminUpdateProduct body.name body.description body.price body.stock_quantity
      body.category_id body.image_url id)⟩

/-- The handler of `DELETE /api/admin/products/:id` in `routes/admin.js`
(lines 38-46), behind its gate `authenticateAdmin`. -/
def adminDeleteProduct (id : Int) : ShopHandled :=
  ⟨⟨200, true, "Product deleted successfully"⟩, some (.deleteProductById id)⟩

/-! ### Authentication middleware and the admin routes -/

/-- The pieces of `s.split(' ')`, reading the characters left to right; `acc`
holds the current piece in reverse. -/
def splitSpaceAux : List Char → List Char → List String
  | [], acc => [String.mk acc.reverse]
  | c :: cs, acc =>
    if c = ' ' then String.mk acc.reverse :: splitSpaceAux cs []
    else splitSpaceAux cs (c :: acc)

/-- JavaScript `s.split(' ')`. -/
def jsSplitSpace (s : String) : List String := splitSpaceAux s.toList []

/-- Expression `authHeader && authHeader.split(' ')[1]`. -/
def bearerToken (authHeader : Option String) : Option String :=
  match authHeader with
  | none => none
  | some h => if h = "" then some h else (jsSplitSpace h)[1]?

/-- The payload `jwt.verify` returns for a valid token. -/
structure Decoded where
  id : Int
  username : String
deriving DecidableEq

/-- What a middleware does: it answers, or it calls `next` after setting `req.user`. -/
inductive AuthOutcome where
  | respond (reply : Reply)
  | next (user : User)
deriving DecidableEq

/-- Middleware `authenticateToken` of `middleware/auth.js` (lines 4-56).  The
library call `jwt.verify(token, process.env.JWT_SECRET)` is the parameter
`verify`: the payload, or the message of the error it throws. -/
def authenticateToken (verify : String → Except String Decoded) (users : List User)
    (authHeader : Option String) : AuthOutcome :=
  let token := bearerToken authHeader
  if !truthyStr token then
    .respond ⟨401, false, "Access token required"⟩
  else
    match verify (token.getD "") with
    | .error message => .respond ⟨403, false, "Invalid token: " ++ message⟩
    | .ok decoded =>
      match users.filter fun u => decide (u.id = decoded.id) with
      | [] => .respond ⟨401, false, "Invalid token - user not found"⟩
      | user :: _ => .next user

/-- Middleware `requireAdmin` of `middleware/auth.js` (lines 58-66): the reply
it sends, or `none` when it calls `next`. -/
def requireAdmin (user : User) : Option Reply :=
  if user.role ≠ "admin" then some ⟨403, false, "Admin access required"⟩ else none

/-- The chain `authenticateToken, requireAdmin, ...rest` of the admin routes in
`routes/products.js` and `routes/categories.js`; `rest` is what follows the two
gates (validation and controller). -/
def adminChain (verify : String → Except String Decoded) (shop : Shop)
    (authHeader : Option String) (rest : Shop → ShopHandled) : ShopHandled :=
  match authenticateToken verify shop.users authHeader with
  | .respond reply => ⟨reply, none⟩
  | .next user =>
    match requireAdmin user with
    | some reply => ⟨reply, none⟩
    | none => rest shop

/-- The six routes that create, update or delete a product or a category. -/
inductive CatalogRoute where
  | postProduct
  | putProduct
  | deleteProduct
  | postCategory
  | putCategory
  | deleteCategory
deriving DecidableEq

/-- What a request to one of these routes carries besides the `Authorization`
header: the route parameter, the body (read as a product or as a category body)
and what the upload middleware left on it. -/
structure CatalogRequest where
  id : Option Int
  product : ProductBody
  category : CategoryBody
  upload : Upload
deriving DecidableEq

/-- What follows the two gates on each route: the validation chain and the controller. -/
def CatalogRoute.rest (isURL : String → Bool) (req : CatalogRequest) :
    CatalogRoute → Shop → ShopHandled
  | .postProduct => fun shop =>
      createProduct shop (productValidation isURL req.product) req.product req.upload.file
  | .putProduct => fun shop =>
      updateProduct shop (productUpdateValidation isURL req.product) req.id req.product req.upload
  | .deleteProduct => fun shop => Ecommerce.deleteProduct shop req.id
  | .postCategory => fun shop =>
      createCategory shop (categoryValidation req.category) (categorySanitize req.category)
  | .putCategory => fun shop =>
      updateCategory shop (categoryUpdateValidation req.category) req.id
        (categorySanitize req.category)
  | .deleteCategory => fun shop => Ecommerce.deleteCategory shop req.id

/-- A request to one of the six routes, through the whole chain. -/
def CatalogRoute.handle (route : CatalogRoute) (verify : String → Except String Decoded)
    (isURL : String → Bool) (shop : Shop) (authHeader : Option String)
    (req : CatalogRequest) : ShopHandled :=
  adminChain verify shop authHeader (route.rest isURL req)

/-! ### Concrete catalogue used in the examples -/

/-- A catalogue with two categories, one product in category 1 (out of stock),
an administrator (user 1) and a customer (user 2). -/
def shop0 : Shop :=
  { categories := [⟨1, "Kitchen", some "Kitchen ware", 0⟩, ⟨2, "Office", none, 0⟩]
    products := [⟨1, "Mug", some "A mug", 1999 / 100, 1, 0, none, 0⟩]
    users := [⟨1, "root", "root@shop.test", "admin"⟩, ⟨2, "ann", "ann@shop.test", "user"⟩]
    categoryAutoInc := 3
    productAutoInc := 2 }

/-- A token checker that accepts `t1`, `t2` and `t9` as tokens of users 1, 2
and 9 and rejects everything else as expired. -/
def verify0 (token : String) : Except String Decoded :=
  if token = "t1" then .ok ⟨1, "root"⟩
  else if token = "t2" then .ok ⟨2, "ann"⟩
  else if token = "t9" then .ok ⟨9, "gone"⟩
  else .error "jwt expired"

/-- A request body that names no field. -/
def emptyProductBody : ProductBody := ⟨none, none, none, none, none, none⟩

/-- A request that carries nothing. -/
def emptyRequest : CatalogRequest := ⟨some 1, emptyProductBody, ⟨none, none⟩, .notMultipart⟩

/-- Specification of the `SET` clause of `updateProduct`: one assignment, in
this order, for each field the handler takes as supplied — `name`, `price` and
`category_id` when their value is truthy, `description` and `stock_quantity`
when the body has them, `image_url` when a file was uploaded — paired with the
value bound to it. -/
def productAssignmentsSpec (updateData : ProductBody) (file : Option String) :
    List (String × SqlValue) :=
  (if truthyStr updateData.name then
    [("name = ?", SqlValue.str (jsTrim (updateData.name.getD "")))] else []) ++
  (if updateData.description.isSome then
    [("description = ?", SqlValue.ofText (trimOrNull updateData.description))] else []) ++
  (if truthyNum updateData.price then
    [("price = ?", SqlValue.num (parseFloat (updateData.price.getD 0)))] else []) ++
  (if truthy updateData.category_id then
    [("category_id = ?", SqlValue.int (parseInt (updateData.category_id.getD 0)))] else []) ++
  (if updateData.stock_quantity.isSome then
    [("stock_quantity = ?", SqlValue.int (parseIntOr0 updateData.stock_quantity))] else []) ++
  (match file with
    | some filename => [("image_url = ?", SqlValue.str ("/uploads/" ++ filename))]
    | none => [])

/-- Specification of the `SET` clause of `updateCategory`: `name` when its value
is truthy, `description` when the body has it. -/
def categoryAssignmentsSpec (updateData : CategoryBody) : List (String × SqlValue) :=
  (if truthyStr updateData.name then
    [("name = ?", SqlValue.str (jsTrim (updateData.name.getD "")))] else []) ++
  (if updateData.description.isSome then
    [("description = ?", SqlValue.ofText (trimOrNull updateData.description))] else [])

/-- The assignments a dynamic `UPDATE` may contain. -/
def knownAssignments : List String :=
  ["name = ?", "description = ?", "price = ?", "category_id = ?", "stock_quantity = ?",
    "image_url = ?"]

/-- A body that renames a product and sets its price to 0. -/
def zeroPriceBody : ProductBody := ⟨some "Cup", none, some 0, none, none, none⟩

/-- A full body for the admin route that sets the stock of the mug to -5. -/
def negativeStockBody : AdminProductBody :=
  ⟨"Mug", some "A mug", 1999 / 100, -5, 1, none⟩

/-! ## Checkout flow (`context/CheckoutContext.js`)

The reducer, the step functions and `processOrder`.  Each call of `nextStep` or
`prevStep` reads the state left by the previous dispatch (one render per call);
`Date.now()` is the input `now` (milliseconds) and dates stay numbers. -/

/-- The `shipping` part of the checkout state. -/
structure Shipping where
  firstName : String
  lastName : String
  email : String
  phone : String
  address : String
  city : String
  state : String
  zipCode : String
  country : String
deriving DecidableEq

/-- The `billingAddress` part of the payment data. -/
structure BillingAddress where
  sameAsShipping : Bool
  address : String
  city : String
  state : String
  zipCode : String
deriving DecidableEq

/-- The `payment` part of the checkout state. -/
structure Payment where
  method : String
  cardNumber : String
  expiryDate : String
  cvv : String
  nameOnCard : String
  billingAddress : BillingAddress
deriving DecidableEq

/-- The object `orderData` built by `processOrder`. -/
structure OrderData where
  id : String
  items : RawCart
  shipping : Shipping
  payment : Payment
  totals : Totals
  status : String
  orderDate : Nat
  estimatedDelivery : Nat
deriving DecidableEq

/-- The state of `checkoutReducer`. -/
structure CheckoutState where
  currentStep : Int
  shipping : Shipping
  payment : Payment
  orderDetails : Option OrderData
  loading : Bool
  error : Option String
deriving DecidableEq

/-- The actions of `checkoutReducer`; `other` is any action of another type. -/
inductive CheckoutAction where
  | SET_STEP (payload : Int)
  | SET_SHIPPING (payload : Shipping)
  | SET_PAYMENT (payload : Payment)
  | SET_ORDER_DETAILS (payload : Option OrderData)
  | SET_LOADING (payload : Bool)
  | SET_ERROR (payload : Option String)
  | RESET_CHECKOUT
  | other
deriving DecidableEq

/-- The constant `initialState` (lines 28-58). -/
def initialState : CheckoutState :=
  { currentStep := 1
    shipping := ⟨"", "", "", "", "", "", "", "", "US"⟩
    payment := ⟨"card", "", "", "", "", ⟨true, "", "", "", ""⟩⟩
    orderDetails := none
    loading := false
    error := none }

/-- Function `checkoutReducer` (lines 7-26). -/
def checkoutReducer (state : CheckoutState) : CheckoutAction → CheckoutState
  | .SET_STEP payload => { state with currentStep := payload }
  | .SET_SHIPPING payload => { state with shipping := payload }
  | .SET_PAYMENT payload => { state with payment := payload }
  | .SET_ORDER_DETAILS payload => { state with orderDetails := payload }
  | .SET_LOADING payload => { state with loading := payload }
  | .SET_ERROR payload => { state with error := payload }
  | .RESET_CHECKOUT => initialState
  | .other => state

/-- Function `nextStep` (lines 81-85), followed by the dispatch it makes. -/
def nextStep (state : CheckoutState) : CheckoutState :=
  if state.currentStep < 4 then
    checkoutReducer state (.SET_STEP (state.currentStep + 1))
  else state

/-- Function `prevStep` (lines 88-92), followed by the dispatch it makes. -/
def prevStep (state : CheckoutState) : CheckoutState :=
  if state.currentStep > 1 then
    checkoutReducer state (.SET_STEP (state.currentStep - 1))
  else state

/-- A call of one of the two step functions. -/
inductive StepCall where
  | next
  | prev
deriving DecidableEq

/-- The state after a sequence of calls, the first call first. -/
def runSteps (state : CheckoutState) : List StepCall → CheckoutState
  | [] => state
  | .next :: calls => runSteps (nextStep state) calls
  | .prev :: calls => runSteps (prevStep state) calls

/-- JavaScript `s.slice(-4)`: the last four characters. -/
def sliceLast4 (s : String) : String :=
  String.mk (s.toList.drop (s.toList.length - 4))

/-- The object `orderData` of `processOrder` (lines 113-122). -/
def makeOrder (state : CheckoutState) (cartItems : RawCart) (now : Nat) : OrderData :=
  { id := "ORD-" ++ toString now
    items := cartItems
    shipping := state.shipping
    payment := { state.payment with cardNumber := "****" ++ sliceLast4 state.payment.cardNumber }
    totals := calculateTotals cartItems
    status := "confirmed"
    orderDate := now
    estimatedDelivery := now + 7 * 24 * 60 * 60 * 1000 }

/-- What `processOrder` leaves behind. -/
structure Processed where
  state : CheckoutState
  orderHistory : List OrderData
  cartItems : RawCart
deriving DecidableEq

/-- Function `processOrder` (lines 105-140): the dispatches in order, the new
order history and the cleared cart. -/
def processOrder (state : CheckoutState) (cartItems : RawCart)
    (orderHistory : List OrderData) (now : Nat) : Processed :=
  let s1 := checkoutReducer state (.SET_LOADING true)
  let s2 := checkoutReducer s1 (.SET_ERROR none)
  let orderData := makeOrder state cartItems now
  let s3 := checkoutReducer s2 (.SET_ORDER_DETAILS (some orderData))
  let s4 := checkoutReducer s3 (.SET_STEP 4)
  let s5 := checkoutReducer s4 (.SET_LOADING false)
  { state := s5, orderHistory := orderData :: orderHistory, cartItems := .array [] }

/-- The statuses of an order: the list `validStatuses` of `test/models.test.js`
(line 150), which is also the colour table of `components/Orders.js`. -/
def validStatuses : List String :=
  ["pending", "processing", "shipped", "delivered", "cancelled"]

/-! ## Upload filter (`middleware/upload.js`) -/

/-- The file description multer hands to `fileFilter`. -/
structure UploadFile where
  originalname : String
  mimetype : String
deriving DecidableEq

/-- Whether the characters `pat` occur consecutively somewhere in `s`. -/
def containsSub (pat s : List Char) : Bool :=
  s.tails.any fun t => pat.isPrefixOf t

/-- The test `/jpeg|jpg|png|gif|webp/.test(s)` of the constant `allowedTypes`:
the regular expression has no anchors, so it looks for one of the five words
anywhere in `s`. -/
def allowedTypesTest (s : String) : Bool :=
  ["jpeg", "jpg", "png", "gif", "webp"].any fun w => containsSub w.toList s.toList

/-- Node's `path.extname` (POSIX): the part of the last path component from its
last `.` on; empty when the component has no `.`, starts with its only `.`, or
is `..`. -/
def extname (path : String) : String :=
  let reversed := path.toList.reverse.dropWhile fun c => c = '/'
  let base := (reversed.takeWhile fun c => c ≠ '/').reverse
  let afterDot := (reversed.takeWhile fun c => c ≠ '.' ∧ c ≠ '/').reverse
  if !base.contains '.' then ""
  else if base.length = afterDot.length + 1 then ""
  else if base = ['.', '.'] then ""
  else String.mk ('.' :: afterDot)

/-- JavaScript `s.toLowerCase()` (ASCII letters). -/
def toLowerCase (s : String) : String := String.mk (s.toList.map Char.toLower)

/-- Function `fileFilter` (lines 23-33): `cb(null, true)` is `.ok true`, the
error passed to `cb` is `.error` with its message. -/
def fileFilter (file : UploadFile) : Except String Bool :=
  let extname := allowedTypesTest (toLowerCase (extname file.originalname))
  let mimetype := allowedTypesTest file.mimetype
  if mimetype && extname then .ok true
  else .error "Only image files (JPEG, JPG, PNG, GIF, WebP) are allowed!"

/-- The extensions the filter is meant to let through. -/
def imageExtensions : List String := [".jpeg", ".jpg", ".png", ".gif", ".webp"]

/-- The MIME types the filter is meant to let through. -/
def imageMimeTypes : List String := ["image/jpeg", "image/png", "image/gif", "image/webp"]

/-- A file that is not an image: extension `.pngx`, MIME type `text/png`. -/
def notAnImage : UploadFile := ⟨"script.pngx", "text/png"⟩

/-! ## Accounts (`routes/auth.js`)

The library calls are parameters: `hash` is `bcrypt.hash(password, 10)`,
`compare` is `bcrypt.compare`, `sign` is `jwt.sign(payload, secret, {expiresIn})`
and `verify` is `jwt.verify(token, secret)`. -/

/-- A full row of `users`. -/
structure Account where
  id : Int
  username : String
  email : String
  password : String
  first_name : String
  last_name : String
  role : String
  phone : Option String
  address : Option String
  created_at : Nat
deriving DecidableEq

/-- The `users` table with the key of the next inserted row. -/
structure AccountsDb where
  users : List Account
  userAutoInc : Int
deriving DecidableEq

/-- The payload the login route signs and `jwt.verify` returns. -/
structure TokenPayload where
  id : Int
  email : String
  username : String
  role : String
deriving DecidableEq

/-- The `user` object of a login or profile reply. -/
structure UserResponse where
  id : Int
  username : String
  email : String
  firstName : String
  lastName : String
  phone : String
  address : String
  role : String
  created_at : Nat
deriving DecidableEq

/-- A reply of the auth router. -/
structure AuthReply where
  status : Nat
  success : Bool
  message : Option String
  token : Option String
  user : Option UserResponse
  userId : Option Int
deriving DecidableEq

/-- A reply that carries only a message. -/
def AuthReply.fail (status : Nat) (message : String) : AuthReply :=
  ⟨status, false, some message, none, none, none⟩

/-- Statement `INSERT INTO users (username, email, password, first_name,
last_name, role, created_at) VALUES (?, ?, ?, ?, ?, 'user', NOW())`. -/
structure InsertUser where
  username : String
  email : String
  password : String
  first_name : String
  last_name : String
deriving DecidableEq

/-- What the register route does: its reply and the row it inserted, if any. -/
structure Registered where
  reply : AuthReply
  stmt : Option InsertUser
deriving DecidableEq

/-- Effect of the `INSERT` on the `users` table at time `now`. -/
def InsertUser.run (now : Nat) (db : AccountsDb) (s : InsertUser) : AccountsDb :=
  { users := db.users ++
      [⟨db.userAutoInc, s.username, s.email, s.password, s.first_name, s.last_name, "user",
        none, none, now⟩]
    userAutoInc := db.userAutoInc + 1 }

/-- The `users` table after a registration request. -/
def AccountsDb.after (db : AccountsDb) (now : Nat) (r : Registered) : AccountsDb :=
  match r.stmt with
  | none => db
  | some s => s.run now db

/-- JavaScript `s.length`: the number of UTF-16 code units. -/
def jsLength (s : String) : Nat :=
  (s.toList.map fun c => if c.val ≥ 0x10000 then 2 else 1).sum

/-- Body of `POST /register`. -/
structure RegisterBody where
  username : Option String
  email : Option String
  password : Option String
  firstName : Option String
  lastName : Option String
deriving DecidableEq

/-- Handler of `POST /register` (lines 34-107). -/
def register (hash : String → String) (db : AccountsDb) (body : RegisterBody) : Registered :=
  if !truthyStr body.username || !truthyStr body.email || !truthyStr body.password ||
      !truthyStr body.firstName || !truthyStr body.lastName then
    ⟨.fail 400 "All fields are required", none⟩
  else
    let username := body.username.getD ""
    let email := body.email.getD ""
    let password := body.password.getD ""
    if jsLength password < 6 then
      ⟨.fail 400 "Password must be at least 6 characters long", none⟩
    else
      let insert : Registered :=
        ⟨⟨201, true, some "Account created successfully! Welcome to LuxeShop!", none, none,
            some db.userAutoInc⟩,
          some ⟨username, email, hash password, body.firstName.getD "", body.lastName.getD ""⟩⟩
      match db.users.filter fun u => decide (u.email = email ∨ u.username = username) with
      | existingUser :: _ =>
        if existingUser.email = email then
          ⟨.fail 400 "User with this email already exists", none⟩
        else if existingUser.username = username then
          ⟨.fail 400 "Username is already taken", none⟩
        else insert
      | [] => insert

/-- Body of `POST /login`. -/
structure LoginBody where
  email : Option String
  password : Option String
deriving DecidableEq

/-- The `user` object built from a row (`phone || ''`, `address || ''`). -/
def Account.response (user : Account) : UserResponse :=
  { id := user.id, username := user.username, email := user.email,
    firstName := user.first_name, lastName := user.last_name,
    phone := user.phone.getD "", address := user.address.getD "",
    role := user.role, created_at := user.created_at }

/-- The payload signed for a row. -/
def Account.payload (user : Account) : TokenPayload :=
  { id := user.id, email := user.email, username := user.username, role := user.role }

/-- Handler of `POST /login` (lines 110-184). -/
def login (compare : String → String → Bool) (sign : TokenPayload → String)
    (db : AccountsDb) (body : LoginBody) : AuthReply :=
  if !truthyStr body.email || !truthyStr body.password then
    .fail 400 "Email and password are required"
  else
    match db.users.filter fun u => decide (u.email = body.email.getD "") with
    | [] => .fail 401 "Invalid email or password"
    | user :: _ =>
      let isValidPassword := compare (body.password.getD "") user.password
      if !isValidPassword then
        .fail 401 "Invalid email or password"
      else
        let token := sign user.payload
        ⟨200, true, some "Login successful", some token, some user.response, none⟩

/-- The middleware `authenticateToken` local to `routes/auth.js` (lines 8-31):
the reply it sends, or the decoded payload it stores in `req.user`. -/
def authenticateTokenLocal (verify : String → Except String TokenPayload)
    (authHeader : Option String) : Except AuthReply TokenPayload :=
  let token := bearerToken authHeader
  if !truthyStr token then
    .error (.fail 401 "Access token required")
  else
    match verify (token.getD "") with
    | .error _ => .error (.fail 403 "Invalid or expired token")
    | .ok decoded => .ok decoded

/-- Route `GET /profile` (lines 187-226) behind its middleware. -/
def getProfile (verify : String → Except String TokenPayload) (db : AccountsDb)
    (authHeader : Option String) : AuthReply :=
  match authenticateTokenLocal verify authHeader with
  | .error reply => reply
  | .ok reqUser =>
    match db.users.filter fun u => decide (u.id = reqUser.id) with
    | [] => .fail 404 "User not found"
    | user :: _ => ⟨200, true, none, none, some user.response, none⟩

/-- An account table with one customer. -/
def accounts0 : AccountsDb :=
  { users := [⟨1, "ann", "ann@shop.test", "hash(secret1)", "Ann", "Lee", "user", none,
      some "1 Main St", 0⟩]
    userAutoInc := 2 }

/-- A stand-in for `bcrypt.hash`. -/
def hash0 (password : String) : String := "hash(" ++ password ++ ")"

/-- A stand-in for `bcrypt.compare`. -/
def compare0 (password hashed : String) : Bool := decide (hash0 password = hashed)

/-- A stand-in for `jwt.sign`: the token names the user. -/
def sign0 (payload : TokenPayload) : String := "tok." ++ payload.username

/-- A stand-in for `jwt.verify` that knows the token of `ann`. -/
def verifyAnn (token : String) : Except String TokenPayload :=
  if token = "tok.ann" then .ok ⟨1, "ann@shop.test", "ann", "user"⟩ else .error "invalid token"

/-! ## Product listing (`getAllProducts` of `productController.js`)

A query-string value is `Option String` (for a repeated parameter, the text
JavaScript makes of the array).  Numbers stay below `2 ^ 53`, where JavaScript
computes with whole numbers exactly.  The built-in `isNaN` and the SQL
operator `LIKE` are parameters.  The database refuses a statement whose `LIMIT`
or `OFFSET` is not a non-negative integer (`db.execute` then throws and the
`catch` answers 500). -/

/-- Value of a decimal digit. -/
def digitValue (c : Char) : Option Nat :=
  if c.isDigit then some (c.toNat - 48) else none

/-- Value of a hexadecimal digit. -/
def hexValue (c : Char) : Option Nat :=
  if c.isDigit then some (c.toNat - 48)
  else if 'a' ≤ c ∧ c ≤ 'f' then some (c.toNat - 87)
  else if 'A' ≤ c ∧ c ≤ 'F' then some (c.toNat - 55)
  else none

/-- The values of the longest prefix of digits. -/
def leadingDigits (value : Char → Option Nat) : List Char → List Nat
  | [] => []
  | c :: cs =>
    match value c with
    | some d => d :: leadingDigits value cs
    | none => []

/-- JavaScript `parseInt(s)` on a string: leading white space, an optional sign,
an optional `0x` prefix, then the longest run of digits; `none` is `NaN`. -/
def parseIntStr (s : String) : Option Int :=
  let cs := s.toList.dropWhile isJsWhiteSpace
  let signed : Bool × List Char :=
    match cs with
    | '-' :: r => (true, r)
    | '+' :: r => (false, r)
    | r => (false, r)
  let prefixed : Nat × List Char :=
    match signed.2 with
    | '0' :: 'x' :: r => (16, r)
    | '0' :: 'X' :: r => (16, r)
    | r => (10, r)
  let digits := leadingDigits (if prefixed.1 = 16 then hexValue else digitValue) prefixed.2
  if digits = [] then none
  else
    let n : Int := (digits.foldl (fun acc d => acc * prefixed.1 + d) 0 : Nat)
    some (if signed.1 then -n else n)

/-- The query string of `GET /api/products`. -/
structure ProductsQuery where
  limit : Option String
  page : Option String
  category : Option String
  search : Option String
deriving DecidableEq

/-- Expression `parseInt(limit)` with the default `limit = 20`. -/
def parsedLimit (q : ProductsQuery) : Option Int :=
  match q.limit with
  | none => some (parseInt 20)
  | some s => parseIntStr s

/-- Expression `parseInt(page)` with the default `page = 1`. -/
def parsedPage (q : ProductsQuery) : Option Int :=
  match q.page with
  | none => some (parseInt 1)
  | some s => parseIntStr s

/-- The constant `limitNum = Math.min(parseInt(limit) || 20, 100)` (line 11). -/
def limitNum (q : ProductsQuery) : Int :=
  min ((jsOr (parsedLimit q) (some 20)).getD 20) 100

/-- The constant `offset = (parseInt(page) - 1) * limitNum` (line 12); `none` is `NaN`. -/
def offset (q : ProductsQuery) : Option Int :=
  (parsedPage q).map fun page => (page - 1) * limitNum q

/-- How JavaScript prints a number inside a template string. -/
def numberToString : Option Int → String
  | none => "NaN"
  | some n => toString n

/-- A value bound to a placeholder of the listing queries; `number none` is `NaN`. -/
inductive QueryParam where
  | number (n : Option Int)
  | text (s : String)
deriving DecidableEq

/-- The conditions appended to the data query and the values pushed to `params`
(lines 24-36). -/
def dataFilter (isNaN : String → Bool) (q : ProductsQuery) : List String × List QueryParam :=
  let conditions : List String := []
  let params : List QueryParam := []
  let (conditions, params) :=
    if truthyStr q.category && !isNaN (q.category.getD "") then
      (conditions ++ [" AND p.category_id = ?"],
        params ++ [.number (parseIntStr (q.category.getD ""))])
    else (conditions, params)
  let (conditions, params) :=
    if truthyStr q.search then
      (conditions ++ [" AND (p.name LIKE ? OR p.description LIKE ?)"],
        params ++ [.text ("%" ++ q.search.getD "" ++ "%"), .text ("%" ++ q.search.getD "" ++ "%")])
    else (conditions, params)
  (conditions, params)

/-- The conditions appended to the count query and the values pushed to
`countParams` (lines 52-62). -/
def countFilter (isNaN : String → Bool) (q : ProductsQuery) : List String × List QueryParam :=
  let conditions : List String := []
  let countParams : List QueryParam := []
  let (conditions, countParams) :=
    if truthyStr q.category && !isNaN (q.category.getD "") then
      (conditions ++ [" AND p.category_id = ?"],
        countParams ++ [.number (parseIntStr (q.category.getD ""))])
    else (conditions, countParams)
  let (conditions, countParams) :=
    if truthyStr q.search then
      (conditions ++ [" AND (p.name LIKE ? OR p.description LIKE ?)"],
        countParams ++
          [.text ("%" ++ q.search.getD "" ++ "%"), .text ("%" ++ q.search.getD "" ++ "%")])
    else (conditions, countParams)
  (conditions, countParams)

/-- The tail `ORDER BY p.name ASC LIMIT ${limitNum} OFFSET ${offset}` (line 39). -/
def pagingClause (q : ProductsQuery) : String :=
  " ORDER BY p.name ASC LIMIT " ++ numberToString (some (limitNum q)) ++ " OFFSET " ++
    numberToString (offset q)

/-- The text of the data query. -/
def dataQuery (isNaN : String → Bool) (q : ProductsQuery) : String :=
  "SELECT p.*, c.name as category_name FROM products p " ++
    "LEFT JOIN categories c ON p.category_id = c.id WHERE p.stock_quantity > 0" ++
    String.join (dataFilter isNaN q).1 ++ pagingClause q

/-- The text of the count query. -/
def countQuery (isNaN : String → Bool) (q : ProductsQuery) : String :=
  "SELECT COUNT(*) as total FROM products p WHERE p.stock_quantity > 0" ++
    String.join (countFilter isNaN q).1

/-- Whether a product satisfies appended conditions, each read with the values
bound to its placeholders; a text that is `NULL` matches no pattern. -/
def evalConditions (like : String → String → Bool) :
    List String → List QueryParam → ProductRow → Bool
  | [], _, _ => true
  | " AND p.category_id = ?" :: conditions, .number n :: params, p =>
      decide (n = some p.category_id) && evalConditions like conditions params p
  | " AND (p.name LIKE ? OR p.description LIKE ?)" :: conditions,
      .text a :: .text b :: params, p =>
      (like p.name a || (p.description.map fun d => like d b).getD false) &&
        evalConditions like conditions params p
  | _, _, _ => false

/-- The products a listing query selects: `p.stock_quantity > 0` and the
appended conditions. -/
def selectListed (like : String → String → Bool) (shop : Shop)
    (filter : List String × List QueryParam) : List ProductRow :=
  shop.products.filter fun p =>
    decide (p.stock_quantity > 0) && evalConditions like filter.1 filter.2 p

/-- The rows of the data query before `LIMIT` and `OFFSET`: the selected
products, each with the name of its category (`LEFT JOIN`), ordered by name. -/
def dataRowsAll (like : String → String → Bool) (isNaN : String → Bool) (shop : Shop)
    (q : ProductsQuery) : List (ProductRow × Option String) :=
  ((selectListed like shop (dataFilter isNaN q)).flatMap fun p =>
    match shop.categories.filter fun c => decide (p.category_id = c.id) with
    | [] => [(p, none)]
    | c :: cs => (c :: cs).map fun c => (p, some c.name)).insertionSort
      fun a b => decide (¬ b.1.name < a.1.name)

/-- The value `countResult[0].total`. -/
def countTotal (like : String → String → Bool) (isNaN : String → Bool) (shop : Shop)
    (q : ProductsQuery) : Nat :=
  (selectListed like shop (countFilter isNaN q)).length

/-- The `pagination` object of the reply. -/
structure Pagination where
  current_page : Option Int
  per_page : Int
  total : Nat
  total_pages : Int
deriving DecidableEq

/-- The reply of `getAllProducts`. -/
structure ProductsReply where
  status : Nat
  success : Bool
  data : List (ProductRow × Option String)
  pagination : Option Pagination
  message : Option String
deriving DecidableEq

/-- Handler `getAllProducts` of `productController.js` (lines 6-85). -/
def getAllProducts (like : String → String → Bool) (isNaN : String → Bool) (shop : Shop)
    (q : ProductsQuery) : ProductsReply :=
  match offset q with
  | none => ⟨500, false, [], none, some "Failed to fetch products"⟩
  | some off =>
    if limitNum q < 0 ∨ off < 0 then
      ⟨500, false, [], none, some "Failed to fetch products"⟩
    else
      let rows := ((dataRowsAll like isNaN shop q).drop off.toNat).take (limitNum q).toNat
      let total := countTotal like isNaN shop q
      ⟨200, true, rows,
        some { current_page := parsedPage q
               per_page := limitNum q
               total := total
               total_pages := ⌈(total : ℚ) / (limitNum q : ℚ)⌉ },
        none⟩

/-- Handler `getCategoryById` of `categoryController.js` (lines 51-105), without
`include_products`: the reply and the row with its `product_count`, the number
of products of the category with `stock_quantity > 0`. -/
def getCategoryById (shop : Shop) (id : Option Int) : Reply × Option (Category × Nat) :=
  match id with
  | none => (⟨400, false, "Valid category ID is required"⟩, none)
  | some id =>
    match (shop.categories.filter fun c => decide (c.id = id)).map fun c =>
        (c, (shop.products.filter fun p =>
          decide (c.id = p.category_id ∧ p.stock_quantity > 0)).length) with
    | [] => (⟨404, false, "Category not found"⟩, none)
    | category :: _ => (⟨200, true, ""⟩, some category)

/-- A catalogue with three products in stock, two of them in category 1. -/
def shop1 : Shop :=
  { categories := [⟨1, "Kitchen", none, 0⟩, ⟨2, "Office", none, 0⟩]
    products := [⟨1, "Mug", none, 5, 1, 3, none, 0⟩, ⟨2, "Pen", some "Blue pen", 1, 2, 9, none, 0⟩,
      ⟨3, "Cup", none, 4, 1, 2, none, 0⟩]
    users := []
    categoryAutoInc := 3
    productAutoInc := 4 }

/-- A stand-in for `LIKE`: the pattern `%s%` matches the texts that contain `s`. -/
def like0 (text pattern : String) : Bool :=
  containsSub ((pattern.toList.drop 1).dropLast) text.toList

/-- A stand-in for `isNaN` on the strings used in the examples. -/
def isNaN0 (s : String) : Bool := (parseIntStr s).isNone

/-! ## The local cart of `CartContext.js`

For a visitor who is not signed in `addToCart` works on the `cartItems` array of
the provider; the product object is a `LineItem` whose `quantity` is replaced. -/

/-- JavaScript `findIndex`: the index of the first element that satisfies `p`,
or -1 when there is none. -/
def findIndex {α : Type} (p : α → Bool) (l : List α) : Int :=
  if l.findIdx p < l.length then (l.findIdx p : Int) else -1

/-- Function `addToCart` of `CartContext.js`, branch without a signed-in user
(lines 171-188): the array passed to `setCartItems`.  `quantity` is `none` when
the argument is left out (default 1).  The sum of a missing `quantity` and a
number is `NaN`, which is falsy like a missing value and is written `none`. -/
def CartProvider.addToCart (cartItems : List LineItem) (product : LineItem)
    (quantity : Option Int) : List LineItem :=
  let quantity := quantity.getD 1
  let existingItemIndex := findIndex (fun item => decide (item.id = product.id)) cartItems
  if existingItemIndex ≥ 0 then
    let updatedItems := cartItems
    updatedItems.modify
      (fun item => { item with quantity := item.quantity.map fun old => old + quantity })
      existingItemIndex.toNat
  else
    cartItems ++ [{ product with quantity := some quantity }]

/-- Function `getCartCount` of `CartContext.js` (lines 322-328). -/
def CartProvider.getCartCount (cartItems : List LineItem) : Int :=
  cartItems.foldl (fun count item => count + lineQuantity item) 0

/-- A local cart whose only item carries no `quantity`. -/
def cartWithoutQuantity : List LineItem := [⟨1, some 5, none, none⟩]

/-! ## `updateCartItem` on a quantity that is not a whole number

The handler tests `!quantity || quantity < 1` and `quantity > stock_quantity`
and nothing else, so a JSON number such as 1.5 goes through.  The column that
receives it is not part of the sources, so for such a number the model stops at
the values bound to the `UPDATE`. -/

/-- What `updateCartItem` does on a numeric `quantity`: its reply and, when the
statement `UPDATE cart SET quantity = ?, updated_at = NOW() WHERE id = ?` runs,
the two values bound to it. -/
structure NumberHandled where
  reply : Reply
  bound : Option (ℚ × Int)
deriving DecidableEq

/-- Handler `updateCartItem` of `cartController.js` (lines 144-204) for a body
whose `quantity` is absent or any number, whole or not. -/
def updateCartItemNumber (db : Db) (user_id cartId : Int) (quantity : Option ℚ) :
    NumberHandled :=
  match quantity with
  | none => ⟨⟨400, false, "Valid quantity is required"⟩, none⟩
  | some q =>
    if q = 0 ∨ q < 1 then
      ⟨⟨400, false, "Valid quantity is required"⟩, none⟩
    else
      match selectOwnedItem db cartId user_id with
      | [] => ⟨⟨404, false, "Cart item not found"⟩, none⟩
      | cartItem :: _ =>
        if q > (cartItem.2.stock_quantity : ℚ) then
          ⟨⟨400, false, "Insufficient stock"⟩, none⟩
        else
          ⟨⟨200, true, "Cart updated successfully"⟩, some (q, cartId)⟩

/-- The catalogue `shop0` after `POST /api/categories` with the name of two
spaces: the chain accepts it (two characters), its `.trim()` leaves the empty
name, and `createCategory` inserts category 3 with that name. -/
def shopBlankName : Shop :=
  shop0.after 0 (CatalogRoute.postCategory.rest (fun _ => true)
    ⟨none, emptyProductBody, ⟨some "  ", none⟩, .notMultipart⟩ shop0)

/-- A cart worth 14. -/
def cartOf14 : List LineItem := [⟨1, some 14, none, some 1⟩]

/-! ## Unfolding lemmas for `addToCart` -/

theorem addToCart_falsy_id (db : Db) (u : Int) (body : AddBody)
    (hid : truthy (jsOr body.product_id body.productId) = false) :
    addToCart db u body = ⟨⟨400, false, "Product ID is required"⟩, none⟩ := by
  simp [addToCart, hid]

theorem addToCart_no_product (db : Db) (u : Int) (body : AddBody) (pid : Int)
    (hid : jsOr body.product_id body.productId = some pid) (h0 : pid ≠ 0)
    (hp : selectProducts db pid = []) :
    addToCart db u body = ⟨⟨404, false, "Product not found"⟩, none⟩ := by
  simp [addToCart, hid, truthy, h0, hp]

theorem addToCart_insufficient (db : Db) (u : Int) (body : AddBody) (pid : Int)
    (product : Product) (rest : List Product)
    (hid : jsOr body.product_id body.productId = some pid) (h0 : pid ≠ 0)
    (hp : selectProducts db pid = product :: rest)
    (hq : product.stock_quantity < body.requested) :
    addToCart db u body = ⟨⟨400, false, "Insufficient stock"⟩, none⟩ := by
  simp only [AddBody.requested] at hq
  simp [addToCart, hid, truthy, h0, hp, hq]

theorem addToCart_insert (db : Db) (u : Int) (body : AddBody) (pid : Int)
    (product : Product) (rest : List Product)
    (hid : jsOr body.product_id body.productId = some pid) (h0 : pid ≠ 0)
    (hp : selectProducts db pid = product :: rest)
    (hq : body.requested ≤ product.stock_quantity)
    (he : selectExisting db u pid = []) :
    addToCart db u body =
      ⟨⟨200, true, product.name ++ " added to cart successfully"⟩,
        some (.insertCart u pid body.requested)⟩ := by
  simp only [AddBody.requested] at hq ⊢
  simp [addToCart, hid, truthy, h0, hp, not_lt.mpr hq, he]

theorem addToCart_merge_reject (db : Db) (u : Int) (body : AddBody) (pid : Int)
    (product : Product) (rest : List Product) (existing : CartRow) (others : List CartRow)
    (hid : jsOr body.product_id body.productId = some pid) (h0 : pid ≠ 0)
    (hp : selectProducts db pid = product :: rest)
    (hq : body.requested ≤ product.stock_quantity)
    (he : selectExisting db u pid = existing :: others)
    (hsum : product.stock_quantity < existing.quantity + body.requested) :
    addToCart db u body =
      ⟨⟨400, false, "Cannot add more items than available in stock"⟩, none⟩ := by
  simp only [AddBody.requested] at hq hsum
  simp [addToCart, hid, truthy, h0, hp, not_lt.mpr hq, he, parseInt, hsum]

theorem addToCart_merge_accept (db : Db) (u : Int) (body : AddBody) (pid : Int)
    (product : Product) (rest : List Product) (existing : CartRow) (others : List CartRow)
    (hid : jsOr body.product_id body.productId = some pid) (h0 : pid ≠ 0)
    (hp : selectProducts db pid = product :: rest)
    (hq : body.requested ≤ product.stock_quantity)
    (he : selectExisting db u pid = existing :: others)
    (hsum : existing.quantity + body.requested ≤ product.stock_quantity) :
    addToCart db u body =
      ⟨⟨200, true, product.name ++ " added to cart successfully"⟩,
        some (.updateCartQuantity (existing.quantity + body.requested) existing.id)⟩ := by
  simp only [AddBody.requested] at hq hsum ⊢
  simp [addToCart, hid, truthy, h0, hp, not_lt.mpr hq, he, parseInt, not_lt.mpr hsum]

/-! ## Effect of the statements on the cart table -/

theorem selectExisting_after_update (db : Db) (now : Nat) (q id u pid : Int) :
    selectExisting (Stmt.run now db (.updateCartQuantity q id)) u pid =
      (selectExisting db u pid).map fun c =>
        if c.id = id then { c with quantity := q, updated_at := now } else c := by
  simp only [selectExisting, Stmt.run, List.filter_map]
  congr 1
  apply List.filter_congr
  intro c _
  by_cases h : c.id = id <;> simp [h]

theorem others_after_update (db : Db) (now : Nat) (q id : Int) :
    (Stmt.run now db (.updateCartQuantity q id)).cart.filter (fun c => decide (c.id ≠ id)) =
      db.cart.filter (fun c => decide (c.id ≠ id)) := by
  simp only [Stmt.run]
  induction db.cart with
  | nil => rfl
  | cons c cs ih =>
    by_cases h : c.id = id <;> simp_all [List.filter_cons]

/-! ## C1: merging into an existing line -/

/-- C1 (as stated, refuted): after user 7 posted quantity -3 for product 5
(stock 10) the user has one line of quantity q1 = -3; a request for q2 = 12 has
q1 + q2 = 9 ≤ 10, yet it is answered 400 and the line keeps quantity -3. -/
theorem addToCart_merge_counterexample :
    selectProducts dbNegative 5 = [product5] ∧
    selectExisting dbNegative 7 5 = [⟨1, 7, 5, -3, 0, 0⟩] ∧
    (-3 : Int) + 12 ≤ product5.stock_quantity ∧
    (addToCart dbNegative 7 ⟨some 5, none, some 12⟩).reply.status = 400 ∧
    selectExisting (dbNegative.after 1 (addToCart dbNegative 7 ⟨some 5, none, some 12⟩)) 7 5 =
      [⟨1, 7, 5, -3, 0, 0⟩] := by
  decide!

/-- C1 (amended): if the request names an existing product by a non-zero id, the
user has exactly one line `existing` for it, the requested quantity q2 does not
exceed the stock and q1 + q2 does not exceed the stock, then `addToCart`
succeeds, the user still has exactly one line for the product, its quantity is
q1 + q2, no row is inserted (same number of rows, same next key), and the lines
with another id are unchanged. -/
theorem addToCart_merge (db : Db) (u : Int) (body : AddBody) (pid : Int)
    (product : Product) (rest : List Product) (existing : CartRow) (now : Nat)
    (hid : jsOr body.product_id body.productId = some pid) (h0 : pid ≠ 0)
    (hp : selectProducts db pid = product :: rest)
    (he : selectExisting db u pid = [existing])
    (hq : body.requested ≤ product.stock_quantity)
    (hsum : existing.quantity + body.requested ≤ product.stock_quantity) :
    (addToCart db u body).reply.status = 200 ∧
    selectExisting (db.after now (addToCart db u body)) u pid =
      [{ existing with quantity := existing.quantity + body.requested, updated_at := now }] ∧
    (db.after now (addToCart db u body)).cart.length = db.cart.length ∧
    (db.after now (addToCart db u body)).cartAutoInc = db.cartAutoInc ∧
    (db.after now (addToCart db u body)).cart.filter (fun c => decide (c.id ≠ existing.id)) =
      db.cart.filter (fun c => decide (c.id ≠ existing.id)) := by
  rw [addToCart_merge_accept db u body pid product rest existing [] hid h0 hp hq he hsum]
  refine ⟨rfl, ?_, ?_, rfl, ?_⟩
  · simp only [Db.after]
    rw [selectExisting_after_update, he]
    simp
  · simp [Db.after, Stmt.run]
  · simp only [Db.after]
    exact others_after_update db now _ _

/-- C1 (amended), instance: user 7 holds 2 units of product 5 (stock 10) and adds 3. -/
theorem addToCart_merge_witness :
    (addToCart db2 7 ⟨some 5, none, some 3⟩).reply.status = 200 ∧
    selectExisting (db2.after 9 (addToCart db2 7 ⟨some 5, none, some 3⟩)) 7 5 =
      [⟨1, 7, 5, 2 + 3, 0, 9⟩] ∧
    (db2.after 9 (addToCart db2 7 ⟨some 5, none, some 3⟩)).cart.length = db2.cart.length ∧
    (db2.after 9 (addToCart db2 7 ⟨some 5, none, some 3⟩)).cartAutoInc = db2.cartAutoInc ∧
    (db2.after 9 (addToCart db2 7 ⟨some 5, none, some 3⟩)).cart.filter
        (fun c => decide (c.id ≠ 1)) = db2.cart.filter (fun c => decide (c.id ≠ 1)) :=
  addToCart_merge db2 7 ⟨some 5, none, some 3⟩ 5 product5 [] ⟨1, 7, 5, 2, 0, 0⟩ 9
    (by decide) (by decide) (by decide!) (by decide) (by decide) (by decide)

/-! ## C2: stock rejection -/

/-- C2: when the request names an existing product, `addToCart` answers 400,
issues no statement and leaves the database unchanged whenever the requested
quantity exceeds the product's stock, and also whenever the quantity of the
user's existing line plus the requested quantity exceeds the stock. -/
theorem addToCart_stock_rejection (db : Db) (u : Int) (body : AddBody) (pid : Int)
    (product : Product) (rest : List Product) (now : Nat)
    (hid : jsOr body.product_id body.productId = some pid)
    (hp : selectProducts db pid = product :: rest) :
    (product.stock_quantity < body.requested →
      (addToCart db u body).reply.status = 400 ∧ (addToCart db u body).stmt = none ∧
      db.after now (addToCart db u body) = db) ∧
    (∀ existing others, selectExisting db u pid = existing :: others →
      product.stock_quantity < existing.quantity + body.requested →
      (addToCart db u body).reply.status = 400 ∧ (addToCart db u body).stmt = none ∧
      db.after now (addToCart db u body) = db) := by
  by_cases h0 : pid = 0
  · have hf : truthy (jsOr body.product_id body.productId) = false := by
      rw [hid, h0]; rfl
    rw [addToCart_falsy_id db u body hf]
    exact ⟨fun _ => ⟨rfl, rfl, rfl⟩, fun _ _ _ _ => ⟨rfl, rfl, rfl⟩⟩
  · refine ⟨fun hq => ?_, fun existing others he hsum => ?_⟩
    · rw [addToCart_insufficient db u body pid product rest hid h0 hp hq]
      exact ⟨rfl, rfl, rfl⟩
    · by_cases hq : product.stock_quantity < body.requested
      · rw [addToCart_insufficient db u body pid product rest hid h0 hp hq]
        exact ⟨rfl, rfl, rfl⟩
      · rw [addToCart_merge_reject db u body pid product rest existing others hid h0 hp
          (not_lt.mp hq) he hsum]
        exact ⟨rfl, rfl, rfl⟩

/-- C2, instance: with stock 10, user 7 (holding 2 units) asks for 11 units, and
for 9 units on top of the 2 already held. -/
theorem addToCart_stock_rejection_witness :
    ((addToCart db2 7 ⟨some 5, none, some 11⟩).reply.status = 400 ∧
      (addToCart db2 7 ⟨some 5, none, some 11⟩).stmt = none ∧
      db2.after 9 (addToCart db2 7 ⟨some 5, none, some 11⟩) = db2) ∧
    ((addToCart db2 7 ⟨some 5, none, some 9⟩).reply.status = 400 ∧
      (addToCart db2 7 ⟨some 5, none, some 9⟩).stmt = none ∧
      db2.after 9 (addToCart db2 7 ⟨some 5, none, some 9⟩) = db2) :=
  ⟨(addToCart_stock_rejection db2 7 ⟨some 5, none, some 11⟩ 5 product5 [] 9
      (by decide) (by decide!)).1 (by decide),
   (addToCart_stock_rejection db2 7 ⟨some 5, none, some 9⟩ 5 product5 [] 9
      (by decide) (by decide!)).2 ⟨1, 7, 5, 2, 0, 0⟩ [] (by decide) (by decide)⟩

/-! ## C3 and C4: the quantities that are written -/

/-- Every way in which `addToCart` can issue a statement. -/
theorem addToCart_stmt_cases (db : Db) (u : Int) (body : AddBody) (s : Stmt)
    (hs : (addToCart db u body).stmt = some s) :
    ∃ pid product rest, jsOr body.product_id body.productId = some pid ∧ pid ≠ 0 ∧
      selectProducts db pid = product :: rest ∧ body.requested ≤ product.stock_quantity ∧
      ((selectExisting db u pid = [] ∧ s = .insertCart u pid body.requested) ∨
        ∃ existing others, selectExisting db u pid = existing :: others ∧
          existing.quantity + body.requested ≤ product.stock_quantity ∧
          s = .updateCartQuantity (existing.quantity + body.requested) existing.id) := by
  cases hid : jsOr body.product_id body.productId with
  | none =>
    have hf : truthy (jsOr body.product_id body.productId) = false := by rw [hid]; rfl
    rw [addToCart_falsy_id db u body hf] at hs
    cases hs
  | some pid =>
    by_cases h0 : pid = 0
    · have hf : truthy (jsOr body.product_id body.productId) = false := by
        rw [hid, h0]; rfl
      rw [addToCart_falsy_id db u body hf] at hs
      cases hs
    · cases hp : selectProducts db pid with
      | nil =>
        rw [addToCart_no_product db u body pid hid h0 hp] at hs
        cases hs
      | cons product rest =>
        by_cases hq : product.stock_quantity < body.requested
        · rw [addToCart_insufficient db u body pid product rest hid h0 hp hq] at hs
          cases hs
        · have hq := not_lt.mp hq
          refine ⟨pid, product, rest, rfl, h0, hp, hq, ?_⟩
          cases he : selectExisting db u pid with
          | nil =>
            rw [addToCart_insert db u body pid product rest hid h0 hp hq he] at hs
            left
            exact ⟨rfl, (Option.some.inj hs).symm⟩
          | cons existing others =>
            by_cases hsum : product.stock_quantity < existing.quantity + body.requested
            · rw [addToCart_merge_reject db u body pid product rest existing others hid h0 hp
                hq he hsum] at hs
              cases hs
            · have hsum := not_lt.mp hsum
              rw [addToCart_merge_accept db u body pid product rest existing others hid h0 hp
                hq he hsum] at hs
              right
              exact ⟨existing, others, rfl, hsum, (Option.some.inj hs).symm⟩

/-- Every way in which `updateCartItem` can issue a statement. -/
theorem updateCartItem_stmt_cases (db : Db) (u cartId : Int) (quantity : Option Int)
    (s : Stmt) (hs : (updateCartItem db u cartId quantity).stmt = some s) :
    ∃ q cartItem rest, quantity = some q ∧ 1 ≤ q ∧
      selectOwnedItem db cartId u = cartItem :: rest ∧ q ≤ cartItem.2.stock_quantity ∧
      s = .updateCartQuantity q cartId := by
  cases quantity with
  | none => simp [updateCartItem] at hs
  | some q =>
    by_cases hv : q = 0 ∨ q < 1
    · simp [updateCartItem, hv] at hs
    · cases ho : selectOwnedItem db cartId u with
      | nil => simp [updateCartItem, hv, ho] at hs
      | cons cartItem rest =>
        by_cases hst : q > cartItem.2.stock_quantity
        · simp [updateCartItem, hv, ho, hst] at hs
        · simp only [updateCartItem, hv, ho, hst, if_false] at hs
          refine ⟨q, cartItem, rest, rfl, ?_, rfl, not_lt.mp hst, (Option.some.inj hs).symm⟩
          omega

/-- C3: a quantity written by `addToCart` (inserted, or merged into the user's
existing line) is at most the `stock_quantity` of the product row read by that
request, and a quantity written by `updateCartItem` is at most the
`stock_quantity` of the joined product row read by that request. -/
theorem written_quantity_le_stock :
    (∀ (db : Db) (u : Int) (body : AddBody) (s : Stmt) (q : Int),
      (addToCart db u body).stmt = some s → s.writtenQuantity = some q →
      ∃ pid product, jsOr body.product_id body.productId = some pid ∧
        (selectProducts db pid).head? = some product ∧ q ≤ product.stock_quantity ∧
        (s = .insertCart u pid q ∨
          ∃ existing, (selectExisting db u pid).head? = some existing ∧
            s = .updateCartQuantity q existing.id)) ∧
    (∀ (db : Db) (u cartId : Int) (quantity : Option Int) (s : Stmt) (q : Int),
      (updateCartItem db u cartId quantity).stmt = some s → s.writtenQuantity = some q →
      ∃ cartItem, (selectOwnedItem db cartId u).head? = some cartItem ∧
        q ≤ cartItem.2.stock_quantity ∧ s = .updateCartQuantity q cartId) := by
  constructor
  · intro db u body s q hs hw
    obtain ⟨pid, product, rest, hid, _, hp, hq, hcase⟩ := addToCart_stmt_cases db u body s hs
    refine ⟨pid, product, hid, by rw [hp]; rfl, ?_⟩
    rcases hcase with ⟨_, rfl⟩ | ⟨existing, others, he, hsum, rfl⟩
    · simp only [Stmt.writtenQuantity, Option.some.injEq] at hw
      subst hw
      exact ⟨hq, Or.inl rfl⟩
    · simp only [Stmt.writtenQuantity, Option.some.injEq] at hw
      subst hw
      exact ⟨hsum, Or.inr ⟨existing, by rw [he]; rfl, rfl⟩⟩
  · intro db u cartId quantity s q hs hw
    obtain ⟨q', cartItem, rest, _, _, ho, hst, rfl⟩ :=
      updateCartItem_stmt_cases db u cartId quantity s hs
    simp only [Stmt.writtenQuantity, Option.some.injEq] at hw
    subst hw
    exact ⟨cartItem, by rw [ho]; rfl, hst, rfl⟩

/-- C3, instance: user 7 merges 3 units into a line of 2 (stock 10), and sets
line 1 to 10 units. -/
theorem written_quantity_le_stock_witness :
    (∃ pid product, jsOr (some 5) none = some pid ∧
        (selectProducts db2 pid).head? = some product ∧ (5 : Int) ≤ product.stock_quantity ∧
        (Stmt.updateCartQuantity 5 1 = .insertCart 7 pid 5 ∨
          ∃ existing, (selectExisting db2 7 pid).head? = some existing ∧
            Stmt.updateCartQuantity 5 1 = .updateCartQuantity 5 existing.id)) ∧
    (∃ cartItem, (selectOwnedItem db2 1 7).head? = some cartItem ∧
        (10 : Int) ≤ cartItem.2.stock_quantity ∧
        Stmt.updateCartQuantity 10 1 = .updateCartQuantity 10 1) :=
  ⟨written_quantity_le_stock.1 db2 7 ⟨some 5, none, some 3⟩ (.updateCartQuantity 5 1) 5
      (by decide) (by decide),
   written_quantity_le_stock.2 db2 7 1 (some 10) (.updateCartQuantity 10 1) 10
      (by decide) (by decide)⟩

/-- The guard of `updateCartItem`: a quantity it writes is at least 1. -/
theorem updateCartItem_writes_positive (db : Db) (u cartId : Int) (quantity : Option Int)
    (s : Stmt) (q : Int) (hs : (updateCartItem db u cartId quantity).stmt = some s)
    (hw : s.writtenQuantity = some q) : 1 ≤ q := by
  obtain ⟨q', _, _, _, hpos, _, _, rfl⟩ := updateCartItem_stmt_cases db u cartId quantity s hs
  simp only [Stmt.writtenQuantity, Option.some.injEq] at hw
  omega

/-- C4 (the code at the failing inputs): `addToCart` has no such guard.  With
product 5 in stock, `{product_id: 5, quantity: 0}` from a user without a line is
answered 200 and inserts a line of quantity 0, and `{product_id: 5, quantity: -5}`
from user 7, who holds 2 units, is answered 200 and sets the line to -3. -/
theorem addToCart_writes_nonpositive :
    addToCart db0 7 ⟨some 5, none, some 0⟩ =
      ⟨⟨200, true, "Mug added to cart successfully"⟩, some (.insertCart 7 5 0)⟩ ∧
    (db0.after 0 (addToCart db0 7 ⟨some 5, none, some 0⟩)).cart = [⟨1, 7, 5, 0, 0, 0⟩] ∧
    addToCart db2 7 ⟨some 5, none, some (-5)⟩ =
      ⟨⟨200, true, "Mug added to cart successfully"⟩, some (.updateCartQuantity (-3) 1)⟩ ∧
    (db2.after 9 (addToCart db2 7 ⟨some 5, none, some (-5)⟩)).cart =
      [⟨1, 7, 5, -3, 0, 9⟩, ⟨2, 8, 5, 4, 1, 1⟩] := by
  decide

/-! ## The query of `getCart` -/

theorem mem_cartJoinProducts (db : Db) (c : CartRow) (p : Product) :
    (c, p) ∈ cartJoinProducts db ↔ c ∈ db.cart ∧ p ∈ db.products ∧ c.product_id = p.id := by
  simp only [cartJoinProducts, List.mem_flatMap, List.mem_map, List.mem_filter,
    decide_eq_true_eq, Prod.mk.injEq]
  constructor
  · rintro ⟨c', hc', p', ⟨hp', hcp⟩, rfl, rfl⟩
    exact ⟨hc', hp', hcp⟩
  · rintro ⟨hc, hp, hcp⟩
    exact ⟨c, hc, p, ⟨hp, hcp⟩, rfl, rfl⟩

theorem mem_selectCart (db : Db) (u : Int) (item : CartItem) :
    item ∈ selectCart db u ↔
      ∃ c p, c ∈ db.cart ∧ p ∈ db.products ∧ c.product_id = p.id ∧ c.user_id = u ∧
        item = toCartItem (c, p) := by
  unfold selectCart
  rw [(List.perm_insertionSort _ _).mem_iff]
  simp only [List.mem_map, List.mem_filter, decide_eq_true_eq, Prod.exists,
    mem_cartJoinProducts]
  constructor
  · rintro ⟨c, p, ⟨⟨hc, hp, hcp⟩, hu⟩, rfl⟩
    exact ⟨c, p, hc, hp, hcp, hu, rfl⟩
  · rintro ⟨c, p, hc, hp, hcp, hu, rfl⟩
    exact ⟨c, p, ⟨⟨hc, hp, hcp⟩, hu⟩, rfl⟩

theorem mem_selectProducts (db : Db) (pid : Int) (p : Product) :
    p ∈ selectProducts db pid ↔ p ∈ db.products ∧ p.id = pid := by
  simp [selectProducts]

/-! ## C5: a new line -/

/-- C5: if the request names an existing product `pid` (non-zero id) for which
the user has no line, and the requested quantity q does not exceed the stock,
then `addToCart` succeeds, the cart table gains exactly one row, (user, pid, q),
it is the user's only line for the product, and a following `getCart` reports
that line with subtotal q × price. -/
theorem addToCart_new_line (db : Db) (u : Int) (body : AddBody) (pid : Int)
    (product : Product) (rest : List Product) (now : Nat)
    (hid : jsOr body.product_id body.productId = some pid) (h0 : pid ≠ 0)
    (hp : selectProducts db pid = product :: rest)
    (he : selectExisting db u pid = [])
    (hq : body.requested ≤ product.stock_quantity) :
    (addToCart db u body).reply.status = 200 ∧
    (addToCart db u body).reply.success = true ∧
    (db.after now (addToCart db u body)).cart =
      db.cart ++ [⟨db.cartAutoInc, u, pid, body.requested, now, now⟩] ∧
    selectExisting (db.after now (addToCart db u body)) u pid =
      [⟨db.cartAutoInc, u, pid, body.requested, now, now⟩] ∧
    toCartItem (⟨db.cartAutoInc, u, pid, body.requested, now, now⟩, product) ∈
      (getCart (db.after now (addToCart db u body)) u).cartItems ∧
    (toCartItem (⟨db.cartAutoInc, u, pid, body.requested, now, now⟩, product)).quantity =
      body.requested ∧
    (toCartItem (⟨db.cartAutoInc, u, pid, body.requested, now, now⟩, product)).subtotal =
      (body.requested : ℚ) * product.price := by
  rw [addToCart_insert db u body pid product rest hid h0 hp hq he]
  have hmem : product ∈ db.products ∧ product.id = pid := by
    rw [← mem_selectProducts, hp]
    exact List.mem_cons_self _ _
  refine ⟨rfl, rfl, rfl, ?_, ?_, rfl, rfl⟩
  · simp only [Db.after, Stmt.run, selectExisting] at he ⊢
    rw [List.filter_append, he]
    simp
  · simp only [getCart]
    rw [mem_selectCart]
    refine ⟨_, product, ?_, hmem.1, hmem.2.symm, rfl, rfl⟩
    simp [Db.after, Stmt.run]

/-- C5, the specification's example: product 5 (stock 10, price 19.99), a user
without a cart adds quantity 3; the cart then has one line, quantity 3,
subtotal 59.97. -/
theorem addToCart_new_line_witness :
    ((addToCart db0 7 ⟨some 5, none, some 3⟩).reply.status = 200 ∧
      (addToCart db0 7 ⟨some 5, none, some 3⟩).reply.success = true ∧
      (db0.after 0 (addToCart db0 7 ⟨some 5, none, some 3⟩)).cart =
        db0.cart ++ [⟨1, 7, 5, 3, 0, 0⟩] ∧
      selectExisting (db0.after 0 (addToCart db0 7 ⟨some 5, none, some 3⟩)) 7 5 =
        [⟨1, 7, 5, 3, 0, 0⟩] ∧
      toCartItem (⟨1, 7, 5, 3, 0, 0⟩, product5) ∈
        (getCart (db0.after 0 (addToCart db0 7 ⟨some 5, none, some 3⟩)) 7).cartItems ∧
      (toCartItem (⟨1, 7, 5, 3, 0, 0⟩, product5)).quantity = 3 ∧
      (toCartItem (⟨1, 7, 5, 3, 0, 0⟩, product5)).subtotal = ((3 : Int) : ℚ) * product5.price) ∧
    getCart (db0.after 0 (addToCart db0 7 ⟨some 5, none, some 3⟩)) 7 =
      { cartItems := [⟨1, 3, 0, 5, "Mug", "A mug", 1999 / 100, "", 10, 5997 / 100⟩]
        total := 5997 / 100
        itemCount := 1 } :=
  ⟨addToCart_new_line db0 7 ⟨some 5, none, some 3⟩ 5 product5 [] 0
      (by decide) (by decide) (by decide!) (by decide) (by decide),
   by decide!⟩

/-! ## C6: missing product -/

/-- C6 (the code at the failing input): the JSON body `{product_id: 0}` supplies
an id; in `db0` no product has id 0, yet the request is answered 400 'Product ID
is required', not 404, because the guard `!actualProductId` takes the number 0
for a missing id. -/
theorem addToCart_zero_id_rejected :
    selectProducts db0 0 = [] ∧
    (addToCart db0 7 ⟨some 0, none, none⟩).reply =
      ⟨400, false, "Product ID is required"⟩ := by
  decide

/-- Apart from the id 0, `addToCart` does what C6 says: it answers 400 when
neither `product_id` nor `productId` is supplied (and when the number it is left
with is 0), and 404 when that id is non-zero and matches no product; in each
case no statement is issued and the database is unchanged. -/
theorem addToCart_missing_product (db : Db) (u : Int) (body : AddBody) (now : Nat) :
    (body.product_id = none → body.productId = none →
      (addToCart db u body).reply.status = 400 ∧ (addToCart db u body).stmt = none ∧
      db.after now (addToCart db u body) = db) ∧
    (jsOr body.product_id body.productId = some 0 →
      (addToCart db u body).reply.status = 400 ∧ (addToCart db u body).stmt = none ∧
      db.after now (addToCart db u body) = db) ∧
    (∀ pid, jsOr body.product_id body.productId = some pid → pid ≠ 0 →
      selectProducts db pid = [] →
      (addToCart db u body).reply.status = 404 ∧ (addToCart db u body).stmt = none ∧
      db.after now (addToCart db u body) = db) := by
  refine ⟨fun h1 h2 => ?_, fun hz => ?_, fun pid hid h0 hp => ?_⟩
  · have hf : truthy (jsOr body.product_id body.productId) = false := by
      rw [h1, h2]; rfl
    rw [addToCart_falsy_id db u body hf]
    exact ⟨rfl, rfl, rfl⟩
  · have hf : truthy (jsOr body.product_id body.productId) = false := by
      rw [hz]; rfl
    rw [addToCart_falsy_id db u body hf]
    exact ⟨rfl, rfl, rfl⟩
  · rw [addToCart_no_product db u body pid hid h0 hp]
    exact ⟨rfl, rfl, rfl⟩

/-- Instances of `addToCart_missing_product`: an empty body, `{productId: 0}`
and `{productId: 6}` (no product 6) sent by user 7. -/
theorem addToCart_missing_product_witness :
    ((addToCart db2 7 ⟨none, none, none⟩).reply.status = 400 ∧
      (addToCart db2 7 ⟨none, none, none⟩).stmt = none ∧
      db2.after 9 (addToCart db2 7 ⟨none, none, none⟩) = db2) ∧
    ((addToCart db2 7 ⟨none, some 0, none⟩).reply.status = 400 ∧
      (addToCart db2 7 ⟨none, some 0, none⟩).stmt = none ∧
      db2.after 9 (addToCart db2 7 ⟨none, some 0, none⟩) = db2) ∧
    ((addToCart db2 7 ⟨none, some 6, none⟩).reply.status = 404 ∧
      (addToCart db2 7 ⟨none, some 6, none⟩).stmt = none ∧
      db2.after 9 (addToCart db2 7 ⟨none, some 6, none⟩) = db2) :=
  ⟨(addToCart_missing_product db2 7 ⟨none, none, none⟩ 9).1 rfl rfl,
   (addToCart_missing_product db2 7 ⟨none, some 0, none⟩ 9).2.1 (by decide),
   (addToCart_missing_product db2 7 ⟨none, some 6, none⟩ 9).2.2 6 (by decide) (by decide)
     (by decide)⟩

/-! ## C7: the contract of `updateCartItem` -/

theorem mem_selectOwnedItem (db : Db) (cartId u : Int) (cp : CartRow × Product) :
    cp ∈ selectOwnedItem db cartId u ↔
      cp.1 ∈ db.cart ∧ cp.2 ∈ db.products ∧ cp.1.product_id = cp.2.id ∧
        cp.1.id = cartId ∧ cp.1.user_id = u := by
  obtain ⟨c, p⟩ := cp
  simp only [selectOwnedItem, List.mem_filter, decide_eq_true_eq, mem_cartJoinProducts]
  tauto

theorem mem_selectOwnedLine (db : Db) (cartId u : Int) (c : CartRow) :
    c ∈ selectOwnedLine db cartId u ↔ c ∈ db.cart ∧ c.id = cartId ∧ c.user_id = u := by
  simp [selectOwnedLine]

/-- The ownership query joins the owned lines with their product rows. -/
theorem selectOwnedItem_eq_flatMap (db : Db) (cartId u : Int) :
    selectOwnedItem db cartId u =
      (selectOwnedLine db cartId u).flatMap fun c =>
        (db.products.filter fun p => decide (c.product_id = p.id)).map fun p => (c, p) := by
  unfold selectOwnedItem selectOwnedLine cartJoinProducts
  induction db.cart with
  | nil => rfl
  | cons c cs ih =>
    rw [List.flatMap_cons, List.filter_append, ih]
    by_cases h : c.id = cartId ∧ c.user_id = u
    · have : ((db.products.filter fun p => decide (c.product_id = p.id)).map
          fun p => (c, p)).filter (fun cp => decide (cp.1.id = cartId ∧ cp.1.user_id = u)) =
          (db.products.filter fun p => decide (c.product_id = p.id)).map fun p => (c, p) := by
        rw [List.filter_eq_self]
        intro cp hcp
        obtain ⟨p, _, rfl⟩ := List.mem_map.mp hcp
        simpa using h
      rw [this, List.filter_cons, if_pos (by simpa using h), List.flatMap_cons]
    · have : ((db.products.filter fun p => decide (c.product_id = p.id)).map
          fun p => (c, p)).filter (fun cp => decide (cp.1.id = cartId ∧ cp.1.user_id = u)) = [] := by
        rw [List.filter_eq_nil_iff]
        intro cp hcp
        obtain ⟨p, _, rfl⟩ := List.mem_map.mp hcp
        simpa using h
      rw [this, List.filter_cons, if_neg (by simpa using h), List.nil_append]

/-- In a list with unique keys, selecting by the key of a member yields that member. -/
theorem filter_key_eq_singleton {α : Type} (key : α → Int) (P : α → Bool) (x : α) :
    ∀ (l : List α), x ∈ l → (l.map key).Nodup → (∀ y ∈ l, P y = true ↔ key y = key x) →
      l.filter P = [x]
  | [], hx, _, _ => by cases hx
  | y :: ys, hx, hnd, hP => by
    rw [List.map_cons, List.nodup_cons] at hnd
    by_cases hyx : y = x
    · subst hyx
      have hself : P y = true := (hP y (List.mem_cons_self _ _)).mpr rfl
      have hrest : ys.filter P = [] := by
        rw [List.filter_eq_nil_iff]
        intro z hz hPz
        have hk := (hP z (List.mem_cons_of_mem _ hz)).mp hPz
        exact hnd.1 (List.mem_map.mpr ⟨z, hz, hk⟩)
      rw [List.filter_cons, if_pos hself, hrest]
    · have hxs : x ∈ ys := by
        rcases List.mem_cons.mp hx with h | h
        · exact absurd h.symm hyx
        · exact h
      have hny : ¬ P y = true := by
        intro hPy
        have hk := (hP y (List.mem_cons_self _ _)).mp hPy
        exact hnd.1 (List.mem_map.mpr ⟨x, hxs, hk.symm⟩)
      rw [List.filter_cons, if_neg hny]
      exact filter_key_eq_singleton key P x ys hxs hnd.2
        (fun z hz => hP z (List.mem_cons_of_mem _ hz))

/-- With unique cart ids and unique product ids, the ownership query of
`updateCartItem` on a line of the acting user whose product exists returns
exactly that line with that product. -/
theorem selectOwnedItem_of_keys (db : Db) (u : Int) (line : CartRow) (p : Product)
    (hc : (db.cart.map fun c => c.id).Nodup) (hpk : (db.products.map fun p => p.id).Nodup)
    (hline : line ∈ db.cart) (hu : line.user_id = u)
    (hp : p ∈ db.products) (hlp : line.product_id = p.id) :
    selectOwnedItem db line.id u = [(line, p)] := by
  rw [selectOwnedItem_eq_flatMap]
  have h1 : selectOwnedLine db line.id u = [line] := by
    unfold selectOwnedLine
    apply filter_key_eq_singleton (fun c => c.id) _ line db.cart hline hc
    intro y hy
    simp only [decide_eq_true_eq]
    constructor
    · exact fun h => h.1
    · intro h
      refine ⟨h, ?_⟩
      have := List.inj_on_of_nodup_map hc hy hline h
      rw [this, hu]
  have h2 : (db.products.filter fun q => decide (line.product_id = q.id)) = [p] := by
    apply filter_key_eq_singleton (fun q => q.id) _ p db.products hp hpk
    intro y _
    simp only [decide_eq_true_eq]
    rw [hlp]
    exact eq_comm
  rw [h1, List.flatMap_cons, h2]
  rfl

/-- A quantity passes the guard `!quantity || quantity < 1` exactly when it is
a number at least 1. -/
theorem updateCartItem_invalid (db : Db) (u cartId : Int) (quantity : Option Int)
    (hv : ∀ q, quantity = some q → q < 1) :
    updateCartItem db u cartId quantity = ⟨⟨400, false, "Valid quantity is required"⟩, none⟩ := by
  cases quantity with
  | none => rfl
  | some q =>
    have := hv q rfl
    simp [updateCartItem, this]

theorem updateCartItem_not_found (db : Db) (u cartId q : Int) (hq : 1 ≤ q)
    (ho : selectOwnedItem db cartId u = []) :
    updateCartItem db u cartId (some q) = ⟨⟨404, false, "Cart item not found"⟩, none⟩ := by
  have h1 : ¬ (q = 0 ∨ q < 1) := by omega
  simp [updateCartItem, h1, ho]

theorem updateCartItem_insufficient (db : Db) (u cartId q : Int) (cartItem : CartRow × Product)
    (rest : List (CartRow × Product)) (hq : 1 ≤ q)
    (ho : selectOwnedItem db cartId u = cartItem :: rest)
    (hst : cartItem.2.stock_quantity < q) :
    updateCartItem db u cartId (some q) = ⟨⟨400, false, "Insufficient stock"⟩, none⟩ := by
  have h1 : ¬ (q = 0 ∨ q < 1) := by omega
  simp [updateCartItem, h1, ho, hst]

theorem updateCartItem_accept (db : Db) (u cartId q : Int) (cartItem : CartRow × Product)
    (rest : List (CartRow × Product)) (hq : 1 ≤ q)
    (ho : selectOwnedItem db cartId u = cartItem :: rest)
    (hst : q ≤ cartItem.2.stock_quantity) :
    updateCartItem db u cartId (some q) =
      ⟨⟨200, true, "Cart updated successfully"⟩, some (.updateCartQuantity q cartId)⟩ := by
  have h1 : ¬ (q = 0 ∨ q < 1) := by omega
  simp [updateCartItem, h1, ho, not_lt.mpr hst]

/-- On whole numbers: when the ownership query of `updateCartItem` finds the line (it belongs
to the acting user and its product row is `cartItem.2`), the update succeeds
exactly when the requested quantity is a positive integer not exceeding the
product's stock; on success the line is stored with the requested quantity and
the lines with another id are unchanged; otherwise the reply is 400 and the
database is unchanged. -/
theorem updateCartItem_contract (db : Db) (u cartId : Int) (quantity : Option Int)
    (cartItem : CartRow × Product) (rest : List (CartRow × Product)) (now : Nat)
    (ho : selectOwnedItem db cartId u = cartItem :: rest) :
    ((updateCartItem db u cartId quantity).reply.status = 200 ↔
      ∃ q, quantity = some q ∧ 1 ≤ q ∧ q ≤ cartItem.2.stock_quantity) ∧
    (∀ q, quantity = some q → 1 ≤ q → q ≤ cartItem.2.stock_quantity →
      (updateCartItem db u cartId quantity).reply.success = true ∧
      { cartItem.1 with quantity := q, updated_at := now } ∈
        (db.after now (updateCartItem db u cartId quantity)).cart ∧
      (∀ c ∈ (db.after now (updateCartItem db u cartId quantity)).cart,
        c.id = cartId → c.quantity = q) ∧
      (db.after now (updateCartItem db u cartId quantity)).cart.filter
          (fun c => decide (c.id ≠ cartId)) =
        db.cart.filter (fun c => decide (c.id ≠ cartId))) ∧
    ((updateCartItem db u cartId quantity).reply.status ≠ 200 →
      (updateCartItem db u cartId quantity).reply.status = 400 ∧
      (updateCartItem db u cartId quantity).stmt = none ∧
      db.after now (updateCartItem db u cartId quantity) = db) := by
  have hmem : cartItem.1 ∈ db.cart ∧ cartItem.1.id = cartId := by
    have := (mem_selectOwnedItem db cartId u cartItem).mp (by rw [ho]; exact List.mem_cons_self _ _)
    exact ⟨this.1, this.2.2.2.1⟩
  by_cases hv : ∃ q, quantity = some q ∧ 1 ≤ q
  · obtain ⟨q, rfl, hq⟩ := hv
    by_cases hst : q ≤ cartItem.2.stock_quantity
    · rw [updateCartItem_accept db u cartId q cartItem rest hq ho hst]
      refine ⟨⟨fun _ => ⟨q, rfl, hq, hst⟩, fun _ => rfl⟩, ?_, fun h => absurd rfl h⟩
      intro q' hq' _ _
      cases hq'
      refine ⟨rfl, ?_, ?_, ?_⟩
      · simp only [Db.after, Stmt.run, List.mem_map]
        exact ⟨cartItem.1, hmem.1, by simp [hmem.2]⟩
      · simp only [Db.after, Stmt.run, List.mem_map]
        rintro c ⟨c', _, rfl⟩ hc
        by_cases h : c'.id = cartId
        · simp [h]
        · simp [h] at hc
      · exact others_after_update db now q cartId
    · rw [updateCartItem_insufficient db u cartId q cartItem rest hq ho (not_le.mp hst)]
      refine ⟨⟨fun h => absurd h (by decide), ?_⟩, ?_, fun _ => ⟨rfl, rfl, rfl⟩⟩
      · rintro ⟨q', hq', _, h⟩
        cases hq'
        exact absurd h hst
      · intro q' hq' _ h
        cases hq'
        exact absurd h hst
  · have hinv : ∀ q, quantity = some q → q < 1 := by
      intro q hq
      by_contra hc
      exact hv ⟨q, hq, not_lt.mp hc⟩
    rw [updateCartItem_invalid db u cartId quantity hinv]
    refine ⟨⟨fun h => absurd h (by decide), ?_⟩, ?_, fun _ => ⟨rfl, rfl, rfl⟩⟩
    · rintro ⟨q, hq, h1, _⟩
      exact absurd ⟨q, hq, h1⟩ hv
    · intro q hq h1 _
      exact absurd ⟨q, hq, h1⟩ hv

/-- The specification's example of the update contract: line 1 of user 7 (product 5, stock 10) is
updated to 15, which is rejected with 400; an update to 4 is stored. -/
theorem updateCartItem_contract_witness :
    ((updateCartItem db2 7 1 (some 15)).reply.status = 400 ∧
      (updateCartItem db2 7 1 (some 15)).stmt = none ∧
      db2.after 9 (updateCartItem db2 7 1 (some 15)) = db2) ∧
    ((updateCartItem db2 7 1 (some 4)).reply.status = 200 ↔
      ∃ q, some (4 : Int) = some q ∧ 1 ≤ q ∧ q ≤ product5.stock_quantity) ∧
    (db2.after 9 (updateCartItem db2 7 1 (some 4))).cart =
      [⟨1, 7, 5, 4, 0, 9⟩, ⟨2, 8, 5, 4, 1, 1⟩] :=
  ⟨(updateCartItem_contract db2 7 1 (some 15) (⟨1, 7, 5, 2, 0, 0⟩, product5) [] 9
      (by decide!)).2.2 (by decide),
   (updateCartItem_contract db2 7 1 (some 4) (⟨1, 7, 5, 2, 0, 0⟩, product5) [] 9
      (by decide!)).1,
   by decide⟩

/-! ## C8: ownership of a cart line -/

theorem selectOwnedItem_eq_nil (db : Db) (cartId u : Int)
    (h : selectOwnedLine db cartId u = []) : selectOwnedItem db cartId u = [] := by
  rw [List.eq_nil_iff_forall_not_mem] at h ⊢
  intro cp hcp
  rw [mem_selectOwnedItem] at hcp
  exact h cp.1 ((mem_selectOwnedLine db cartId u cp.1).mpr ⟨hcp.1, hcp.2.2.2⟩)

/-- With unique row ids, deleting by id erases one row. -/
theorem filter_id_ne_eq_erase (l : List CartRow) (line : CartRow)
    (hnd : (l.map fun c => c.id).Nodup) (hmem : line ∈ l) :
    l.filter (fun c => decide (c.id ≠ line.id)) = l.erase line := by
  rw [(List.Nodup.of_map _ hnd).erase_eq_filter]
  apply List.filter_congr
  intro c hc
  have hinj := List.inj_on_of_nodup_map hnd
  by_cases h : c = line
  · simp [h]
  · have : c.id ≠ line.id := fun hid => h (hinj hc hmem hid)
    simp [h, this]

/-- C8 (as stated, refuted): cart line 2 belongs to user 8, not to user 7, yet
`updateCartItem` by user 7 on line 2 with quantity 0 (or without quantity) is
answered 400, not 404. -/
theorem updateCartItem_foreign_line_counterexample :
    selectOwnedLine db2 2 7 = [] ∧
    (updateCartItem db2 7 2 (some 0)).reply = ⟨400, false, "Valid quantity is required"⟩ ∧
    (updateCartItem db2 7 2 none).reply = ⟨400, false, "Valid quantity is required"⟩ := by
  decide

/-- C8 (amended): when cart id `cartId` is not a line of the acting user,
`removeFromCart` answers 404, `updateCartItem` answers 404 if the requested
quantity is a number at least 1 and 400 otherwise, and in each case the database
is unchanged; when the line belongs to the acting user, `removeFromCart`
answers 200 and deletes the rows with that id, which is exactly that line when
cart ids are unique. -/
theorem cart_line_ownership (db : Db) (u cartId : Int) (now : Nat) :
    (selectOwnedLine db cartId u = [] →
      (removeFromCart db u cartId).reply.status = 404 ∧
      db.after now (removeFromCart db u cartId) = db ∧
      (∀ q, 1 ≤ q → (updateCartItem db u cartId (some q)).reply.status = 404) ∧
      (∀ quantity, (∀ q, quantity = some q → q < 1) →
        (updateCartItem db u cartId quantity).reply.status = 400) ∧
      (∀ quantity, db.after now (updateCartItem db u cartId quantity) = db)) ∧
    (∀ line others, selectOwnedLine db cartId u = line :: others →
      (removeFromCart db u cartId).reply.status = 200 ∧
      (db.after now (removeFromCart db u cartId)).cart =
        db.cart.filter (fun c => decide (c.id ≠ cartId)) ∧
      ((db.cart.map fun c => c.id).Nodup →
        (db.after now (removeFromCart db u cartId)).cart = db.cart.erase line)) := by
  constructor
  · intro h
    have hi := selectOwnedItem_eq_nil db cartId u h
    refine ⟨by simp [removeFromCart, h], by simp [removeFromCart, h, Db.after], ?_, ?_, ?_⟩
    · intro q hq
      rw [updateCartItem_not_found db u cartId q hq hi]
    · intro quantity hv
      rw [updateCartItem_invalid db u cartId quantity hv]
    · intro quantity
      by_cases hv : ∀ q, quantity = some q → q < 1
      · rw [updateCartItem_invalid db u cartId quantity hv]
        rfl
      · push_neg at hv
        obtain ⟨q, rfl, hq⟩ := hv
        rw [updateCartItem_not_found db u cartId q hq hi]
        rfl
  · intro line others h
    have hmem := (mem_selectOwnedLine db cartId u line).mp (by rw [h]; exact List.mem_cons_self _ _)
    have hr : removeFromCart db u cartId =
        ⟨⟨200, true, "Item removed from cart successfully"⟩, some (.deleteCartById cartId)⟩ := by
      simp [removeFromCart, h]
    rw [hr]
    refine ⟨rfl, rfl, fun hnd => ?_⟩
    simp only [Db.after, Stmt.run]
    rw [← hmem.2.1]
    exact filter_id_ne_eq_erase db.cart line hnd hmem.1

/-- C8 (amended), instances: user 7 acts on line 2 (owned by user 8) and then
removes the own line 1. -/
theorem cart_line_ownership_witness :
    ((removeFromCart db2 7 2).reply.status = 404 ∧
      db2.after 9 (removeFromCart db2 7 2) = db2 ∧
      (∀ q, 1 ≤ q → (updateCartItem db2 7 2 (some q)).reply.status = 404) ∧
      (∀ quantity, (∀ q, quantity = some q → q < 1) →
        (updateCartItem db2 7 2 quantity).reply.status = 400) ∧
      (∀ quantity, db2.after 9 (updateCartItem db2 7 2 quantity) = db2)) ∧
    ((removeFromCart db2 7 1).reply.status = 200 ∧
      (db2.after 9 (removeFromCart db2 7 1)).cart =
        db2.cart.filter (fun c => decide (c.id ≠ 1)) ∧
      ((db2.cart.map fun c => c.id).Nodup →
        (db2.after 9 (removeFromCart db2 7 1)).cart = db2.cart.erase ⟨1, 7, 5, 2, 0, 0⟩)) ∧
    (db2.after 9 (removeFromCart db2 7 1)).cart = [⟨2, 8, 5, 4, 1, 1⟩] :=
  ⟨(cart_line_ownership db2 7 2 9).1 (by decide),
   (cart_line_ownership db2 7 1 9).2 ⟨1, 7, 5, 2, 0, 0⟩ [] (by decide),
   by decide⟩

/-! ## C9: `clearCart` -/

/-- C9: `clearCart` by user `u` always answers 200; afterwards the cart table is
the old one without the rows of `u`: no row has `user_id = u`, the rows of every
other user are the same, in the same order, and if `u` had no rows the table is
unchanged. -/
theorem clearCart_frame (db : Db) (u : Int) (now : Nat) :
    (clearCart u).reply.status = 200 ∧ (clearCart u).reply.success = true ∧
    (db.after now (clearCart u)).cart = db.cart.filter (fun c => decide (c.user_id ≠ u)) ∧
    (∀ c ∈ (db.after now (clearCart u)).cart, c.user_id ≠ u) ∧
    (∀ v, v ≠ u →
      (db.after now (clearCart u)).cart.filter (fun c => decide (c.user_id = v)) =
        db.cart.filter (fun c => decide (c.user_id = v))) ∧
    (db.after now (clearCart u)).products = db.products ∧
    ((∀ c ∈ db.cart, c.user_id ≠ u) → db.after now (clearCart u) = db) := by
  refine ⟨rfl, rfl, rfl, ?_, ?_, rfl, ?_⟩
  · intro c hc
    simp only [Db.after, clearCart, Stmt.run, List.mem_filter, decide_eq_true_eq] at hc
    exact hc.2
  · intro v hv
    simp only [Db.after, clearCart, Stmt.run, List.filter_filter]
    apply List.filter_congr
    intro c _
    by_cases h : c.user_id = v
    · simp [h, hv]
    · simp [h]
  · intro h
    have : db.cart.filter (fun c => decide (c.user_id ≠ u)) = db.cart := by
      rw [List.filter_eq_self]
      intro c hc
      simpa using h c hc
    simp only [Db.after, clearCart, Stmt.run, this]

/-- C9, instance: user 7 clears the cart; the line of user 8 stays, and user 9,
who has no line, clears the cart with success and no change. -/
theorem clearCart_frame_witness :
    (db2.after 9 (clearCart 7)).cart.filter (fun c => decide (c.user_id = 8)) =
      db2.cart.filter (fun c => decide (c.user_id = 8)) ∧
    db2.after 9 (clearCart 9) = db2 ∧
    (db2.after 9 (clearCart 7)).cart = [⟨2, 8, 5, 4, 1, 1⟩] :=
  ⟨(clearCart_frame db2 7 9).2.2.2.2.1 8 (by decide),
   (clearCart_frame db2 9 9).2.2.2.2.2.2 (by decide),
   by decide⟩

/-! ## C10: the totals of `getCart` -/

theorem foldl_subtotal (l : List CartItem) (a : ℚ) :
    l.foldl (fun sum item => sum + parseFloat item.subtotal) a =
      a + (l.map fun item => item.subtotal).sum := by
  induction l generalizing a with
  | nil => simp
  | cons x xs ih =>
    rw [List.foldl_cons, ih, List.map_cons, List.sum_cons]
    simp only [parseFloat]
    ring

/-- The value of `toFixed2 x` is a whole number of hundredths and lies within
half a hundredth of `x`. -/
theorem toFixed2_spec (x : ℚ) :
    (∃ n : ℤ, toFixed2 x = (n : ℚ) / 100) ∧ |toFixed2 x - x| ≤ 1 / 200 := by
  unfold toFixed2
  by_cases hx : x < 0
  · rw [if_pos hx]
    have h1 := Int.floor_le (-x * 100 + 1 / 2)
    have h2 := Int.lt_floor_add_one (-x * 100 + 1 / 2)
    refine ⟨⟨-⌊-x * 100 + 1 / 2⌋, by push_cast; ring⟩, ?_⟩
    rw [abs_le]
    constructor <;> linarith
  · rw [if_neg hx]
    have h1 := Int.floor_le (x * 100 + 1 / 2)
    have h2 := Int.lt_floor_add_one (x * 100 + 1 / 2)
    refine ⟨⟨⌊x * 100 + 1 / 2⌋, rfl⟩, ?_⟩
    rw [abs_le]
    constructor <;> linarith

/-- A value with at most two decimals is left as it is by `toFixed2`. -/
theorem toFixed2_of_hundredths (n : ℤ) : toFixed2 ((n : ℚ) / 100) = (n : ℚ) / 100 := by
  unfold toFixed2
  have e1 : ((n : ℚ) / 100) * 100 + 1 / 2 = ((n : ℤ) : ℚ) + 1 / 2 := by ring
  have e2 : (-((n : ℚ) / 100)) * 100 + 1 / 2 = ((-n : ℤ) : ℚ) + 1 / 2 := by push_cast; ring
  have hf : ∀ m : ℤ, ⌊((m : ℤ) : ℚ) + 1 / 2⌋ = m := by
    intro m
    rw [Int.floor_eq_iff]
    constructor <;> linarith
  by_cases hx : (n : ℚ) / 100 < 0
  · rw [if_pos hx, e2, hf]
    push_cast
    ring
  · rw [if_neg hx, e1, hf]

theorem toFixed2_zero : toFixed2 0 = 0 := by
  have h := toFixed2_of_hundredths 0
  simpa using h

theorem selectCart_eq_nil (db : Db) (u : Int) (h : ∀ c ∈ db.cart, c.user_id ≠ u) :
    selectCart db u = [] := by
  rw [List.eq_nil_iff_forall_not_mem]
  intro item hitem
  obtain ⟨c, _, hc, _, _, hu, _⟩ := (mem_selectCart db u item).mp hitem
  exact h c hc hu

/-- Number of rows the join yields for the user: one per line and matching
product row. -/
theorem length_selectCart (db : Db) (u : Int) :
    (selectCart db u).length =
      (((db.cart.filter fun c => decide (c.user_id = u)).map fun c =>
        (db.products.filter fun p => decide (c.product_id = p.id)).length)).sum := by
  unfold selectCart cartJoinProducts
  rw [List.length_insertionSort, List.length_map]
  induction db.cart with
  | nil => rfl
  | cons c cs ih =>
    rw [List.flatMap_cons, List.filter_append, List.length_append, ih]
    by_cases hu : c.user_id = u
    · have : ((db.products.filter fun p => decide (c.product_id = p.id)).map
          fun p => (c, p)).filter (fun cp => decide (cp.1.user_id = u)) =
          (db.products.filter fun p => decide (c.product_id = p.id)).map fun p => (c, p) := by
        rw [List.filter_eq_self]
        intro cp hcp
        obtain ⟨p, _, rfl⟩ := List.mem_map.mp hcp
        simpa using hu
      rw [this]
      simp [List.filter_cons, hu]
    · have : ((db.products.filter fun p => decide (c.product_id = p.id)).map
          fun p => (c, p)).filter (fun cp => decide (cp.1.user_id = u)) = [] := by
        rw [List.filter_eq_nil_iff]
        intro cp hcp
        obtain ⟨p, _, rfl⟩ := List.mem_map.mp hcp
        simpa using hu
      rw [this]
      simp [List.filter_cons, hu]

/-- C10: every item returned by `getCart` is a line of the acting user joined
with its product, with subtotal = quantity × price; `total` is the sum of the
subtotals rounded to two decimals (a whole number of hundredths within half a
hundredth of the sum); `itemCount` is the number of returned lines, which is
the number of the user's cart rows when every row has exactly one product row;
a user without rows gets no items, total 0 and itemCount 0. -/
theorem getCart_totals (db : Db) (u : Int) :
    (∀ item ∈ (getCart db u).cartItems, ∃ c p, c ∈ db.cart ∧ p ∈ db.products ∧
      c.product_id = p.id ∧ c.user_id = u ∧ item = toCartItem (c, p) ∧
      item.subtotal = (c.quantity : ℚ) * p.price) ∧
    (∀ c p, c ∈ db.cart → p ∈ db.products → c.product_id = p.id → c.user_id = u →
      toCartItem (c, p) ∈ (getCart db u).cartItems) ∧
    (getCart db u).total =
      toFixed2 ((getCart db u).cartItems.map fun item => item.subtotal).sum ∧
    (∃ n : ℤ, (getCart db u).total = (n : ℚ) / 100) ∧
    |(getCart db u).total - ((getCart db u).cartItems.map fun item => item.subtotal).sum|
      ≤ 1 / 200 ∧
    (getCart db u).itemCount = (getCart db u).cartItems.length ∧
    ((∀ c ∈ db.cart, (db.products.filter fun p => decide (c.product_id = p.id)).length = 1) →
      (getCart db u).itemCount = (db.cart.filter fun c => decide (c.user_id = u)).length) ∧
    ((∀ c ∈ db.cart, c.user_id ≠ u) →
      (getCart db u).cartItems = [] ∧ (getCart db u).total = 0 ∧ (getCart db u).itemCount = 0) := by
  have htotal : (getCart db u).total =
      toFixed2 ((getCart db u).cartItems.map fun item => item.subtotal).sum := by
    simp only [getCart, parseFloat]
    rw [show (List.foldl (fun sum item => sum + item.subtotal) 0 (selectCart db u)) =
      List.foldl (fun sum item => sum + parseFloat item.subtotal) 0 (selectCart db u) from rfl,
      foldl_subtotal, zero_add]
  refine ⟨?_, ?_, htotal, ?_, ?_, rfl, ?_, ?_⟩
  · intro item hitem
    obtain ⟨c, p, hc, hp, hcp, hu, rfl⟩ := (mem_selectCart db u item).mp hitem
    exact ⟨c, p, hc, hp, hcp, hu, rfl, rfl⟩
  · intro c p hc hp hcp hu
    exact (mem_selectCart db u _).mpr ⟨c, p, hc, hp, hcp, hu, rfl⟩
  · rw [htotal]
    exact (toFixed2_spec _).1
  · rw [htotal]
    exact (toFixed2_spec _).2
  · intro h
    show (selectCart db u).length = _
    rw [length_selectCart]
    have : ((db.cart.filter fun c => decide (c.user_id = u)).map fun c =>
        (db.products.filter fun p => decide (c.product_id = p.id)).length) =
        (db.cart.filter fun c => decide (c.user_id = u)).map fun _ => 1 := by
      apply List.map_congr_left
      intro c hc
      exact h c (List.mem_filter.mp hc).1
    rw [this]
    simp
  · intro h
    have hnil : (getCart db u).cartItems = [] := selectCart_eq_nil db u h
    refine ⟨hnil, ?_, ?_⟩
    · rw [htotal, hnil, List.map_nil, List.sum_nil]
      exact toFixed2_zero
    · show (getCart db u).cartItems.length = 0
      rw [hnil]
      rfl

/-- C10, instance: user 7 of `db3` has two lines (3 pens, 2 mugs): the reply
lists them newest first, total 41.48, itemCount 2 (the quantities add up to 5);
user 9 has no line. -/
theorem getCart_totals_witness :
    (getCart db3 7).itemCount = (db3.cart.filter fun c => decide (c.user_id = 7)).length ∧
    ((getCart db3 9).cartItems = [] ∧ (getCart db3 9).total = 0 ∧
      (getCart db3 9).itemCount = 0) ∧
    getCart db3 7 =
      { cartItems := [⟨3, 3, 2, 6, "Pen", "A pen", 1 / 2, "", 4, 3 / 2⟩,
                      ⟨1, 2, 0, 5, "Mug", "A mug", 1999 / 100, "", 10, 3998 / 100⟩]
        total := 4148 / 100
        itemCount := 2 } ∧
    ((getCart db3 7).cartItems.map fun item => item.quantity).sum = 5 :=
  ⟨(getCart_totals db3 7).2.2.2.2.2.2.1 (by decide),
   (getCart_totals db3 9).2.2.2.2.2.2.2 (by decide),
   by decide!, by decide!⟩

/-! ## C11: the checkout totals -/

theorem foldl_add_eq_sum {α : Type} (f : α → ℚ) (l : List α) (a : ℚ) :
    l.foldl (fun total item => total + f item) a = a + (l.map f).sum := by
  induction l generalizing a with
  | nil => simp
  | cons x xs ih =>
    rw [List.foldl_cons, ih, List.map_cons, List.sum_cons]
    ring

/-! ### Rounding to the nearest double -/

theorem pow2_eq (e : Int) : pow2 e = (2 : ℚ) ^ e := by
  unfold pow2
  split
  · rename_i h
    have h2 : ((e.toNat : Nat) : Int) = e := Int.toNat_of_nonneg h
    calc ((2 ^ e.toNat : Nat) : ℚ) = (2 : ℚ) ^ (e.toNat : Nat) := by push_cast; rfl
      _ = (2 : ℚ) ^ ((e.toNat : Nat) : Int) := (zpow_natCast 2 e.toNat).symm
      _ = (2 : ℚ) ^ e := by rw [h2]
  · rename_i h
    have h1 : 0 ≤ -e := by omega
    have h2 : (((-e).toNat : Nat) : Int) = -e := Int.toNat_of_nonneg h1
    calc 1 / ((2 ^ (-e).toNat : Nat) : ℚ) = ((2 : ℚ) ^ ((-e).toNat : Nat))⁻¹ := by
          push_cast; rw [one_div]
      _ = ((2 : ℚ) ^ (((-e).toNat : Nat) : Int))⁻¹ := by rw [zpow_natCast]
      _ = ((2 : ℚ) ^ (-e))⁻¹ := by rw [h2]
      _ = (2 : ℚ) ^ e := by rw [zpow_neg, inv_inv]

theorem pow2_pos (e : Int) : 0 < pow2 e := by
  rw [pow2_eq]
  exact zpow_pos (by norm_num) e

theorem pow2_add (a b : Int) : pow2 (a + b) = pow2 a * pow2 b := by
  rw [pow2_eq, pow2_eq, pow2_eq, zpow_add₀ (by norm_num)]

theorem pow2_le_pow2 {a b : Int} (h : a ≤ b) : pow2 a ≤ pow2 b := by
  rw [pow2_eq, pow2_eq]
  exact zpow_le_zpow_right₀ (by norm_num) h

theorem pow2_lt_pow2 {a b : Int} (h : a < b) : pow2 a < pow2 b := by
  rw [pow2_eq, pow2_eq]
  exact zpow_lt_zpow_right₀ (by norm_num) h

theorem pow2_natCast (n : Nat) : pow2 (n : Int) = ((2 ^ n : Nat) : ℚ) := by
  rw [pow2_eq, zpow_natCast]
  push_cast
  rfl

theorem log2Fuel_spec : ∀ (fuel n : Nat), n ≤ fuel → n ≠ 0 →
    2 ^ log2Fuel fuel n ≤ n ∧ n < 2 ^ (log2Fuel fuel n + 1)
  | 0, n, h, h0 => absurd (Nat.le_zero.mp h) h0
  | fuel + 1, n, h, h0 => by
    unfold log2Fuel
    by_cases h2 : n < 2
    · rw [if_pos h2]
      constructor <;> simp <;> omega
    · rw [if_neg h2]
      have hd : n / 2 ≤ fuel := by omega
      have hd0 : n / 2 ≠ 0 := by omega
      obtain ⟨ih1, ih2⟩ := log2Fuel_spec fuel (n / 2) hd hd0
      constructor
      · rw [pow_succ]
        omega
      · rw [pow_succ]
        omega

theorem natLog2_le (n : Nat) (h : n ≠ 0) : 2 ^ natLog2 n ≤ n :=
  (log2Fuel_spec n n le_rfl h).1

theorem lt_natLog2 (n : Nat) (h : n ≠ 0) : n < 2 ^ (natLog2 n + 1) :=
  (log2Fuel_spec n n le_rfl h).2

theorem floorLog2_le (x : ℚ) (hx : 0 < x) : pow2 (floorLog2 x) ≤ x := by
  unfold floorLog2
  split
  · assumption
  · have hnum : 0 < x.num := Rat.num_pos.mpr hx
    have hn0 : x.num.natAbs ≠ 0 := by omega
    have hd0 : x.den ≠ 0 := x.den_nz
    have h1 := natLog2_le x.num.natAbs hn0
    have h2 := lt_natLog2 x.den hd0
    have hx2 : (x.num.natAbs : ℚ) / (x.den : ℚ) = x := by
      have hna : ((x.num.natAbs : Nat) : Int) = x.num := Int.natAbs_of_nonneg hnum.le
      have hc : (x.num.natAbs : ℚ) = (x.num : ℚ) := by
        calc (x.num.natAbs : ℚ) = (((x.num.natAbs : Nat) : Int) : ℚ) := (Int.cast_natCast _).symm
          _ = (x.num : ℚ) := by rw [hna]
      rw [hc]
      exact Rat.num_div_den x
    have hdpos : (0 : ℚ) < (x.den : ℚ) := by exact_mod_cast Nat.pos_of_ne_zero hd0
    have e1 : (natLog2 x.num.natAbs : Int) - (natLog2 x.den : Int) - 1 =
        (natLog2 x.num.natAbs : Int) + (-((natLog2 x.den + 1 : Nat) : Int)) := by
      push_cast; ring
    rw [e1, pow2_add, pow2_natCast, pow2_eq, zpow_neg, zpow_natCast]
    have h1q : ((2 ^ natLog2 x.num.natAbs : Nat) : ℚ) ≤ (x.num.natAbs : ℚ) := by
      exact_mod_cast h1
    have h2q : (x.den : ℚ) ≤ (2 : ℚ) ^ (natLog2 x.den + 1) := by
      exact_mod_cast h2.le
    have hpp : (0 : ℚ) < (2 : ℚ) ^ (natLog2 x.den + 1) := by positivity
    have key : ((2 ^ natLog2 x.num.natAbs : Nat) : ℚ) * ((2 : ℚ) ^ (natLog2 x.den + 1))⁻¹ ≤
        (x.num.natAbs : ℚ) / (x.den : ℚ) := by
      rw [← div_eq_mul_inv, div_le_div_iff₀ hpp hdpos]
      calc ((2 ^ natLog2 x.num.natAbs : Nat) : ℚ) * (x.den : ℚ)
          ≤ (x.num.natAbs : ℚ) * (x.den : ℚ) :=
            mul_le_mul_of_nonneg_right h1q hdpos.le
        _ ≤ (x.num.natAbs : ℚ) * (2 : ℚ) ^ (natLog2 x.den + 1) :=
            mul_le_mul_of_nonneg_left h2q (by positivity)
    exact key.trans hx2.le

theorem roundHalfEven_err (x : ℚ) : |(roundHalfEven x : ℚ) - x| ≤ 1 / 2 := by
  have h1 : (⌊x⌋ : ℚ) ≤ x := Int.floor_le x
  have h2 : x < (⌊x⌋ : ℚ) + 1 := Int.lt_floor_add_one x
  unfold roundHalfEven
  split
  · rw [abs_le]; constructor <;> linarith
  · split
    · push_cast
      rw [abs_le]; constructor <;> linarith
    · have h3 : x - (⌊x⌋ : ℚ) = 1 / 2 := by
        rename_i ha hb
        linarith [not_lt.mp ha, not_lt.mp hb]
      split
      · rw [abs_le]; constructor <;> linarith
      · push_cast
        rw [abs_le]; constructor <;> linarith

theorem roundHalfEven_intCast (n : Int) : roundHalfEven (n : ℚ) = n := by
  unfold roundHalfEven
  rw [Int.floor_intCast]
  simp

/-- Rounding to the nearest double moves `x` by at most half the spacing of the
doubles around it: `2 ^ (-53)` of its size, or `2 ^ (-1075)` near zero. -/
theorem toDouble_err (x : ℚ) : |toDouble x - x| ≤ |x| / 2 ^ 53 + 1 / 2 ^ 1075 := by
  unfold toDouble
  by_cases hx : x = 0
  · rw [if_pos hx, hx]
    norm_num
  · rw [if_neg hx]
    have habs : 0 < |x| := abs_pos.mpr hx
    set e := max (floorLog2 |x|) (-1022) with he
    have hu : 0 < pow2 (e - 52) := pow2_pos _
    have hr := roundHalfEven_err (x / pow2 (e - 52))
    have hdiff : (roundHalfEven (x / pow2 (e - 52)) : ℚ) * pow2 (e - 52) - x =
        ((roundHalfEven (x / pow2 (e - 52)) : ℚ) - x / pow2 (e - 52)) * pow2 (e - 52) := by
      field_simp
    rw [hdiff, abs_mul, abs_of_pos hu]
    have hb : |(roundHalfEven (x / pow2 (e - 52)) : ℚ) - x / pow2 (e - 52)| * pow2 (e - 52) ≤
        1 / 2 * pow2 (e - 52) := mul_le_mul_of_nonneg_right hr hu.le
    have hhalf : 1 / 2 * pow2 (e - 52) = pow2 (e - 53) := by
      have : e - 52 = (e - 53) + 1 := by ring
      rw [this, pow2_add]
      have : pow2 1 = 2 := by decide!
      rw [this]; ring
    rw [hhalf] at hb
    refine hb.trans ?_
    rcases le_total (floorLog2 |x|) (-1022) with hc | hc
    · have he2 : e = -1022 := by rw [he]; exact max_eq_right hc
      rw [he2]
      have : pow2 (-1022 - 53) = 1 / 2 ^ 1075 := by
        rw [pow2_eq]
        norm_num
      rw [this]
      have : 0 ≤ |x| / 2 ^ 53 := by positivity
      linarith
    · have he2 : e = floorLog2 |x| := by rw [he]; exact max_eq_left hc
      rw [he2]
      have h53 : pow2 (floorLog2 |x| - 53) = pow2 (floorLog2 |x|) / 2 ^ 53 := by
        rw [show floorLog2 |x| - 53 = floorLog2 |x| + (-53) by ring, pow2_add]
        have : pow2 (-53) = 1 / 2 ^ 53 := by decide!
        rw [this]; ring
      rw [h53]
      have hle := floorLog2_le |x| habs
      have : pow2 (floorLog2 |x|) / 2 ^ 53 ≤ |x| / 2 ^ 53 :=
        div_le_div_of_nonneg_right hle (by positivity)
      have : (0 : ℚ) ≤ 1 / 2 ^ 1075 := by positivity
      linarith

/-- A whole number below `2 ^ 53` in absolute value is a double. -/
theorem toDouble_intCast (n : Int) (h : |n| < 2 ^ 53) : toDouble (n : ℚ) = n := by
  unfold toDouble
  by_cases hn : (n : ℚ) = 0
  · rw [if_pos hn, hn]
  · rw [if_neg hn]
    have habs : 0 < |(n : ℚ)| := abs_pos.mpr hn
    have hfl : floorLog2 |(n : ℚ)| ≤ 52 := by
      by_contra hc
      have h53 : (53 : Int) ≤ floorLog2 |(n : ℚ)| := by omega
      have h1 := pow2_le_pow2 h53
      have h2 := floorLog2_le _ habs
      have h3 : |(n : ℚ)| < 2 ^ 53 := by
        rw [← Int.cast_abs]
        exact_mod_cast h
      have h4 : pow2 53 = 2 ^ 53 := by decide!
      linarith
    have he52 : max (floorLog2 |(n : ℚ)|) (-1022) ≤ 52 := max_le hfl (by norm_num)
    obtain ⟨m, hm⟩ : ∃ m : Nat, (m : Int) = 52 - max (floorLog2 |(n : ℚ)|) (-1022) :=
      ⟨(52 - max (floorLog2 |(n : ℚ)|) (-1022)).toNat, Int.toNat_of_nonneg (by omega)⟩
    have hp : pow2 (max (floorLog2 |(n : ℚ)|) (-1022) - 52) = ((2 : ℚ) ^ m)⁻¹ := by
      rw [show max (floorLog2 |(n : ℚ)|) (-1022) - 52 = -(m : Int) by omega, pow2_eq, zpow_neg,
        zpow_natCast]
    rw [hp]
    have hdiv : (n : ℚ) / ((2 : ℚ) ^ m)⁻¹ = ((n * 2 ^ m : Int) : ℚ) := by
      push_cast
      rw [div_inv_eq_mul]
    rw [hdiv, roundHalfEven_intCast]
    push_cast
    field_simp

/-- The double that JavaScript holds for `0.1`. -/
theorem toDouble_tenth : toDouble (1 / 10) = 3602879701896397 / 36028797018963968 := by
  decide!

theorem toDouble_zero : toDouble 0 = 0 := by
  simp [toDouble]

/-- The product `s * 0.1` in double precision is one tenth of `s` up to rounding. -/
theorem jsMul_tenth_err (s : ℚ) :
    |jsMul s (toDouble (1 / 10)) - s / 10| ≤ |s| / 2 ^ 55 + 1 / 2 ^ 1075 := by
  rw [toDouble_tenth]
  unfold jsMul
  have h1 := toDouble_err (s * (3602879701896397 / 36028797018963968))
  have h2 : |s * (3602879701896397 / 36028797018963968)| =
      |s| * (3602879701896397 / 36028797018963968) := by
    rw [abs_mul, abs_of_pos (by norm_num : (0 : ℚ) < 3602879701896397 / 36028797018963968)]
  have h3 : |s * (3602879701896397 / 36028797018963968) - s / 10| =
      |s| * (1 / 180143985094819840) := by
    have : s * (3602879701896397 / 36028797018963968) - s / 10 =
        s * (1 / 180143985094819840) := by ring
    rw [this, abs_mul, abs_of_pos (by norm_num : (0 : ℚ) < 1 / 180143985094819840)]
  have h4 : |toDouble (s * (3602879701896397 / 36028797018963968)) - s / 10| ≤
      |toDouble (s * (3602879701896397 / 36028797018963968)) -
        s * (3602879701896397 / 36028797018963968)| +
      |s * (3602879701896397 / 36028797018963968) - s / 10| := by
    have := abs_add (toDouble (s * (3602879701896397 / 36028797018963968)) -
        s * (3602879701896397 / 36028797018963968))
      (s * (3602879701896397 / 36028797018963968) - s / 10)
    simpa using this
  rw [h2] at h1
  rw [h3] at h4
  have h5 : 0 ≤ |s| := abs_nonneg s
  have h6 : |s| * (3602879701896397 / 36028797018963968) / 2 ^ 53 +
      |s| * (1 / 180143985094819840) ≤ |s| / 2 ^ 55 := by
    have : |s| * (3602879701896397 / 36028797018963968) / 2 ^ 53 +
        |s| * (1 / 180143985094819840) =
        |s| * (3602879701896397 / 36028797018963968 / 2 ^ 53 + 1 / 180143985094819840) := by
      ring
    rw [this, div_eq_mul_one_div |s| (2 ^ 55)]
    exact mul_le_mul_of_nonneg_left (by norm_num) h5
  linarith

/-- The size of a rounded number. -/
theorem abs_toDouble_le (x : ℚ) : |toDouble x| ≤ |x| + |x| / 2 ^ 53 + 1 / 2 ^ 1075 := by
  have h := toDouble_err x
  have h2 : |toDouble x| ≤ |toDouble x - x| + |x| := by
    have := abs_add (toDouble x - x) x
    simpa using this
  linarith

/-- A sum of `k` terms of size at most `2 ^ 554` each, taken in double precision,
has size at most `k * 2 ^ 555`, for up to `2 ^ 32` terms. -/
theorem foldl_jsAdd_bound {α : Type} (f : α → ℚ) :
    ∀ (l : List α) (acc : ℚ) (k : Nat), (∀ a ∈ l, |f a| ≤ 2 ^ 554) →
      |acc| ≤ (k : ℚ) * 2 ^ 555 → k + l.length ≤ 2 ^ 32 →
      |l.foldl (fun total a => jsAdd total (f a)) acc| ≤ ((k + l.length : Nat) : ℚ) * 2 ^ 555
  | [], acc, k, _, hacc, _ => by simpa using hacc
  | a :: l, acc, k, hf, hacc, hk => by
    rw [List.foldl_cons]
    have hfa := hf a (List.mem_cons_self _ _)
    have hk1 : (k : ℚ) ≤ 2 ^ 32 := by
      have : k ≤ 2 ^ 32 := by
        simp only [List.length_cons] at hk
        omega
      exact_mod_cast this
    have hstep : |jsAdd acc (f a)| ≤ ((k + 1 : Nat) : ℚ) * 2 ^ 555 := by
      unfold jsAdd
      have h1 := abs_toDouble_le (acc + f a)
      have h2 : |acc + f a| ≤ (k : ℚ) * 2 ^ 555 + 2 ^ 554 :=
        (abs_add acc (f a)).trans (add_le_add hacc hfa)
      have h3 : |acc + f a| / 2 ^ 53 ≤ ((k : ℚ) * 2 ^ 555 + 2 ^ 554) / 2 ^ 53 :=
        div_le_div_of_nonneg_right h2 (by positivity)
      have h4 : ((k : ℚ) * 2 ^ 555 + 2 ^ 554) / 2 ^ 53 + 1 / 2 ^ 1075 ≤ 2 ^ 554 := by
        have : ((k : ℚ) * 2 ^ 555 + 2 ^ 554) / 2 ^ 53 = (k : ℚ) * 2 ^ 502 + 2 ^ 501 := by
          field_simp
          ring
        rw [this]
        have : (k : ℚ) * 2 ^ 502 ≤ 2 ^ 32 * 2 ^ 502 :=
          mul_le_mul_of_nonneg_right hk1 (by positivity)
        norm_num at this ⊢
        linarith
      push_cast
      linarith
    have hlen : k + 1 + l.length ≤ 2 ^ 32 := by
      simp only [List.length_cons] at hk
      omega
    have := foldl_jsAdd_bound f l (jsAdd acc (f a)) (k + 1)
      (fun b hb => hf b (List.mem_cons_of_mem _ hb)) hstep hlen
    have e : k + 1 + l.length = k + (a :: l).length := by
      simp only [List.length_cons]
      omega
    rw [e] at this
    exact this

/-- A sum of whole numbers taken in double precision is exact as long as the
sizes of the terms add up to less than `2 ^ 53`. -/
theorem foldl_jsAdd_exact {α : Type} (f : α → ℚ) :
    ∀ (l : List α) (acc : Int), (∀ a ∈ l, ∃ n : Int, f a = n) →
      |(acc : ℚ)| + (l.map fun a => |f a|).sum < 2 ^ 53 →
      l.foldl (fun total a => jsAdd total (f a)) (acc : ℚ) = (acc : ℚ) + (l.map f).sum
  | [], acc, _, _ => by simp
  | a :: l, acc, hf, hsum => by
    obtain ⟨n, hn⟩ := hf a (List.mem_cons_self _ _)
    rw [List.foldl_cons, List.map_cons, List.sum_cons, hn]
    rw [List.map_cons, List.sum_cons, hn] at hsum
    have hrest : 0 ≤ (l.map fun a => |f a|).sum :=
      List.sum_nonneg (by
        intro x hx
        obtain ⟨b, _, rfl⟩ := List.mem_map.mp hx
        exact abs_nonneg _)
    have hadd : jsAdd (acc : ℚ) (n : ℚ) = ((acc + n : Int) : ℚ) := by
      unfold jsAdd
      rw [← Int.cast_add]
      apply toDouble_intCast
      have h1 : |((acc + n : Int) : ℚ)| < 2 ^ 53 := by
        push_cast
        have := abs_add (acc : ℚ) (n : ℚ)
        linarith
      rw [← Int.cast_abs] at h1
      exact_mod_cast h1
    rw [hadd]
    have := foldl_jsAdd_exact f l (acc + n) (fun b hb => hf b (List.mem_cons_of_mem _ hb)) (by
      push_cast
      have := abs_add (acc : ℚ) (n : ℚ)
      linarith)
    rw [this]
    push_cast
    ring

/-- The product of two whole numbers taken in double precision is exact when it
is below `2 ^ 53` in absolute value. -/
theorem jsMul_int (p q : Int) (h : |(p : ℚ) * (q : ℚ)| < 2 ^ 53) :
    jsMul (toDouble (p : ℚ)) (q : ℚ) = ((p * q : Int) : ℚ) := by
  have hpq : |p * q| < 2 ^ 53 := by
    have : |((p * q : Int) : ℚ)| < 2 ^ 53 := by
      push_cast
      exact h
    rw [← Int.cast_abs] at this
    exact_mod_cast this
  by_cases hq : q = 0
  · subst hq
    simp [jsMul, toDouble_zero]
  · have hp : |p| < 2 ^ 53 := by
      have h1 : 1 ≤ |q| := Int.one_le_abs hq
      have h2 : |p| * 1 ≤ |p| * |q| := Int.mul_le_mul_of_nonneg_left h1 (abs_nonneg p)
      rw [abs_mul] at hpq
      omega
    unfold jsMul
    rw [toDouble_intCast p hp, ← Int.cast_mul]
    exact toDouble_intCast _ hpq

/-! ### The totals of `calculateTotals` -/

/-- A line that carries its own price `p` and no nested price counts as the
double nearest to `p`. -/
theorem linePrice_own (id : Int) (p : ℚ) (q : Option Int) :
    linePrice ⟨id, some p, none, q⟩ = toDouble p := by
  by_cases hp : toDouble p = 0
  · simp [linePrice, numberOf, jsOrNum, truthyNum, parseFloat, hp]
  · simp [linePrice, numberOf, jsOrNum, truthyNum, parseFloat, hp]

theorem lineQuantity_own (id : Int) (p pp : Option ℚ) (q : Int) :
    lineQuantity ⟨id, p, pp, some q⟩ = q := by
  by_cases hq : q = 0
  · simp [lineQuantity, jsOr, truthy, parseInt, hq]
  · simp [lineQuantity, jsOr, truthy, parseInt, hq]

/-- The term of a line within the range of the claim has size at most `2 ^ 554`. -/
theorem abs_line_le (price quantity : ℚ) (hp : |price| ≤ 2 ^ 500) (hq : |quantity| ≤ 2 ^ 53) :
    |jsMul price quantity| ≤ 2 ^ 554 := by
  unfold jsMul
  have h1 := abs_toDouble_le (price * quantity)
  have h2 : |price * quantity| ≤ 2 ^ 500 * 2 ^ 53 := by
    rw [abs_mul]
    exact mul_le_mul hp hq (abs_nonneg _) (by positivity)
  have h3 : |price * quantity| / 2 ^ 53 ≤ 2 ^ 500 * 2 ^ 53 / 2 ^ 53 :=
    div_le_div_of_nonneg_right h2 (by positivity)
  norm_num at h1 h2 h3 ⊢
  linarith

/-- The subtotal of a cart within the range of the claim stays far below the
largest double. -/
theorem abs_subtotal_le (items : List LineItem) (hlen : items.length ≤ 2 ^ 32)
    (hrange : ∀ item ∈ items,
      |linePrice item| ≤ 2 ^ 500 ∧ |(lineQuantity item : ℚ)| ≤ 2 ^ 53) :
    |(calculateTotals (.array items)).subtotal| ≤ 2 ^ 587 := by
  have h := foldl_jsAdd_bound (fun item => jsMul (linePrice item) (lineQuantity item)) items 0 0
    (fun item hitem => abs_line_le _ _ (hrange item hitem).1 (hrange item hitem).2)
    (by simp) (by simpa using hlen)
  have h2 : ((0 + items.length : Nat) : ℚ) * 2 ^ 555 ≤ 2 ^ 32 * 2 ^ 555 := by
    apply mul_le_mul_of_nonneg_right _ (by positivity)
    have : 0 + items.length ≤ 2 ^ 32 := by omega
    exact_mod_cast this
  have h3 : (2 : ℚ) ^ 32 * 2 ^ 555 = 2 ^ 587 := by norm_num
  have h4 : (calculateTotals (.array items)).subtotal =
      items.foldl (fun total item => jsAdd total (jsMul (linePrice item) (lineQuantity item))) 0 :=
    rfl
  rw [h4]
  linarith

/-- The sum of three numbers taken in double precision, left to right, against
their exact sum. -/
theorem jsAdd_jsAdd_err (s t sh : ℚ) :
    |jsAdd (jsAdd s t) sh - (s + t + sh)| ≤ (|s| + |t| + |sh|) / 2 ^ 51 + 3 / 2 ^ 1075 := by
  unfold jsAdd
  have e1 := toDouble_err (s + t)
  have e2 := toDouble_err (toDouble (s + t) + sh)
  have e3 := abs_toDouble_le (s + t)
  have e4 : |toDouble (s + t) + sh| ≤ |toDouble (s + t)| + |sh| := abs_add _ _
  have e5 : |s + t| ≤ |s| + |t| := abs_add _ _
  have e6 : |toDouble (toDouble (s + t) + sh) - (s + t + sh)| ≤
      |toDouble (toDouble (s + t) + sh) - (toDouble (s + t) + sh)| +
        |toDouble (s + t) - (s + t)| := by
    have := abs_add (toDouble (toDouble (s + t) + sh) - (toDouble (s + t) + sh))
      (toDouble (s + t) - (s + t))
    have e : toDouble (toDouble (s + t) + sh) - (toDouble (s + t) + sh) +
        (toDouble (s + t) - (s + t)) = toDouble (toDouble (s + t) + sh) - (s + t + sh) := by
      ring
    rwa [e] at this
  have p1 : 0 ≤ |s| := abs_nonneg _
  have p2 : 0 ≤ |t| := abs_nonneg _
  have p3 : 0 ≤ |sh| := abs_nonneg _
  have p4 : 0 ≤ |s + t| := abs_nonneg _
  have d1 : |toDouble (s + t) + sh| / 2 ^ 53 ≤
      (|s + t| + |s + t| / 2 ^ 53 + 1 / 2 ^ 1075 + |sh|) / 2 ^ 53 :=
    div_le_div_of_nonneg_right (by linarith) (by positivity)
  have d2 : (|s + t| + |s + t| / 2 ^ 53 + 1 / 2 ^ 1075 + |sh|) / 2 ^ 53 + |s + t| / 2 ^ 53 ≤
      (|s| + |t| + |sh|) / 2 ^ 51 + 1 / 2 ^ 1075 := by
    have q1 : (|s + t| + |s + t| / 2 ^ 53 + 1 / 2 ^ 1075 + |sh|) / 2 ^ 53 + |s + t| / 2 ^ 53 =
        |s + t| * (2 / 2 ^ 53 + 1 / 2 ^ 106) + |sh| * (1 / 2 ^ 53) + 1 / 2 ^ 1128 := by
      ring
    have q2 : |s + t| * (2 / 2 ^ 53 + 1 / 2 ^ 106) ≤ (|s| + |t|) * (1 / 2 ^ 51) :=
      mul_le_mul e5 (by norm_num) (by norm_num) (by linarith)
    have q3 : |sh| * (1 / 2 ^ 53) ≤ |sh| * (1 / 2 ^ 51) :=
      mul_le_mul_of_nonneg_left (by norm_num) p3
    have q4 : (1 : ℚ) / 2 ^ 1128 ≤ 1 / 2 ^ 1075 := by norm_num
    have q5 : (|s| + |t| + |sh|) / 2 ^ 51 = (|s| + |t|) * (1 / 2 ^ 51) + |sh| * (1 / 2 ^ 51) := by
      ring
    rw [q1, q5]
    linarith
  linarith

/-- The tax of a subtotal of size at most `2 ^ 587` has at most that size. -/
theorem abs_tax_le (s : ℚ) (hs : |s| ≤ 2 ^ 587) : |jsMul s (toDouble (1 / 10))| ≤ 2 ^ 587 := by
  rw [toDouble_tenth]
  unfold jsMul
  have h1 := abs_toDouble_le (s * (3602879701896397 / 36028797018963968))
  have h2 : |s * (3602879701896397 / 36028797018963968)| ≤ |s| * (1 / 8) := by
    rw [abs_mul, abs_of_pos (by norm_num : (0 : ℚ) < 3602879701896397 / 36028797018963968)]
    exact mul_le_mul_of_nonneg_left (by norm_num) (abs_nonneg s)
  have h3 : |s * (3602879701896397 / 36028797018963968)| / 2 ^ 53 ≤ |s| * (1 / 8) / 2 ^ 53 :=
    div_le_div_of_nonneg_right h2 (by positivity)
  have h4 : |s| * (1 / 8) + |s| * (1 / 8) / 2 ^ 53 ≤ |s| * (1 / 4) := by
    have : |s| * (1 / 8) + |s| * (1 / 8) / 2 ^ 53 = |s| * (1 / 8 + 1 / 8 / 2 ^ 53) := by ring
    rw [this]
    exact mul_le_mul_of_nonneg_left (by norm_num) (abs_nonneg s)
  have h5 : (1 : ℚ) / 2 ^ 1075 ≤ 1 := by
    rw [div_le_one (by positivity)]
    exact one_le_pow₀ (by norm_num)
  have h6 : |s| * (1 / 4) + 1 ≤ 2 ^ 587 := by
    have : |s| * (1 / 4) ≤ 2 ^ 587 * (1 / 4) := mul_le_mul_of_nonneg_right hs (by norm_num)
    have : (2 : ℚ) ^ 587 * (1 / 4) + 1 ≤ 2 ^ 587 := by norm_num
    linarith
  linarith

/-- The total of a subtotal and a tax of size at most `2 ^ 587` and a shipping
charge of size at most 15 has size at most `2 ^ 589`. -/
theorem abs_total_le (s t sh : ℚ) (hs : |s| ≤ 2 ^ 587) (ht : |t| ≤ 2 ^ 587) (hsh : |sh| ≤ 15) :
    |jsAdd (jsAdd s t) sh| ≤ 2 ^ 589 := by
  have h1 := jsAdd_jsAdd_err s t sh
  have h2 : |jsAdd (jsAdd s t) sh| ≤ |jsAdd (jsAdd s t) sh - (s + t + sh)| + |s + t + sh| := by
    have := abs_add (jsAdd (jsAdd s t) sh - (s + t + sh)) (s + t + sh)
    simpa using this
  have h3 : |s + t + sh| ≤ |s| + |t| + |sh| := abs_add_three s t sh
  have h4 : (|s| + |t| + |sh|) / 2 ^ 51 ≤ (2 ^ 587 + 2 ^ 587 + 15) / 2 ^ 51 :=
    div_le_div_of_nonneg_right (by linarith) (by positivity)
  have h5 : (1 : ℚ) / 2 ^ 1075 ≤ 1 := by
    rw [div_le_one (by positivity)]
    exact one_le_pow₀ (by norm_num)
  have h6 : ((2 : ℚ) ^ 587 + 2 ^ 587 + 15) / 2 ^ 51 + 3 + (2 ^ 587 + 2 ^ 587 + 15) ≤ 2 ^ 589 := by
    norm_num
  linarith

/-- C11 (as stated, refuted): for the cart `[{price: 14, quantity: 1}]` the
subtotal is 14 and the tax is the double 1.4000000000000001, which is not one
tenth of the subtotal. -/
theorem calculateTotals_tax_counterexample :
    (calculateTotals (.array cartOf14)).subtotal = 14 ∧
    (calculateTotals (.array cartOf14)).tax = 6305039478318695 / 4503599627370496 ∧
    (calculateTotals (.array cartOf14)).tax ≠ (calculateTotals (.array cartOf14)).subtotal / 10 := by
  decide!

/-- C11 (amended): for a list of at most `2 ^ 32` cart lines with prices of size
at most `2 ^ 500` and whole quantities of size at most `2 ^ 53`,
`calculateTotals` returns subtotal = Σ price × quantity, tax = subtotal × 0.1 and
total = subtotal + tax + shipping, every product and sum rounded to the nearest
double.  The subtotal is the exact sum when prices and quantities are whole
numbers whose products have sizes adding up to less than `2 ^ 53`; the tax
differs from one tenth of the subtotal by at most `2 ^ (-55)` of the subtotal's
size; the total differs from the exact sum of its three terms by at most
`2 ^ (-51)` of their sizes; shipping is 0 above 100 and 10 otherwise; every
running subtotal, the tax and the total stay far below the largest double. -/
theorem calculateTotals_double (items : List LineItem) (hlen : items.length ≤ 2 ^ 32)
    (hrange : ∀ item ∈ items,
      |linePrice item| ≤ 2 ^ 500 ∧ |(lineQuantity item : ℚ)| ≤ 2 ^ 53) :
    (calculateTotals (.array items)).subtotal =
      items.foldl (fun total item => jsAdd total (jsMul (linePrice item) (lineQuantity item))) 0 ∧
    ((∀ item ∈ items, item.productPrice = none ∧ item.price ≠ none ∧ item.quantity ≠ none ∧
        (item.price.getD 0).den = 1) →
      (items.map fun item =>
        |item.price.getD 0 * ((item.quantity.getD 0 : Int) : ℚ)|).sum < 2 ^ 53 →
      (calculateTotals (.array items)).subtotal =
        (items.map fun item => item.price.getD 0 * ((item.quantity.getD 0 : Int) : ℚ)).sum) ∧
    (calculateTotals (.array items)).tax =
      jsMul (calculateTotals (.array items)).subtotal (toDouble (1 / 10)) ∧
    |(calculateTotals (.array items)).tax - (calculateTotals (.array items)).subtotal / 10| ≤
      |(calculateTotals (.array items)).subtotal| / 2 ^ 55 + 1 / 2 ^ 1075 ∧
    (calculateTotals (.array items)).shipping =
      (if (calculateTotals (.array items)).subtotal > 100 then 0 else 10) ∧
    (calculateTotals (.array items)).total =
      jsAdd (jsAdd (calculateTotals (.array items)).subtotal (calculateTotals (.array items)).tax)
        (calculateTotals (.array items)).shipping ∧
    |(calculateTotals (.array items)).total -
        ((calculateTotals (.array items)).subtotal + (calculateTotals (.array items)).tax +
          (calculateTotals (.array items)).shipping)| ≤
      (|(calculateTotals (.array items)).subtotal| + |(calculateTotals (.array items)).tax| +
        |(calculateTotals (.array items)).shipping|) / 2 ^ 51 + 3 / 2 ^ 1075 ∧
    (∀ n, |(calculateTotals (.array (items.take n))).subtotal| ≤ 2 ^ 587) ∧
    |(calculateTotals (.array items)).tax| ≤ 2 ^ 587 ∧
    |(calculateTotals (.array items)).total| ≤ 2 ^ 589 := by
  have hs := abs_subtotal_le items hlen hrange
  have hship : |(calculateTotals (.array items)).shipping| ≤ 15 := by
    have : (calculateTotals (.array items)).shipping =
        (if (calculateTotals (.array items)).subtotal > 100 then 0 else 10) := rfl
    rw [this]
    split <;> norm_num
  have htax := abs_tax_le _ hs
  refine ⟨rfl, ?_, rfl, jsMul_tenth_err _, rfl, rfl, jsAdd_jsAdd_err _ _ _, ?_, htax,
    abs_total_le _ _ _ hs htax hship⟩
  · intro hw hsum
    have hnonneg : ∀ x ∈ items.map (fun item =>
        |item.price.getD 0 * ((item.quantity.getD 0 : Int) : ℚ)|), 0 ≤ x := by
      intro x hx
      obtain ⟨b, _, rfl⟩ := List.mem_map.mp hx
      exact abs_nonneg _
    have hterm : ∀ item ∈ items, jsMul (linePrice item) (lineQuantity item) =
        ((((item.price.getD 0).num * item.quantity.getD 0 : Int)) : ℚ) ∧
        item.price.getD 0 * ((item.quantity.getD 0 : Int) : ℚ) =
          ((((item.price.getD 0).num * item.quantity.getD 0 : Int)) : ℚ) := by
      intro item hitem
      have hle : |item.price.getD 0 * ((item.quantity.getD 0 : Int) : ℚ)| < 2 ^ 53 :=
        lt_of_le_of_lt (List.single_le_sum hnonneg _ (List.mem_map.mpr ⟨item, hitem, rfl⟩)) hsum
      obtain ⟨id, p, pp, q⟩ := item
      obtain ⟨h1, h2, h3, h4⟩ := hw _ hitem
      simp only at h1 h2 h3 h4
      subst h1
      obtain ⟨p, rfl⟩ := Option.ne_none_iff_exists'.mp h2
      obtain ⟨q, rfl⟩ := Option.ne_none_iff_exists'.mp h3
      simp only [Option.getD_some] at h4 hle ⊢
      have hp : ((p.num : Int) : ℚ) = p := Rat.coe_int_num_of_den_eq_one h4
      rw [linePrice_own, lineQuantity_own]
      constructor
      · rw [← hp] at hle ⊢
        simp only [Rat.num_intCast]
        exact jsMul_int p.num q hle
      · rw [Int.cast_mul, hp]
    have hex := foldl_jsAdd_exact (fun item => jsMul (linePrice item) (lineQuantity item)) items 0
      (fun item hitem => ⟨_, (hterm item hitem).1⟩) (by
        have hmap : (items.map fun a => |(fun item => jsMul (linePrice item) (lineQuantity item)) a|) =
            items.map fun item => |item.price.getD 0 * ((item.quantity.getD 0 : Int) : ℚ)| := by
          apply List.map_congr_left
          intro item hitem
          simp only
          rw [(hterm item hitem).1, (hterm item hitem).2]
        rw [hmap]
        simpa using hsum)
    have hmap2 : (items.map fun item => jsMul (linePrice item) (lineQuantity item)) =
        items.map fun item => item.price.getD 0 * ((item.quantity.getD 0 : Int) : ℚ) := by
      apply List.map_congr_left
      intro item hitem
      rw [(hterm item hitem).1, (hterm item hitem).2]
    have hsub : (calculateTotals (.array items)).subtotal =
        items.foldl (fun total item => jsAdd total (jsMul (linePrice item) (lineQuantity item)))
          ((0 : Int) : ℚ) := by
      rw [Int.cast_zero]
      rfl
    rw [hsub, hex, hmap2]
    simp
  · intro n
    exact abs_subtotal_le (items.take n)
      (by rw [List.length_take]; exact (min_le_right _ _).trans hlen)
      (fun item hitem => hrange item (List.mem_of_mem_take hitem))

/-- C11 (amended), the specification's example: [{price 999, qty 2},
{price 25, qty 1}] gives subtotal 2023, as tax the double nearest to 202.30, free
shipping, and as total the double nearest to 2225.30. -/
theorem calculateTotals_double_witness :
    (calculateTotals (.array exampleCart)).subtotal =
      (exampleCart.map fun item => item.price.getD 0 * ((item.quantity.getD 0 : Int) : ℚ)).sum ∧
    calculateTotals (.array exampleCart) =
      { subtotal := 2023, tax := toDouble (2023 / 10), shipping := 0,
        total := toDouble (22253 / 10) } ∧
    toDouble (2023 / 10) = 3558899236785357 / 17592186044416 :=
  ⟨(calculateTotals_double exampleCart (by decide) (by decide!)).2.1 (by decide!) (by decide!),
    by decide!, by decide!⟩

/-! ## C12: the shipping rule of the cart page -/

/-- C12: on the cart page shipping is 15 when the payment method is `cod`,
whatever the subtotal; for any other payment method it is 0 when the subtotal is
strictly greater than 100 and 10 otherwise. -/
theorem cartPage_shipping (rawCartItems : RawCart) (paymentMethod : String) :
    (paymentMethod = "cod" → (cartPageTotals rawCartItems paymentMethod).shipping = 15) ∧
    (paymentMethod ≠ "cod" → (cartPageTotals rawCartItems paymentMethod).subtotal > 100 →
      (cartPageTotals rawCartItems paymentMethod).shipping = 0) ∧
    (paymentMethod ≠ "cod" → (cartPageTotals rawCartItems paymentMethod).subtotal ≤ 100 →
      (cartPageTotals rawCartItems paymentMethod).shipping = 10) := by
  refine ⟨fun h => ?_, fun h hs => ?_, fun h hs => ?_⟩
  · simp [cartPageTotals, h]
  · simp only [cartPageTotals] at hs ⊢
    rw [if_neg h, if_pos hs]
  · simp only [cartPageTotals] at hs ⊢
    rw [if_neg h, if_neg (not_lt.mpr hs)]

/-- C12, instances: a cart worth exactly 100 pays 15 with `cod` and 10 with
`card`; the cart worth 2023 pays 15 with `cod` and nothing with `card`. -/
theorem cartPage_shipping_witness :
    (cartPageTotals (.array cartOf100) "cod").shipping = 15 ∧
    (cartPageTotals (.array cartOf100) "card").shipping = 10 ∧
    (cartPageTotals (.array exampleCart) "cod").shipping = 15 ∧
    (cartPageTotals (.array exampleCart) "card").shipping = 0 ∧
    (cartPageTotals (.array cartOf100) "card").subtotal = 100 :=
  ⟨(cartPage_shipping (.array cartOf100) "cod").1 rfl,
   (cartPage_shipping (.array cartOf100) "card").2.2 (by decide) (by decide!),
   (cartPage_shipping (.array exampleCart) "cod").1 rfl,
   (cartPage_shipping (.array exampleCart) "card").2.1 (by decide) (by decide!),
   by decide!⟩

/-! ## C13: the three copies of the totals -/

/-- The checkout page reads the same price as the other two copies on every
line that has a price of its own or no nested product price. -/
theorem linePriceCheckout_eq (item : LineItem)
    (h : truthyNum (numberOf item.price) = true ∨
      truthyNum (numberOf item.productPrice) = false) :
    linePriceCheckout item = linePrice item := by
  obtain ⟨id, p, pp, q⟩ := item
  simp only at h
  rcases h with h | h
  · simp [linePriceCheckout, linePrice, jsOrNum, h]
  · by_cases hp : truthyNum (numberOf p) = true
    · simp [linePriceCheckout, linePrice, jsOrNum, hp]
    · simp [linePriceCheckout, linePrice, jsOrNum, hp, h]

/-- Two folds whose steps agree on the elements of the list agree. -/
theorem foldl_congr_mem {α β : Type} (f g : β → α → β) :
    ∀ (l : List α) (b : β), (∀ a ∈ l, ∀ b, f b a = g b a) → l.foldl f b = l.foldl g b
  | [], _, _ => rfl
  | a :: l, b, h => by
    rw [List.foldl_cons, List.foldl_cons, h a (List.mem_cons_self _ _) b]
    exact foldl_congr_mem f g l _ fun x hx => h x (List.mem_cons_of_mem _ hx)

/-- On carts without a line that relies on a nested product price, the three
copies agree on subtotal and tax, and with payment method `card` also on
shipping and total. -/
theorem totals_agree (items : List LineItem)
    (h : ∀ item ∈ items, truthyNum (numberOf item.price) = true ∨
      truthyNum (numberOf item.productPrice) = false) :
    checkoutPageTotals (.array items) = calculateTotals (.array items) ∧
    cartPageTotals (.array items) "card" = calculateTotals (.array items) ∧
    ∀ paymentMethod,
      (cartPageTotals (.array items) paymentMethod).subtotal =
        (calculateTotals (.array items)).subtotal ∧
      (cartPageTotals (.array items) paymentMethod).tax = (calculateTotals (.array items)).tax := by
  have hsub : items.foldl
      (fun total item => jsAdd total (jsMul (linePriceCheckout item) (lineQuantity item))) 0 =
      items.foldl (fun total item => jsAdd total (jsMul (linePrice item) (lineQuantity item))) 0 := by
    apply foldl_congr_mem
    intro item hitem total
    rw [linePriceCheckout_eq item (h item hitem)]
  refine ⟨?_, ?_, fun paymentMethod => ⟨rfl, rfl⟩⟩
  · simp only [checkoutPageTotals, calculateTotals, hsub]
  · simp [cartPageTotals, calculateTotals, calculateSubtotal, cartPageItems]

/-- C13 (the code at the failing input): for the cart
`[{product: {price: 5}, quantity: 1}]` the cart page and `calculateTotals`
compute subtotal 5 and tax 0.5, the checkout page computes subtotal 0 and tax 0. -/
theorem checkout_page_ignores_nested_price :
    cartPageTotals (.array nestedCart) "card" =
      { subtotal := 5, tax := 1 / 2, shipping := 10, total := 31 / 2 } ∧
    calculateTotals (.array nestedCart) =
      { subtotal := 5, tax := 1 / 2, shipping := 10, total := 31 / 2 } ∧
    checkoutPageTotals (.array nestedCart) =
      { subtotal := 0, tax := 0, shipping := 10, total := 10 } := by
  decide!

/-! ## C14: deleting a category -/

/-- C14: for an existing category, `deleteCategory` answers 400, issues no
statement and leaves the catalogue as it is when at least one product has that
`category_id`; it answers 200 and removes the category row when no product
references it; an id that matches no category gets 404. -/
theorem deleteCategory_spec (shop : Shop) (id : Int) (now : Nat) :
    (∀ category others, (shop.categories.filter fun c => decide (c.id = id)) = category :: others →
      ((∃ p ∈ shop.products, p.category_id = id) →
        (deleteCategory shop (some id)).reply.status = 400 ∧
        (deleteCategory shop (some id)).stmt = none ∧
        shop.after now (deleteCategory shop (some id)) = shop) ∧
      ((∀ p ∈ shop.products, p.category_id ≠ id) →
        (deleteCategory shop (some id)).reply.status = 200 ∧
        (shop.after now (deleteCategory shop (some id))).categories =
          shop.categories.filter (fun c => decide (c.id ≠ id)) ∧
        (∀ c ∈ (shop.after now (deleteCategory shop (some id))).categories, c.id ≠ id) ∧
        (shop.after now (deleteCategory shop (some id))).products = shop.products)) ∧
    ((∀ c ∈ shop.categories, c.id ≠ id) →
      (deleteCategory shop (some id)).reply.status = 404 ∧
      shop.after now (deleteCategory shop (some id)) = shop) := by
  constructor
  · intro category others hc
    constructor
    · rintro ⟨p, hp, hpid⟩
      have hlen : (shop.products.filter fun p => decide (p.category_id = id)).length > 0 :=
        List.length_pos_of_mem (List.mem_filter.mpr ⟨hp, by simpa using hpid⟩)
      refine ⟨?_, ?_, ?_⟩ <;> simp [deleteCategory, hc, hlen, Shop.after]
    · intro hnone
      have hnil : (shop.products.filter fun p => decide (p.category_id = id)) = [] := by
        rw [List.filter_eq_nil_iff]
        intro p hp
        simpa using hnone p hp
      have hd : deleteCategory shop (some id) =
          ⟨⟨200, true, "Category deleted successfully"⟩, some (.deleteCategoryById id)⟩ := by
        simp [deleteCategory, hc, hnil]
      rw [hd]
      refine ⟨rfl, rfl, ?_, rfl⟩
      intro c hcmem
      simp only [Shop.after, ShopStmt.run, List.mem_filter, decide_eq_true_eq] at hcmem
      exact hcmem.2
  · intro hnone
    have hnil : (shop.categories.filter fun c => decide (c.id = id)) = [] := by
      rw [List.filter_eq_nil_iff]
      intro c hc
      simpa using hnone c hc
    constructor <;> simp [deleteCategory, hnil, Shop.after]

/-- C14, instances on `shop0`: category 1 holds product 1 (which is out of
stock), category 2 holds nothing, category 7 does not exist. -/
theorem deleteCategory_spec_witness :
    ((deleteCategory shop0 (some 1)).reply.status = 400 ∧
      (deleteCategory shop0 (some 1)).stmt = none ∧
      shop0.after 5 (deleteCategory shop0 (some 1)) = shop0) ∧
    ((deleteCategory shop0 (some 2)).reply.status = 200 ∧
      (shop0.after 5 (deleteCategory shop0 (some 2))).categories =
        shop0.categories.filter (fun c => decide (c.id ≠ 2)) ∧
      (∀ c ∈ (shop0.after 5 (deleteCategory shop0 (some 2))).categories, c.id ≠ 2) ∧
      (shop0.after 5 (deleteCategory shop0 (some 2))).products = shop0.products) ∧
    ((deleteCategory shop0 (some 7)).reply.status = 404 ∧
      shop0.after 5 (deleteCategory shop0 (some 7)) = shop0) ∧
    (shop0.after 5 (deleteCategory shop0 (some 2))).categories =
      [⟨1, "Kitchen", some "Kitchen ware", 0⟩] :=
  ⟨((deleteCategory_spec shop0 1 5).1 ⟨1, "Kitchen", some "Kitchen ware", 0⟩ [] (by decide)).1
      ⟨⟨1, "Mug", some "A mug", 1999 / 100, 1, 0, none, 0⟩, by decide!, rfl⟩,
   ((deleteCategory_spec shop0 2 5).1 ⟨2, "Office", none, 0⟩ [] (by decide)).2 (by decide!),
   (deleteCategory_spec shop0 7 5).2 (by decide),
   by decide⟩

/-! ## C15: uniqueness of category names -/

theorem createCategory_duplicate (shop : Shop) (errorsEmpty : Bool) (body : CategoryBody)
    (name : String) (hname : body.name = some name)
    (hdup : ∃ c ∈ shop.categories, c.name = jsTrim name) :
    (createCategory shop errorsEmpty body).reply.status = 400 ∧
    (createCategory shop errorsEmpty body).stmt = none := by
  obtain ⟨c, hc, hcn⟩ := hdup
  have hlen : (shop.categories.filter fun c => decide (c.name = jsTrim name)).length > 0 :=
    List.length_pos_of_mem (List.mem_filter.mpr ⟨hc, by simpa using hcn⟩)
  cases errorsEmpty with
  | false => exact ⟨rfl, rfl⟩
  | true => constructor <;> simp [createCategory, hname, hlen]

theorem updateCategory_duplicate (shop : Shop) (errorsEmpty : Bool) (id : Int)
    (updateData : CategoryBody) (name : String) (existing : Category) (rest : List Category)
    (hname : updateData.name = some name) (hne : name ≠ "")
    (hc : (shop.categories.filter fun c => decide (c.id = id)) = existing :: rest)
    (hown : jsTrim name ≠ existing.name)
    (hdup : ∃ c ∈ shop.categories, c.name = jsTrim name ∧ c.id ≠ id) :
    (updateCategory shop errorsEmpty (some id) updateData).reply.status = 400 ∧
    (updateCategory shop errorsEmpty (some id) updateData).stmt = none := by
  obtain ⟨c, hcm, hcn⟩ := hdup
  have hlen : (shop.categories.filter fun c =>
      decide (c.name = jsTrim name ∧ c.id ≠ id)).length > 0 :=
    List.length_pos_of_mem (List.mem_filter.mpr ⟨hcm, by simpa using hcn⟩)
  cases errorsEmpty with
  | false => exact ⟨rfl, rfl⟩
  | true =>
    have hlen2 : 0 < (List.filter (fun c => decide (c.name = jsTrim name) && !decide (c.id = id))
        shop.categories).length := by simpa using hlen
    constructor <;> simp [updateCategory, hname, hc, truthyStr, hne, hown, hlen2]

theorem updateCategory_own_name (shop : Shop) (errorsEmpty : Bool) (id : Int)
    (updateData : CategoryBody) (name : String) (existing : Category) (rest : List Category)
    (hname : updateData.name = some name)
    (hc : (shop.categories.filter fun c => decide (c.id = id)) = existing :: rest)
    (hown : jsTrim name = existing.name) :
    (updateCategory shop errorsEmpty (some id) updateData).reply.message ≠
      "Category name already exists" ∧
    (errorsEmpty = true → name ≠ "" →
      (updateCategory shop errorsEmpty (some id) updateData).reply.status = 200) := by
  cases errorsEmpty with
  | false => exact ⟨by simp [updateCategory], fun h => absurd h (by decide)⟩
  | true =>
    by_cases hne : name = ""
    · subst hne
      refine ⟨?_, fun _ h => absurd rfl h⟩
      cases hd : updateData.description with
      | none =>
        simp [updateCategory, hname, hc, truthyStr, categoryUpdateArrays, hd]
      | some d =>
        simp [updateCategory, hname, hc, truthyStr, categoryUpdateArrays, hd]
    · have h200 : (updateCategory shop true (some id) updateData).reply =
          ⟨200, true, "Category updated successfully"⟩ := by
        cases hd : updateData.description with
        | none =>
          simp [updateCategory, hname, hc, truthyStr, hne, hown, categoryUpdateArrays, hd]
        | some d =>
          simp [updateCategory, hname, hc, truthyStr, hne, hown, categoryUpdateArrays, hd]
      rw [h200]
      exact ⟨by decide, fun _ _ => rfl⟩

/-- C15 (amended): `createCategory` answers 400 and inserts nothing when a category with
the same trimmed name exists; `updateCategory` answers 400 and updates nothing
when the new (non-empty) trimmed name differs from the category's own name and
belongs to another category; when the trimmed name is the category's own
current name the request is not rejected as a duplicate (and succeeds when the
validation chain passed). -/
theorem category_name_uniqueness (shop : Shop) (errorsEmpty : Bool) (now : Nat) :
    (∀ body name, body.name = some name →
      (∃ c ∈ shop.categories, c.name = jsTrim name) →
      (createCategory shop errorsEmpty body).reply.status = 400 ∧
      (createCategory shop errorsEmpty body).stmt = none ∧
      shop.after now (createCategory shop errorsEmpty body) = shop) ∧
    (∀ id updateData name existing rest, updateData.name = some name → name ≠ "" →
      (shop.categories.filter fun c => decide (c.id = id)) = existing :: rest →
      jsTrim name ≠ existing.name →
      (∃ c ∈ shop.categories, c.name = jsTrim name ∧ c.id ≠ id) →
      (updateCategory shop errorsEmpty (some id) updateData).reply.status = 400 ∧
      (updateCategory shop errorsEmpty (some id) updateData).stmt = none ∧
      shop.after now (updateCategory shop errorsEmpty (some id) updateData) = shop) ∧
    (∀ id updateData name existing rest, updateData.name = some name →
      (shop.categories.filter fun c => decide (c.id = id)) = existing :: rest →
      jsTrim name = existing.name →
      (updateCategory shop errorsEmpty (some id) updateData).reply.message ≠
        "Category name already exists" ∧
      (errorsEmpty = true → name ≠ "" →
        (updateCategory shop errorsEmpty (some id) updateData).reply.status = 200)) := by
  refine ⟨fun body name hname hdup => ?_, fun id updateData name existing rest hname hne hc hown hdup => ?_,
    fun id updateData name existing rest hname hc hown => ?_⟩
  · obtain ⟨h1, h2⟩ := createCategory_duplicate shop errorsEmpty body name hname hdup
    exact ⟨h1, h2, by simp [Shop.after, h2]⟩
  · obtain ⟨h1, h2⟩ :=
      updateCategory_duplicate shop errorsEmpty id updateData name existing rest hname hne hc
        hown hdup
    exact ⟨h1, h2, by simp [Shop.after, h2]⟩
  · exact updateCategory_own_name shop errorsEmpty id updateData name existing rest hname hc hown

/-- C15 (amended), instances on `shop0`: creating " Kitchen " and renaming category 2 to
"Kitchen" are rejected; renaming category 1 to "Kitchen " is accepted. -/
theorem category_name_uniqueness_witness :
    ((createCategory shop0 true ⟨some " Kitchen ", none⟩).reply.status = 400 ∧
      (createCategory shop0 true ⟨some " Kitchen ", none⟩).stmt = none ∧
      shop0.after 5 (createCategory shop0 true ⟨some " Kitchen ", none⟩) = shop0) ∧
    ((updateCategory shop0 true (some 2) ⟨some "Kitchen", none⟩).reply.status = 400 ∧
      (updateCategory shop0 true (some 2) ⟨some "Kitchen", none⟩).stmt = none ∧
      shop0.after 5 (updateCategory shop0 true (some 2) ⟨some "Kitchen", none⟩) = shop0) ∧
    ((updateCategory shop0 true (some 1) ⟨some "Kitchen ", none⟩).reply.message ≠
        "Category name already exists" ∧
      (true = true → "Kitchen " ≠ "" →
        (updateCategory shop0 true (some 1) ⟨some "Kitchen ", none⟩).reply.status = 200)) :=
  ⟨(category_name_uniqueness shop0 true 5).1 ⟨some " Kitchen ", none⟩ " Kitchen " rfl
      ⟨⟨1, "Kitchen", some "Kitchen ware", 0⟩, by decide, by decide⟩,
   (category_name_uniqueness shop0 true 5).2.1 2 ⟨some "Kitchen", none⟩ "Kitchen"
      ⟨2, "Office", none, 0⟩ [] rfl (by decide) (by decide) (by decide)
      ⟨⟨1, "Kitchen", some "Kitchen ware", 0⟩, by decide, by decide⟩,
   (category_name_uniqueness shop0 true 5).2.2 1 ⟨some "Kitchen ", none⟩ "Kitchen "
      ⟨1, "Kitchen", some "Kitchen ware", 0⟩ [] rfl (by decide) (by decide)⟩

/-! ## C16: an update without fields -/

/-- On an existing product, `updateProduct` with a body that is not multipart and
supplies none of name, description, price, category_id, stock_quantity answers
400 and issues no statement, the message being 'No valid fields to update' once
the validation chain has passed (as it does when the body has no `image_url`
either); `updateCategory` does the same on an existing category for a body
without name and description. -/
theorem empty_update_rejected (shop : Shop) (id : Int) (isURL : String → Bool) :
    (∀ product rest image_url,
      (shop.products.filter fun p => decide (p.id = id)) = product :: rest →
      (∀ errorsEmpty,
        (updateProduct shop errorsEmpty (some id)
          ⟨none, none, none, none, none, image_url⟩ .notMultipart).reply.status = 400 ∧
        (updateProduct shop errorsEmpty (some id)
          ⟨none, none, none, none, none, image_url⟩ .notMultipart).stmt = none) ∧
      (updateProduct shop true (some id) ⟨none, none, none, none, none, image_url⟩
          .notMultipart).reply =
        ⟨400, false, "No valid fields to update"⟩ ∧
      productUpdateValidation isURL ⟨none, none, none, none, none, none⟩ = true) ∧
    (∀ category rest,
      (shop.categories.filter fun c => decide (c.id = id)) = category :: rest →
      (∀ errorsEmpty,
        (updateCategory shop errorsEmpty (some id) ⟨none, none⟩).reply.status = 400 ∧
        (updateCategory shop errorsEmpty (some id) ⟨none, none⟩).stmt = none) ∧
      (updateCategory shop true (some id) ⟨none, none⟩).reply =
        ⟨400, false, "No valid fields to update"⟩ ∧
      categoryUpdateValidation ⟨none, none⟩ = true) := by
  constructor
  · intro product rest image_url hp
    have h : updateProduct shop true (some id) ⟨none, none, none, none, none, image_url⟩
        .notMultipart = ⟨⟨400, false, "No valid fields to update"⟩, none⟩ := by
      simp [updateProduct, parseInt, hp, truthy, productUpdateArrays, truthyStr, truthyNum,
        Upload.bodyHasPrototype, Upload.file]
    refine ⟨fun errorsEmpty => ?_, by rw [h], rfl⟩
    cases errorsEmpty with
    | false => exact ⟨rfl, rfl⟩
    | true => rw [h]; exact ⟨rfl, rfl⟩
  · intro category rest hc
    have h : updateCategory shop true (some id) ⟨none, none⟩ =
        ⟨⟨400, false, "No valid fields to update"⟩, none⟩ := by
      simp [updateCategory, hc, categoryUpdateArrays, truthyStr]
    refine ⟨fun errorsEmpty => ?_, by rw [h], rfl⟩
    cases errorsEmpty with
    | false => exact ⟨rfl, rfl⟩
    | true => rw [h]; exact ⟨rfl, rfl⟩

/-- Instances of `empty_update_rejected` on `shop0`: empty JSON bodies sent to
product 1 and category 1. -/
theorem empty_update_rejected_witness :
    ((∀ errorsEmpty,
        (updateProduct shop0 errorsEmpty (some 1)
          ⟨none, none, none, none, none, none⟩ .notMultipart).reply.status = 400 ∧
        (updateProduct shop0 errorsEmpty (some 1)
          ⟨none, none, none, none, none, none⟩ .notMultipart).stmt = none) ∧
      (updateProduct shop0 true (some 1) ⟨none, none, none, none, none, none⟩
          .notMultipart).reply =
        ⟨400, false, "No valid fields to update"⟩ ∧
      productUpdateValidation (fun _ => false) ⟨none, none, none, none, none, none⟩ = true) ∧
    ((∀ errorsEmpty,
        (updateCategory shop0 errorsEmpty (some 1) ⟨none, none⟩).reply.status = 400 ∧
        (updateCategory shop0 errorsEmpty (some 1) ⟨none, none⟩).stmt = none) ∧
      (updateCategory shop0 true (some 1) ⟨none, none⟩).reply =
        ⟨400, false, "No valid fields to update"⟩ ∧
      categoryUpdateValidation ⟨none, none⟩ = true) :=
  ⟨(empty_update_rejected shop0 1 (fun _ => false)).1
      ⟨1, "Mug", some "A mug", 1999 / 100, 1, 0, none, 0⟩ [] none (by decide!),
   (empty_update_rejected shop0 1 (fun _ => false)).2
      ⟨1, "Kitchen", some "Kitchen ware", 0⟩ [] (by decide)⟩

/-- C16 (the code at the failing input): a multipart `PUT` on product 1 of `shop0`
that carries no field and no file passes the validation chain, and
`updateProduct` answers 500 'Failed to update product', not 400 'No valid fields
to update'; the same body sent as JSON gets the 400. -/
theorem updateProduct_empty_multipart :
    productUpdateValidation (fun _ => true) emptyProductBody = true ∧
    updateProduct shop0 true (some 1) emptyProductBody (.multipart none) =
      ⟨⟨500, false, "Failed to update product"⟩, none⟩ ∧
    CatalogRoute.putProduct.rest (fun _ => true)
        ⟨some 1, emptyProductBody, ⟨none, none⟩, .multipart none⟩ shop0 =
      ⟨⟨500, false, "Failed to update product"⟩, none⟩ ∧
    updateProduct shop0 true (some 1) emptyProductBody .notMultipart =
      ⟨⟨400, false, "No valid fields to update"⟩, none⟩ := by
  decide!

/-! ## C19: the admin gate -/

/-- C19: `requireAdmin` calls `next` exactly when the user's role is `admin`
and answers 403 otherwise; on each of the six routes that create, update or
delete a product or a category, a request whose authenticated user has another
role is answered 403 whatever follows the gate (so the controller is not
invoked), no statement is issued and the catalogue is unchanged. -/
theorem admin_gate (verify : String → Except String Decoded) (shop : Shop)
    (authHeader : Option String) (user : User) :
    (requireAdmin user = none ↔ user.role = "admin") ∧
    (user.role ≠ "admin" → requireAdmin user = some ⟨403, false, "Admin access required"⟩) ∧
    (authenticateToken verify shop.users authHeader = .next user → user.role ≠ "admin" →
      (∀ rest : Shop → ShopHandled,
        adminChain verify shop authHeader rest = ⟨⟨403, false, "Admin access required"⟩, none⟩) ∧
      (∀ (route : CatalogRoute) (isURL : String → Bool) (req : CatalogRequest) (now : Nat),
        (route.handle verify isURL shop authHeader req).reply.status = 403 ∧
        (route.handle verify isURL shop authHeader req).stmt = none ∧
        shop.after now (route.handle verify isURL shop authHeader req) = shop)) ∧
    (authenticateToken verify shop.users authHeader = .next user → user.role = "admin" →
      ∀ rest : Shop → ShopHandled, adminChain verify shop authHeader rest = rest shop) := by
  refine ⟨?_, ?_, ?_, ?_⟩
  · by_cases h : user.role = "admin" <;> simp [requireAdmin, h]
  · intro h
    simp [requireAdmin, h]
  · intro hauth hrole
    have hchain : ∀ rest : Shop → ShopHandled,
        adminChain verify shop authHeader rest =
          ⟨⟨403, false, "Admin access required"⟩, none⟩ := by
      intro rest
      simp [adminChain, hauth, requireAdmin, hrole]
    refine ⟨hchain, fun route isURL req now => ?_⟩
    have hh : route.handle verify isURL shop authHeader req =
        ⟨⟨403, false, "Admin access required"⟩, none⟩ := hchain _
    rw [hh]
    exact ⟨rfl, rfl, rfl⟩
  · intro hauth hrole rest
    simp [adminChain, hauth, requireAdmin, hrole]

/-- C19, instance: the customer `ann` (token `t2`) asks to delete category 2 of
`shop0`, which the administrator (token `t1`) may do. -/
theorem admin_gate_witness :
    ((∀ rest : Shop → ShopHandled,
        adminChain verify0 shop0 (some "Bearer t2") rest =
          ⟨⟨403, false, "Admin access required"⟩, none⟩) ∧
      (∀ (route : CatalogRoute) (isURL : String → Bool) (req : CatalogRequest) (now : Nat),
        (route.handle verify0 isURL shop0 (some "Bearer t2") req).reply.status = 403 ∧
        (route.handle verify0 isURL shop0 (some "Bearer t2") req).stmt = none ∧
        shop0.after now (route.handle verify0 isURL shop0 (some "Bearer t2") req) = shop0)) ∧
    (CatalogRoute.deleteCategory.handle verify0 (fun _ => true) shop0 (some "Bearer t1")
        ⟨some 2, emptyProductBody, ⟨none, none⟩, .notMultipart⟩).reply.status = 200 :=
  ⟨(admin_gate verify0 shop0 (some "Bearer t2") ⟨2, "ann", "ann@shop.test", "user"⟩).2.2.1
      (by decide) (by decide),
   by decide⟩

/-! ## C20: the outcomes of `authenticateToken` -/

theorem authenticateToken_of_token (verify : String → Except String Decoded)
    (users : List User) (authHeader : Option String) (token : String)
    (ht : bearerToken authHeader = some token) (hne : token ≠ "") :
    authenticateToken verify users authHeader =
      match verify token with
      | .error message => .respond ⟨403, false, "Invalid token: " ++ message⟩
      | .ok decoded =>
        match users.filter fun u => decide (u.id = decoded.id) with
        | [] => .respond ⟨401, false, "Invalid token - user not found"⟩
        | user :: _ => .next user := by
  simp [authenticateToken, ht, truthyStr, hne]

theorem authenticateToken_no_token (verify : String → Except String Decoded)
    (users : List User) (authHeader : Option String)
    (ht : truthyStr (bearerToken authHeader) = false) :
    authenticateToken verify users authHeader =
      .respond ⟨401, false, "Access token required"⟩ := by
  simp [authenticateToken, ht]

/-- C20: `authenticateToken` calls `next`, with `req.user` the stored row, exactly
when the `Authorization` header carries a token that verifies and whose id is
that of a stored user; without a token it answers 401, with a token that fails
verification 403, with a verified token of a user that no longer exists 401,
and in these three cases it does not call `next`. -/
theorem authenticateToken_outcomes (verify : String → Except String Decoded)
    (users : List User) (authHeader : Option String) :
    (∀ user, authenticateToken verify users authHeader = .next user ↔
      ∃ token decoded rest, bearerToken authHeader = some token ∧ token ≠ "" ∧
        verify token = .ok decoded ∧
        (users.filter fun u => decide (u.id = decoded.id)) = user :: rest) ∧
    (truthyStr (bearerToken authHeader) = false →
      authenticateToken verify users authHeader =
        .respond ⟨401, false, "Access token required"⟩) ∧
    (∀ token message, bearerToken authHeader = some token → token ≠ "" →
      verify token = .error message →
      authenticateToken verify users authHeader =
        .respond ⟨403, false, "Invalid token: " ++ message⟩) ∧
    (∀ token decoded, bearerToken authHeader = some token → token ≠ "" →
      verify token = .ok decoded → (∀ u ∈ users, u.id ≠ decoded.id) →
      authenticateToken verify users authHeader =
        .respond ⟨401, false, "Invalid token - user not found"⟩) := by
  refine ⟨fun user => ⟨fun h => ?_, ?_⟩, authenticateToken_no_token verify users authHeader,
    fun token message ht hne hv => ?_, fun token decoded ht hne hv hnone => ?_⟩
  · by_cases htr : truthyStr (bearerToken authHeader) = true
    · cases hb : bearerToken authHeader with
      | none => rw [hb] at htr; cases htr
      | some token =>
        have hne : token ≠ "" := by
          rw [hb] at htr
          simpa [truthyStr] using htr
        rw [authenticateToken_of_token verify users authHeader token hb hne] at h
        cases hv : verify token with
        | error message => rw [hv] at h; cases h
        | ok decoded =>
          rw [hv] at h
          cases hu : (users.filter fun u => decide (u.id = decoded.id)) with
          | nil => simp only [hu] at h; cases h
          | cons first rest =>
            simp only [hu] at h
            injection h with h
            subst h
            exact ⟨token, decoded, rest, rfl, hne, hv, hu⟩
    · rw [authenticateToken_no_token verify users authHeader (by simpa using htr)] at h
      cases h
  · rintro ⟨token, decoded, rest, ht, hne, hv, hu⟩
    rw [authenticateToken_of_token verify users authHeader token ht hne, hv]
    simp only [hu]
  · rw [authenticateToken_of_token verify users authHeader token ht hne, hv]
  · have hnil : (users.filter fun u => decide (u.id = decoded.id)) = [] := by
      rw [List.filter_eq_nil_iff]
      intro u hu
      simpa using hnone u hu
    rw [authenticateToken_of_token verify users authHeader token ht hne, hv]
    simp only [hnil]

/-- C20, instances with the users of `shop0`: no header, a header without a
token, an expired token, the token of a deleted user, and the token of user 2. -/
theorem authenticateToken_outcomes_witness :
    authenticateToken verify0 shop0.users none =
      .respond ⟨401, false, "Access token required"⟩ ∧
    authenticateToken verify0 shop0.users (some "Bearer") =
      .respond ⟨401, false, "Access token required"⟩ ∧
    authenticateToken verify0 shop0.users (some "Bearer old") =
      .respond ⟨403, false, "Invalid token: " ++ "jwt expired"⟩ ∧
    authenticateToken verify0 shop0.users (some "Bearer t9") =
      .respond ⟨401, false, "Invalid token - user not found"⟩ ∧
    authenticateToken verify0 shop0.users (some "Bearer t2") =
      .next ⟨2, "ann", "ann@shop.test", "user"⟩ :=
  ⟨(authenticateToken_outcomes verify0 shop0.users none).2.1 (by decide),
   (authenticateToken_outcomes verify0 shop0.users (some "Bearer")).2.1 (by decide),
   (authenticateToken_outcomes verify0 shop0.users (some "Bearer old")).2.2.1 "old" "jwt expired"
     (by decide) (by decide) rfl,
   (authenticateToken_outcomes verify0 shop0.users (some "Bearer t9")).2.2.2 "t9" ⟨9, "gone"⟩
     (by decide) (by decide) rfl (by decide),
   ((authenticateToken_outcomes verify0 shop0.users (some "Bearer t2")).1
     ⟨2, "ann", "ann@shop.test", "user"⟩).mpr
     ⟨"t2", ⟨2, "ann"⟩, [], by decide, by decide, rfl, by decide⟩⟩

/-! ## C17: the dynamic `UPDATE` statement -/

theorem count_intercalate_go (c : Char) (sep : String) (l : List String) (acc : String) :
    (String.intercalate.go acc sep l).toList.count c =
      acc.toList.count c + l.length * sep.toList.count c +
        (l.map fun s => s.toList.count c).sum := by
  induction l generalizing acc with
  | nil => simp [String.intercalate.go]
  | cons a as ih =>
    rw [String.intercalate.go, ih]
    simp only [String.toList, String.data_append, List.count_append, List.length_cons,
      List.map_cons, List.sum_cons]
    ring

theorem count_intercalate (c : Char) (sep : String) (l : List String) (hl : l ≠ []) :
    (sep.intercalate l).toList.count c + sep.toList.count c =
      l.length * sep.toList.count c + (l.map fun s => s.toList.count c).sum := by
  cases l with
  | nil => exact absurd rfl hl
  | cons a as =>
    rw [String.intercalate, count_intercalate_go]
    simp only [List.length_cons, List.map_cons, List.sum_cons]
    ring

/-- The text of a dynamic `UPDATE` has one placeholder per assignment and one
for the `id`, when every assignment has the form `column = ?`. -/
theorem placeholders_updateQuery (table : String) (updateFields : List String)
    (htable : table.toList.count '?' = 0) (hl : updateFields ≠ [])
    (hfields : ∀ f ∈ updateFields, f.toList.count '?' = 1) :
    placeholders (updateQuery table updateFields) = updateFields.length + 1 := by
  have hsum : (updateFields.map fun s => s.toList.count '?').sum = updateFields.length := by
    have : (updateFields.map fun s => s.toList.count '?') = updateFields.map fun _ => 1 :=
      List.map_congr_left hfields
    rw [this]
    simp
  have hsep : (", " : String).toList.count '?' = 0 := by decide
  have h := count_intercalate '?' ", " updateFields hl
  rw [hsep, hsum] at h
  simp only [placeholders, updateQuery, String.toList, String.data_append, List.count_append]
  simp only [String.toList] at h htable
  have h1 : ("UPDATE " : String).data.count '?' = 0 := by decide
  have h2 : (" SET " : String).data.count '?' = 0 := by decide
  have h3 : (" WHERE id = ?" : String).data.count '?' = 1 := by decide
  rw [h1, h2, h3, htable]
  omega

theorem productUpdateArrays_eq (updateData : ProductBody) (file : Option String) :
    productUpdateArrays updateData file = (productAssignmentsSpec updateData file).unzip := by
  simp only [productUpdateArrays, productAssignmentsSpec]
  cases truthyStr updateData.name <;> cases updateData.description.isSome <;>
    cases truthyNum updateData.price <;> cases truthy updateData.category_id <;>
    cases updateData.stock_quantity.isSome <;> cases file <;> rfl

theorem categoryUpdateArrays_eq (updateData : CategoryBody) :
    categoryUpdateArrays updateData = (categoryAssignmentsSpec updateData).unzip := by
  simp only [categoryUpdateArrays, categoryAssignmentsSpec]
  cases truthyStr updateData.name <;> cases updateData.description.isSome <;> rfl

theorem productAssignmentsSpec_fields (updateData : ProductBody) (file : Option String) :
    ((productAssignmentsSpec updateData file).map Prod.fst).Nodup ∧
    ∀ f ∈ (productAssignmentsSpec updateData file).map Prod.fst, f ∈ knownAssignments := by
  simp only [productAssignmentsSpec, knownAssignments]
  cases truthyStr updateData.name <;> cases updateData.description.isSome <;>
    cases truthyNum updateData.price <;> cases truthy updateData.category_id <;>
    cases updateData.stock_quantity.isSome <;> cases file <;> simp

theorem categoryAssignmentsSpec_fields (updateData : CategoryBody) :
    ((categoryAssignmentsSpec updateData).map Prod.fst).Nodup ∧
    ∀ f ∈ (categoryAssignmentsSpec updateData).map Prod.fst, f ∈ knownAssignments := by
  simp only [categoryAssignmentsSpec, knownAssignments]
  cases truthyStr updateData.name <;> cases updateData.description.isSome <;> simp

theorem knownAssignments_one_placeholder :
    ∀ f ∈ knownAssignments, f.toList.count '?' = 1 := by
  decide

theorem updateProduct_stmt (shop : Shop) (errorsEmpty : Bool) (id : Option Int)
    (updateData : ProductBody) (upload : Upload) (s : ShopStmt)
    (hs : (updateProduct shop errorsEmpty id updateData upload).stmt = some s) :
    ∃ n, id = some n ∧ errorsEmpty = true ∧ upload = .notMultipart ∧
      (productUpdateArrays updateData none).1 ≠ [] ∧
      s = .updateProducts (productUpdateArrays updateData none).1
        ((productUpdateArrays updateData none).2 ++ [.int n]) := by
  unfold updateProduct at hs
  cases errorsEmpty with
  | false => simp at hs
  | true =>
    cases id with
    | none => simp at hs
    | some n =>
      simp only [Bool.not_true, Bool.false_eq_true, if_false] at hs
      split at hs
      · simp at hs
      · split at hs
        · simp at hs
        · cases upload with
          | multipart file => simp [Upload.bodyHasPrototype] at hs
          | notMultipart =>
            simp only [Upload.bodyHasPrototype, Bool.not_true, Bool.false_eq_true, if_false,
              Upload.file] at hs
            split at hs
            · simp at hs
            · rename_i hne
              simp only [Option.some.injEq] at hs
              refine ⟨n, rfl, rfl, rfl, ?_, by rw [← hs]; rfl⟩
              intro h
              exact hne (by rw [h]; rfl)

theorem updateCategory_stmt (shop : Shop) (errorsEmpty : Bool) (id : Option Int)
    (updateData : CategoryBody) (s : ShopStmt)
    (hs : (updateCategory shop errorsEmpty id updateData).stmt = some s) :
    ∃ n, id = some n ∧ errorsEmpty = true ∧ (categoryUpdateArrays updateData).1 ≠ [] ∧
      s = .updateCategories (categoryUpdateArrays updateData).1
        ((categoryUpdateArrays updateData).2 ++ [.int n]) := by
  unfold updateCategory at hs
  cases errorsEmpty with
  | false => simp at hs
  | true =>
    cases id with
    | none => simp at hs
    | some n =>
      simp only [Bool.not_true, Bool.false_eq_true, if_false] at hs
      split at hs
      · simp at hs
      · split at hs
        · simp at hs
        · split at hs
          · simp at hs
          · rename_i hne
            simp only [Option.some.injEq] at hs
            refine ⟨n, rfl, rfl, ?_, by rw [← hs]⟩
            intro h
            exact hne (by rw [h]; rfl)

/-- C17 (the code at the failing input): the JSON body `{name: "Cup", price: 0}`
passes the validation chain and supplies `price`; `updateProduct` answers 200
'Product updated successfully', yet the statement it issues for product 1 is
`UPDATE products SET name = ? WHERE id = ?`: the price is not in the `SET`
clause and product 1 keeps the price 19.99.  A multipart body with a name, a
price, a stock and an image is answered 500 without any statement (the defect
of C16). -/
theorem updateProduct_drops_zero_price :
    productUpdateValidation (fun _ => true) zeroPriceBody = true ∧
    zeroPriceBody.price = some 0 ∧
    updateProduct shop0 true (some 1) zeroPriceBody .notMultipart =
      ⟨⟨200, true, "Product updated successfully"⟩,
        some (.updateProducts ["name = ?"] [.str "Cup", .int 1])⟩ ∧
    (ShopStmt.updateProducts ["name = ?"] [.str "Cup", .int 1]).query =
      some "UPDATE products SET name = ? WHERE id = ?" ∧
    (shop0.after 5 (updateProduct shop0 true (some 1) zeroPriceBody .notMultipart)).products =
      [⟨1, "Cup", some "A mug", 1999 / 100, 1, 0, none, 0⟩] ∧
    updateProduct shop0 true (some 1) ⟨some " Cup", none, some (49 / 2), none, some 0, none⟩
        (.multipart (some "cup.png")) =
      ⟨⟨500, false, "Failed to update product"⟩, none⟩ := by
  decide!

/-- The statement `updateProduct` (resp. `updateCategory`) issues, which it does
for a body that is not multipart only, is the dynamic `UPDATE` whose arrays are
exactly the assignments of `productAssignmentsSpec` (resp.
`categoryAssignmentsSpec`) — name, price and category_id when their value is
truthy, description and stock_quantity when present, each once, with its value
at the same position, nothing else — followed by the id; the text has as many
`?` placeholders as there are bound values. -/
theorem update_statement_spec (shop : Shop) (errorsEmpty : Bool) (id : Option Int) :
    (∀ (updateData : ProductBody) (upload : Upload) (s : ShopStmt),
      (updateProduct shop errorsEmpty id updateData upload).stmt = some s →
      ∃ n, id = some n ∧ upload = .notMultipart ∧
        s = .updateProducts ((productAssignmentsSpec updateData none).map Prod.fst)
          ((productAssignmentsSpec updateData none).map Prod.snd ++ [.int n]) ∧
        ((productAssignmentsSpec updateData none).map Prod.fst).Nodup ∧
        ∃ query, s.query = some query ∧
          placeholders query =
            ((productAssignmentsSpec updateData none).map Prod.snd ++ [SqlValue.int n]).length) ∧
    (∀ (updateData : CategoryBody) (s : ShopStmt),
      (updateCategory shop errorsEmpty id updateData).stmt = some s →
      ∃ n, id = some n ∧
        s = .updateCategories ((categoryAssignmentsSpec updateData).map Prod.fst)
          ((categoryAssignmentsSpec updateData).map Prod.snd ++ [.int n]) ∧
        ((categoryAssignmentsSpec updateData).map Prod.fst).Nodup ∧
        ∃ query, s.query = some query ∧
          placeholders query =
            ((categoryAssignmentsSpec updateData).map Prod.snd ++ [SqlValue.int n]).length) := by
  constructor
  · intro updateData upload s hs
    obtain ⟨n, hid, _, hup, hne, rfl⟩ :=
      updateProduct_stmt shop errorsEmpty id updateData upload s hs
    rw [productUpdateArrays_eq, List.unzip_eq_map] at hne ⊢
    obtain ⟨hnd, hknown⟩ := productAssignmentsSpec_fields updateData none
    refine ⟨n, hid, hup, rfl, hnd, _, rfl, ?_⟩
    rw [placeholders_updateQuery "products" _ (by decide) hne
      (fun f hf => knownAssignments_one_placeholder f (hknown f hf))]
    simp
  · intro updateData s hs
    obtain ⟨n, hid, _, hne, rfl⟩ := updateCategory_stmt shop errorsEmpty id updateData s hs
    rw [categoryUpdateArrays_eq, List.unzip_eq_map] at hne ⊢
    obtain ⟨hnd, hknown⟩ := categoryAssignmentsSpec_fields updateData
    refine ⟨n, hid, rfl, hnd, _, rfl, ?_⟩
    rw [placeholders_updateQuery "categories" _ (by decide) hne
      (fun f hf => knownAssignments_one_placeholder f (hknown f hf))]
    simp

/-- Instances of `update_statement_spec` on `shop0`: product 1 gets a new name,
price 24.50 and stock 0; category 2 gets a new name and an empty description. -/
theorem update_statement_spec_witness :
    (∃ n, some (1 : Int) = some n ∧ Upload.notMultipart = .notMultipart ∧
      ShopStmt.updateProducts ["name = ?", "price = ?", "stock_quantity = ?"]
          [.str "Cup", .num (49 / 2), .int 0, .int 1] =
        .updateProducts
          ((productAssignmentsSpec ⟨some " Cup", none, some (49 / 2), none, some 0, none⟩
            none).map Prod.fst)
          ((productAssignmentsSpec ⟨some " Cup", none, some (49 / 2), none, some 0, none⟩
            none).map Prod.snd ++ [.int n]) ∧
      ((productAssignmentsSpec ⟨some " Cup", none, some (49 / 2), none, some 0, none⟩
        none).map Prod.fst).Nodup ∧
      ∃ query,
        (ShopStmt.updateProducts
          ["name = ?", "price = ?", "stock_quantity = ?"]
          [.str "Cup", .num (49 / 2), .int 0, .int 1]).query =
          some query ∧
        placeholders query =
          ((productAssignmentsSpec ⟨some " Cup", none, some (49 / 2), none, some 0, none⟩
            none).map Prod.snd ++ [SqlValue.int n]).length) ∧
    (∃ n, some (2 : Int) = some n ∧
      ShopStmt.updateCategories ["name = ?", "description = ?"]
          [.str "Desk", .null, .int 2] =
        .updateCategories ((categoryAssignmentsSpec ⟨some "Desk", some " "⟩).map Prod.fst)
          ((categoryAssignmentsSpec ⟨some "Desk", some " "⟩).map Prod.snd ++ [.int n]) ∧
      ((categoryAssignmentsSpec ⟨some "Desk", some " "⟩).map Prod.fst).Nodup ∧
      ∃ query,
        (ShopStmt.updateCategories ["name = ?", "description = ?"]
          [.str "Desk", .null, .int 2]).query = some query ∧
        placeholders query =
          ((categoryAssignmentsSpec ⟨some "Desk", some " "⟩).map Prod.snd ++
            [SqlValue.int n]).length) ∧
    placeholders "UPDATE products SET name = ?, price = ?, stock_quantity = ? WHERE id = ?" = 4 :=
  ⟨(update_statement_spec shop0 true (some 1)).1
      ⟨some " Cup", none, some (49 / 2), none, some 0, none⟩ .notMultipart
      (.updateProducts ["name = ?", "price = ?", "stock_quantity = ?"]
        [.str "Cup", .num (49 / 2), .int 0, .int 1]) (by decide!),
   (update_statement_spec shop0 true (some 2)).2 ⟨some "Desk", some " "⟩
      (.updateCategories ["name = ?", "description = ?"] [.str "Desk", .null, .int 2])
      (by decide),
   by decide⟩

/-! ## C18: the stock after an admin update -/

theorem setProductColumn_stock (p : ProductRow) (a : String × SqlValue) :
    (setProductColumn p a).stock_quantity = p.stock_quantity ∨
      ∃ k, a = ("stock_quantity = ?", SqlValue.int k) ∧
        (setProductColumn p a).stock_quantity = k := by
  unfold setProductColumn
  split <;> first | exact Or.inl rfl | exact Or.inr ⟨_, rfl, rfl⟩

theorem foldl_setProductColumn_stock (as : List (String × SqlValue)) (p : ProductRow)
    (hp : 0 ≤ p.stock_quantity)
    (has : ∀ k, ("stock_quantity = ?", SqlValue.int k) ∈ as → 0 ≤ k) :
    0 ≤ (as.foldl setProductColumn p).stock_quantity := by
  induction as generalizing p with
  | nil => exact hp
  | cons a as ih =>
    rw [List.foldl_cons]
    apply ih
    · rcases setProductColumn_stock p a with h | ⟨k, rfl, h⟩
      · rw [h]; exact hp
      · rw [h]; exact has k (List.mem_cons_self _ _)
    · intro k hk
      exact has k (List.mem_cons_of_mem _ hk)

theorem productAssignmentsSpec_stock (isURL : String → Bool) (updateData : ProductBody)
    (file : Option String) (hval : productUpdateValidation isURL updateData = true) (k : Int)
    (hk : ("stock_quantity = ?", SqlValue.int k) ∈ productAssignmentsSpec updateData file) :
    0 ≤ k := by
  obtain ⟨name, description, price, category_id, stock_quantity, image_url⟩ := updateData
  cases stock_quantity with
  | none =>
    exfalso
    simp only [productAssignmentsSpec] at hk
    cases truthyStr name <;> cases description.isSome <;> cases truthyNum price <;>
      cases truthy category_id <;> cases file <;> simp at hk
  | some n =>
    have hn : 0 ≤ n := by
      simp only [productUpdateValidation, Bool.and_eq_true, decide_eq_true_eq] at hval
      exact hval.1.1.2
    have hkn : k = n := by
      simp only [productAssignmentsSpec] at hk
      have hv : parseIntOr0 (some n) = n := by
        by_cases h0 : n = 0 <;> simp [parseIntOr0, jsOr, truthy, parseInt, h0]
      rw [hv] at hk
      cases truthyStr name <;> cases description.isSome <;> cases truthyNum price <;>
        cases truthy category_id <;> cases file <;> simp at hk <;> exact hk
    rw [hkn]
    exact hn

/-- The route `PUT /api/products/:id` keeps stocks non-negative: after a request
that passed `productUpdateValidation`, every product has a non-negative stock if
every product had one before. -/
theorem updateProduct_stock_nonneg (shop : Shop) (isURL : String → Bool) (id : Option Int)
    (updateData : ProductBody) (upload : Upload) (now : Nat)
    (hinv : ∀ p ∈ shop.products, 0 ≤ p.stock_quantity) :
    ∀ p ∈ (shop.after now (updateProduct shop (productUpdateValidation isURL updateData) id
      updateData upload)).products, 0 ≤ p.stock_quantity := by
  cases hs : (updateProduct shop (productUpdateValidation isURL updateData) id
      updateData upload).stmt with
  | none =>
    simp only [Shop.after, hs]
    exact hinv
  | some s =>
    obtain ⟨n, _, hval, _, _, rfl⟩ := updateProduct_stmt shop _ id updateData upload s hs
    have hlen : (productUpdateArrays updateData none).1.length =
        (productUpdateArrays updateData none).2.length := by
      rw [productUpdateArrays_eq, List.unzip_eq_map]
      simp
    have hzip : (productUpdateArrays updateData none).1.zip
        ((productUpdateArrays updateData none).2 ++ [SqlValue.int n]) =
        productAssignmentsSpec updateData none := by
      have h := @List.zip_append _ _ (productUpdateArrays updateData none).1 []
        (productUpdateArrays updateData none).2 [SqlValue.int n] hlen
      rw [List.append_nil] at h
      rw [h, List.zip_nil_left, List.append_nil, productUpdateArrays_eq, List.zip_unzip]
    simp only [Shop.after, hs, ShopStmt.run, List.getLast?_concat, hzip]
    intro p hp
    obtain ⟨p0, hp0, rfl⟩ := List.mem_map.mp hp
    by_cases hid : p0.id = n
    · rw [if_pos hid]
      exact foldl_setProductColumn_stock _ p0 (hinv p0 hp0)
        (fun k hk => productAssignmentsSpec_stock isURL updateData none hval k hk)
    · rw [if_neg hid]
      exact hinv p0 hp0

/-- C18 (the code at the failing input): an administrator's
`PUT /api/admin/products/1` with `stock_quantity: -5` is answered 200 and leaves
product 1 with stock -5, while the chain of `PUT /api/products/:id` rejects a
body with that stock. -/
theorem admin_update_writes_negative_stock :
    (adminPutProduct 1 negativeStockBody).reply = ⟨200, true, "Product updated successfully"⟩ ∧
    (shop0.after 5 (adminPutProduct 1 negativeStockBody)).products =
      [⟨1, "Mug", some "A mug", 1999 / 100, 1, -5, none, 0⟩] ∧
    (∀ p ∈ shop0.products, 0 ≤ p.stock_quantity) ∧
    productUpdateValidation (fun _ => true) ⟨none, none, none, none, some (-5), none⟩ = false ∧
    (CatalogRoute.putProduct.handle verify0 (fun _ => true) shop0 (some "Bearer t1")
      ⟨some 1, ⟨none, none, none, none, some (-5), none⟩, ⟨none, none⟩, .notMultipart⟩).reply =
      ⟨400, false, "Validation failed"⟩ := by
  decide!

/-! ## C23: the status of a processed order -/

/-- C23 (the code on every input): the order `processOrder` stores in the state
and puts at the head of the order history has status `confirmed`, which is not
one of pending, processing, shipped, delivered, cancelled. -/
theorem processOrder_status_confirmed (state : CheckoutState) (cartItems : RawCart)
    (orderHistory : List OrderData) (now : Nat) :
    (processOrder state cartItems orderHistory now).state.orderDetails =
      some (makeOrder state cartItems now) ∧
    (processOrder state cartItems orderHistory now).orderHistory =
      makeOrder state cartItems now :: orderHistory ∧
    (makeOrder state cartItems now).status = "confirmed" ∧
    (makeOrder state cartItems now).status ∉ validStatuses := by
  refine ⟨rfl, rfl, rfl, ?_⟩
  show "confirmed" ∉ validStatuses
  decide

/-! ## C30: the bounds of the checkout step -/

theorem nextStep_bounds (state : CheckoutState)
    (h : 1 ≤ state.currentStep ∧ state.currentStep ≤ 4) :
    1 ≤ (nextStep state).currentStep ∧ (nextStep state).currentStep ≤ 4 := by
  unfold nextStep
  split
  · simp only [checkoutReducer]
    omega
  · exact h

theorem prevStep_bounds (state : CheckoutState)
    (h : 1 ≤ state.currentStep ∧ state.currentStep ≤ 4) :
    1 ≤ (prevStep state).currentStep ∧ (prevStep state).currentStep ≤ 4 := by
  unfold prevStep
  split
  · simp only [checkoutReducer]
    omega
  · exact h

theorem runSteps_bounds (calls : List StepCall) (state : CheckoutState)
    (h : 1 ≤ state.currentStep ∧ state.currentStep ≤ 4) :
    1 ≤ (runSteps state calls).currentStep ∧ (runSteps state calls).currentStep ≤ 4 := by
  induction calls generalizing state with
  | nil => exact h
  | cons call calls ih =>
    cases call with
    | next => exact ih (nextStep state) (nextStep_bounds state h)
    | prev => exact ih (prevStep state) (prevStep_bounds state h)

/-- C30: from the initial state, after any finite sequence of `nextStep` and
`prevStep` calls the current step is between 1 and 4; `nextStep` at step 4 and
`prevStep` at step 1 leave the state unchanged; a `SET_STEP` dispatch changes
`currentStep` and nothing else. -/
theorem checkout_step_bounds :
    initialState.currentStep = 1 ∧
    (∀ calls : List StepCall,
      1 ≤ (runSteps initialState calls).currentStep ∧
      (runSteps initialState calls).currentStep ≤ 4) ∧
    (∀ state : CheckoutState, state.currentStep = 4 → nextStep state = state) ∧
    (∀ state : CheckoutState, state.currentStep = 1 → prevStep state = state) ∧
    (∀ (state : CheckoutState) (payload : Int),
      checkoutReducer state (.SET_STEP payload) = { state with currentStep := payload }) := by
  refine ⟨rfl, fun calls => runSteps_bounds calls initialState (by decide), ?_, ?_,
    fun _ _ => rfl⟩
  · intro state h
    simp [nextStep, h]
  · intro state h
    simp [prevStep, h]

/-- C30, instances: five `nextStep` calls from the initial state stop at step 4,
and `prevStep` on the initial state changes nothing. -/
theorem checkout_step_bounds_witness :
    nextStep (runSteps initialState [.next, .next, .next]) =
      runSteps initialState [.next, .next, .next] ∧
    prevStep initialState = initialState ∧
    (runSteps initialState [.next, .next, .next, .next, .next]).currentStep = 4 ∧
    (runSteps initialState [.next, .prev, .prev, .next, .next]).currentStep = 3 :=
  ⟨checkout_step_bounds.2.2.1 (runSteps initialState [.next, .next, .next]) (by decide),
   checkout_step_bounds.2.2.2.1 initialState (by decide),
   by decide, by decide⟩

/-! ## C22: the upload filter -/

theorem allowedTypesTest_images :
    (∀ e ∈ imageExtensions, allowedTypesTest e = true) ∧
    (∀ m ∈ imageMimeTypes, allowedTypesTest m = true) := by
  decide

/-- The filter lets through every file with one of the five extensions (in any
letter case) and one of the four MIME types. -/
theorem fileFilter_accepts_images (file : UploadFile)
    (hext : toLowerCase (extname file.originalname) ∈ imageExtensions)
    (hmime : file.mimetype ∈ imageMimeTypes) : fileFilter file = .ok true := by
  simp [fileFilter, allowedTypesTest_images.1 _ hext, allowedTypesTest_images.2 _ hmime]

/-- C22 (the code at the failing input): the file `script.pngx` sent with MIME
type `text/png` has neither one of the five extensions nor one of the four MIME
types, and `fileFilter` accepts it, because the unanchored pattern finds `png`
inside both. -/
theorem fileFilter_accepts_non_image :
    toLowerCase (extname notAnImage.originalname) = ".pngx" ∧
    toLowerCase (extname notAnImage.originalname) ∉ imageExtensions ∧
    notAnImage.mimetype ∉ imageMimeTypes ∧
    fileFilter notAnImage = .ok true := by
  refine ⟨by decide, by decide, by decide, rfl⟩

/-! ## C24: registration -/

theorem register_missing (hash : String → String) (db : AccountsDb) (body : RegisterBody)
    (h : truthyStr body.username = false ∨ truthyStr body.email = false ∨
      truthyStr body.password = false ∨ truthyStr body.firstName = false ∨
      truthyStr body.lastName = false) :
    register hash db body = ⟨.fail 400 "All fields are required", none⟩ := by
  have hc : (!truthyStr body.username || !truthyStr body.email || !truthyStr body.password ||
      !truthyStr body.firstName || !truthyStr body.lastName) = true := by
    rcases h with h | h | h | h | h <;> simp [h]
  simp only [register, hc, if_true]

theorem register_present (hash : String → String) (db : AccountsDb) (body : RegisterBody)
    (h : ¬ (truthyStr body.username = false ∨ truthyStr body.email = false ∨
      truthyStr body.password = false ∨ truthyStr body.firstName = false ∨
      truthyStr body.lastName = false)) :
    register hash db body =
      if jsLength (body.password.getD "") < 6 then
        ⟨.fail 400 "Password must be at least 6 characters long", none⟩
      else
        match db.users.filter fun u =>
            decide (u.email = body.email.getD "" ∨ u.username = body.username.getD "") with
        | existingUser :: _ =>
          if existingUser.email = body.email.getD "" then
            ⟨.fail 400 "User with this email already exists", none⟩
          else if existingUser.username = body.username.getD "" then
            ⟨.fail 400 "Username is already taken", none⟩
          else
            ⟨⟨201, true, some "Account created successfully! Welcome to LuxeShop!", none, none,
                some db.userAutoInc⟩,
              some ⟨body.username.getD "", body.email.getD "", hash (body.password.getD ""),
                body.firstName.getD "", body.lastName.getD ""⟩⟩
        | [] =>
          ⟨⟨201, true, some "Account created successfully! Welcome to LuxeShop!", none, none,
              some db.userAutoInc⟩,
            some ⟨body.username.getD "", body.email.getD "", hash (body.password.getD ""),
              body.firstName.getD "", body.lastName.getD ""⟩⟩ := by
  have hc : (!truthyStr body.username || !truthyStr body.email || !truthyStr body.password ||
      !truthyStr body.firstName || !truthyStr body.lastName) = false := by
    simp only [not_or, Bool.not_eq_false] at h
    simp [h.1, h.2.1, h.2.2.1, h.2.2.2.1, h.2.2.2.2]
  simp only [register, hc, Bool.false_eq_true, if_false]

/-- Every 400 of the register route comes without a statement. -/
theorem register_rejected (hash : String → String) (db : AccountsDb) (body : RegisterBody)
    (h : truthyStr body.username = false ∨ truthyStr body.email = false ∨
      truthyStr body.password = false ∨ truthyStr body.firstName = false ∨
      truthyStr body.lastName = false ∨ jsLength (body.password.getD "") < 6 ∨
      ∃ u ∈ db.users, u.email = body.email.getD "" ∨ u.username = body.username.getD "") :
    (register hash db body).reply.status = 400 ∧ (register hash db body).stmt = none := by
  by_cases hm : truthyStr body.username = false ∨ truthyStr body.email = false ∨
      truthyStr body.password = false ∨ truthyStr body.firstName = false ∨
      truthyStr body.lastName = false
  · rw [register_missing hash db body hm]
    exact ⟨rfl, rfl⟩
  · rw [register_present hash db body hm]
    by_cases hp : jsLength (body.password.getD "") < 6
    · rw [if_pos hp]
      exact ⟨rfl, rfl⟩
    · rw [if_neg hp]
      have hdup : ∃ u ∈ db.users, u.email = body.email.getD "" ∨
          u.username = body.username.getD "" := by
        rcases h with h | h | h | h | h | h | h
        · exact absurd (Or.inl h) hm
        · exact absurd (Or.inr (Or.inl h)) hm
        · exact absurd (Or.inr (Or.inr (Or.inl h))) hm
        · exact absurd (Or.inr (Or.inr (Or.inr (Or.inl h)))) hm
        · exact absurd (Or.inr (Or.inr (Or.inr (Or.inr h)))) hm
        · exact absurd h hp
        · exact h
      obtain ⟨u, hu, hmatch⟩ := hdup
      cases hf : (db.users.filter fun u =>
          decide (u.email = body.email.getD "" ∨ u.username = body.username.getD "")) with
      | nil =>
        have : u ∈ (db.users.filter fun u =>
            decide (u.email = body.email.getD "" ∨ u.username = body.username.getD "")) :=
          List.mem_filter.mpr ⟨hu, by simpa using hmatch⟩
        rw [hf] at this
        cases this
      | cons existingUser rest =>
        have hex : existingUser.email = body.email.getD "" ∨
            existingUser.username = body.username.getD "" := by
          have : existingUser ∈ (db.users.filter fun u =>
              decide (u.email = body.email.getD "" ∨ u.username = body.username.getD "")) := by
            rw [hf]
            exact List.mem_cons_self _ _
          simpa using (List.mem_filter.mp this).2
        simp only
        by_cases he : existingUser.email = body.email.getD ""
        · rw [if_pos he]
          exact ⟨rfl, rfl⟩
        · rw [if_neg he, if_pos (hex.resolve_left he)]
          exact ⟨rfl, rfl⟩

/-- C24: `POST /register` answers 400 and inserts nothing when one of username,
email, password, firstName, lastName is missing or empty, when the password has
fewer than 6 characters, and when a stored user has the same email or the same
username; otherwise it answers 201 and inserts exactly one user, with role
`user`. -/
theorem register_validation (hash : String → String) (db : AccountsDb) (body : RegisterBody)
    (now : Nat) :
    ((truthyStr body.username = false ∨ truthyStr body.email = false ∨
        truthyStr body.password = false ∨ truthyStr body.firstName = false ∨
        truthyStr body.lastName = false ∨ jsLength (body.password.getD "") < 6 ∨
        ∃ u ∈ db.users, u.email = body.email.getD "" ∨ u.username = body.username.getD "") →
      (register hash db body).reply.status = 400 ∧ (register hash db body).stmt = none ∧
      db.after now (register hash db body) = db) ∧
    (¬ (truthyStr body.username = false ∨ truthyStr body.email = false ∨
        truthyStr body.password = false ∨ truthyStr body.firstName = false ∨
        truthyStr body.lastName = false ∨ jsLength (body.password.getD "") < 6 ∨
        ∃ u ∈ db.users, u.email = body.email.getD "" ∨ u.username = body.username.getD "") →
      (register hash db body).reply.status = 201 ∧
      (db.after now (register hash db body)).users =
        db.users ++ [⟨db.userAutoInc, body.username.getD "", body.email.getD "",
          hash (body.password.getD ""), body.firstName.getD "", body.lastName.getD "", "user",
          none, none, now⟩]) := by
  constructor
  · intro h
    obtain ⟨h1, h2⟩ := register_rejected hash db body h
    exact ⟨h1, h2, by simp [AccountsDb.after, h2]⟩
  · intro h
    simp only [not_or] at h
    obtain ⟨h1, h2, h3, h4, h5, h6, h7⟩ := h
    have hm : ¬ (truthyStr body.username = false ∨ truthyStr body.email = false ∨
        truthyStr body.password = false ∨ truthyStr body.firstName = false ∨
        truthyStr body.lastName = false) := by
      simp only [not_or]
      exact ⟨h1, h2, h3, h4, h5⟩
    have hnil : (db.users.filter fun u =>
        decide (u.email = body.email.getD "" ∨ u.username = body.username.getD "")) = [] := by
      rw [List.filter_eq_nil_iff]
      intro u hu hmatch
      exact h7 ⟨u, hu, by simpa using hmatch⟩
    have hr : register hash db body =
        ⟨⟨201, true, some "Account created successfully! Welcome to LuxeShop!", none, none,
            some db.userAutoInc⟩,
          some ⟨body.username.getD "", body.email.getD "", hash (body.password.getD ""),
            body.firstName.getD "", body.lastName.getD ""⟩⟩ := by
      rw [register_present hash db body hm, if_neg h6]
      simp only [hnil]
    rw [hr]
    exact ⟨rfl, rfl⟩

/-- C24, instances on `accounts0`: a missing last name, a five-character
password, the email of `ann`, the username of `ann`, and a fresh account. -/
theorem register_validation_witness :
    ((register hash0 accounts0 ⟨some "bob", some "bob@shop.test", some "secret2", some "Bob",
        none⟩).reply.status = 400 ∧
      (register hash0 accounts0 ⟨some "bob", some "bob@shop.test", some "secret2", some "Bob",
        none⟩).stmt = none ∧
      accounts0.after 9 (register hash0 accounts0 ⟨some "bob", some "bob@shop.test",
        some "secret2", some "Bob", none⟩) = accounts0) ∧
    ((register hash0 accounts0 ⟨some "bob", some "bob@shop.test", some "12345", some "Bob",
        some "Ray"⟩).reply.status = 400 ∧
      (register hash0 accounts0 ⟨some "bob", some "bob@shop.test", some "12345", some "Bob",
        some "Ray"⟩).stmt = none ∧
      accounts0.after 9 (register hash0 accounts0 ⟨some "bob", some "bob@shop.test",
        some "12345", some "Bob", some "Ray"⟩) = accounts0) ∧
    ((register hash0 accounts0 ⟨some "bob", some "ann@shop.test", some "secret2", some "Bob",
        some "Ray"⟩).reply.status = 400 ∧
      (register hash0 accounts0 ⟨some "bob", some "ann@shop.test", some "secret2", some "Bob",
        some "Ray"⟩).stmt = none ∧
      accounts0.after 9 (register hash0 accounts0 ⟨some "bob", some "ann@shop.test",
        some "secret2", some "Bob", some "Ray"⟩) = accounts0) ∧
    ((register hash0 accounts0 ⟨some "bob", some "bob@shop.test", some "secret2", some "Bob",
        some "Ray"⟩).reply.status = 201 ∧
      (accounts0.after 9 (register hash0 accounts0 ⟨some "bob", some "bob@shop.test",
        some "secret2", some "Bob", some "Ray"⟩)).users =
        accounts0.users ++ [⟨2, "bob", "bob@shop.test", hash0 "secret2", "Bob", "Ray", "user",
          none, none, 9⟩]) :=
  ⟨(register_validation hash0 accounts0 _ 9).1 (by decide),
   (register_validation hash0 accounts0 _ 9).1 (by decide),
   (register_validation hash0 accounts0 _ 9).1 (by decide),
   (register_validation hash0 accounts0 _ 9).2 (by decide)⟩

/-! ## C21: login and profile -/

theorem splitSpaceAux_no_space (cs acc : List Char) (h : ' ' ∉ cs) :
    splitSpaceAux cs acc = [String.mk (acc.reverse ++ cs)] := by
  induction cs generalizing acc with
  | nil => simp [splitSpaceAux]
  | cons c cs ih =>
    have hc : c ≠ ' ' := fun e => h (by rw [e]; exact List.mem_cons_self _ _)
    have hcs : ' ' ∉ cs := fun e => h (List.mem_cons_of_mem _ e)
    rw [splitSpaceAux, if_neg hc, ih _ hcs]
    simp

/-- A token without a space, sent as `Bearer <token>`, is what the middleware
reads from the header. -/
theorem bearerToken_bearer (token : String) (h : ' ' ∉ token.toList) :
    bearerToken (some ("Bearer " ++ token)) = some token := by
  have hdata : ("Bearer " ++ token).toList = 'B' :: 'e' :: 'a' :: 'r' :: 'e' :: 'r' :: ' ' ::
      token.toList := by
    simp only [String.toList, String.data_append]
    rfl
  have hne : "Bearer " ++ token ≠ "" := by
    intro e
    have := congrArg String.toList e
    rw [hdata] at this
    cases this
  have hsplit : jsSplitSpace ("Bearer " ++ token) = ["Bearer", token] := by
    unfold jsSplitSpace
    rw [hdata]
    simp only [splitSpaceAux, Char.reduceEq, if_false, if_true, ↓reduceIte]
    rw [splitSpaceAux_no_space _ _ h]
    rfl
  simp only [bearerToken, hne, if_false, hsplit]
  rfl

/-- C21: for a stored user (the row found by email and by id), `POST /login`
with the user's email and a password that `bcrypt.compare` accepts answers 200
with the token signed for the user; when `jwt.verify` returns the signed payload
and the token has no space, `GET /profile` with `Bearer <token>` answers 200
with that same user's profile.  With an unknown email or a rejected password
(both non-empty) the login answers 401, and no failed login carries a token. -/
theorem login_round_trip (compare : String → String → Bool) (sign : TokenPayload → String)
    (verify : String → Except String TokenPayload) (db : AccountsDb) :
    (∀ (user : Account) (rest rest2 : List Account) (password : String),
      (db.users.filter fun u => decide (u.email = user.email)) = user :: rest →
      (db.users.filter fun u => decide (u.id = user.id)) = user :: rest2 →
      user.email ≠ "" → password ≠ "" → compare password user.password = true →
      verify (sign user.payload) = .ok user.payload → ' ' ∉ (sign user.payload).toList →
      sign user.payload ≠ "" →
      (login compare sign db ⟨some user.email, some password⟩).status = 200 ∧
      (login compare sign db ⟨some user.email, some password⟩).token =
        some (sign user.payload) ∧
      getProfile verify db (some ("Bearer " ++ sign user.payload)) =
        ⟨200, true, none, none, some user.response, none⟩) ∧
    (∀ (email password : String), email ≠ "" → password ≠ "" →
      (db.users.filter fun u => decide (u.email = email)) = [] →
      (login compare sign db ⟨some email, some password⟩).status = 401 ∧
      (login compare sign db ⟨some email, some password⟩).token = none) ∧
    (∀ (user : Account) (rest : List Account) (email password : String),
      email ≠ "" → password ≠ "" →
      (db.users.filter fun u => decide (u.email = email)) = user :: rest →
      compare password user.password = false →
      (login compare sign db ⟨some email, some password⟩).status = 401 ∧
      (login compare sign db ⟨some email, some password⟩).token = none) ∧
    (∀ body : LoginBody, (login compare sign db body).status ≠ 200 →
      (login compare sign db body).token = none) := by
  refine ⟨?_, ?_, ?_, ?_⟩
  · intro user rest rest2 password hemail hid he hp hcmp hverify hspace hne
    have hlogin : login compare sign db ⟨some user.email, some password⟩ =
        ⟨200, true, some "Login successful", some (sign user.payload), some user.response,
          none⟩ := by
      simp [login, truthyStr, he, hp, hemail, hcmp]
    have hprofile : getProfile verify db (some ("Bearer " ++ sign user.payload)) =
        ⟨200, true, none, none, some user.response, none⟩ := by
      have hid2 : (db.users.filter fun u => decide (u.id = user.payload.id)) = user :: rest2 :=
        hid
      simp only [getProfile, authenticateTokenLocal, bearerToken_bearer _ hspace, truthyStr,
        Option.getD_some, hverify]
      simp [hne, hid2]
    rw [hlogin]
    exact ⟨rfl, rfl, hprofile⟩
  · intro email password he hp hnil
    have h : login compare sign db ⟨some email, some password⟩ =
        .fail 401 "Invalid email or password" := by
      simp [login, truthyStr, he, hp, hnil]
    rw [h]
    exact ⟨rfl, rfl⟩
  · intro user rest email password he hp hfound hcmp
    have h : login compare sign db ⟨some email, some password⟩ =
        .fail 401 "Invalid email or password" := by
      simp [login, truthyStr, he, hp, hfound, hcmp]
    rw [h]
    exact ⟨rfl, rfl⟩
  · intro body hstatus
    by_cases h1 : (!truthyStr body.email || !truthyStr body.password) = true
    · simp [login, h1, AuthReply.fail]
    · cases hf : (db.users.filter fun u => decide (u.email = body.email.getD "")) with
      | nil => simp [login, h1, hf, AuthReply.fail]
      | cons user rest =>
        by_cases hc : compare (body.password.getD "") user.password = true
        · exfalso
          apply hstatus
          simp [login, h1, hf, hc]
        · simp [login, h1, hf, hc, AuthReply.fail]

/-- C21, instances on `accounts0`: `ann` logs in with her password and reads
her profile with the token; a wrong password and an unknown email get 401. -/
theorem login_round_trip_witness :
    ((login compare0 sign0 accounts0 ⟨some "ann@shop.test", some "secret1"⟩).status = 200 ∧
      (login compare0 sign0 accounts0 ⟨some "ann@shop.test", some "secret1"⟩).token =
        some "tok.ann" ∧
      getProfile verifyAnn accounts0 (some ("Bearer " ++ "tok.ann")) =
        ⟨200, true, none, none,
          some ⟨1, "ann", "ann@shop.test", "Ann", "Lee", "", "1 Main St", "user", 0⟩, none⟩) ∧
    ((login compare0 sign0 accounts0 ⟨some "bob@shop.test", some "secret1"⟩).status = 401 ∧
      (login compare0 sign0 accounts0 ⟨some "bob@shop.test", some "secret1"⟩).token = none) ∧
    ((login compare0 sign0 accounts0 ⟨some "ann@shop.test", some "secret9"⟩).status = 401 ∧
      (login compare0 sign0 accounts0 ⟨some "ann@shop.test", some "secret9"⟩).token = none) :=
  ⟨(login_round_trip compare0 sign0 verifyAnn accounts0).1
      ⟨1, "ann", "ann@shop.test", "hash(secret1)", "Ann", "Lee", "user", none,
        some "1 Main St", 0⟩ [] [] "secret1"
      (by decide) (by decide) (by decide) (by decide) (by decide) rfl (by decide) (by decide),
   (login_round_trip compare0 sign0 verifyAnn accounts0).2.1 "bob@shop.test" "secret1"
      (by decide) (by decide) (by decide),
   (login_round_trip compare0 sign0 verifyAnn accounts0).2.2.1
      ⟨1, "ann", "ann@shop.test", "hash(secret1)", "Ann", "Lee", "user", none,
        some "1 Main St", 0⟩ [] "ann@shop.test" "secret9"
      (by decide) (by decide) (by decide) (by decide)⟩


/-! ## Product listing: page size, paging values, count query -/

/-- The page size is never above 100. -/
theorem limitNum_le (q : ProductsQuery) : limitNum q ≤ 100 :=
  min_le_right _ _

/-- The page size is never 0: a `limit` that parses to 0 is replaced by 20. -/
theorem limitNum_ne_zero (q : ProductsQuery) : limitNum q ≠ 0 := by
  unfold limitNum jsOr
  cases h : parsedLimit q with
  | none => simp [truthy]
  | some n =>
    by_cases hn : n = 0
    · simp [truthy, hn]
    · simp only [truthy, ne_eq, hn, not_false_eq_true, decide_True, if_true, Option.getD_some]
      rw [min_def]
      split <;> omega

/-- A `limit` that is absent or does not parse gives the page size 20. -/
theorem limitNum_default (q : ProductsQuery)
    (h : q.limit = none ∨ ∃ s, q.limit = some s ∧ parseIntStr s = none) : limitNum q = 20 := by
  rcases h with h | ⟨s, hs, hp⟩
  · simp [limitNum, parsedLimit, h, jsOr, truthy, parseInt]
  · simp [limitNum, parsedLimit, hs, hp, jsOr, truthy]

/-- With a page size of at least 1 the pages cover the total. -/
theorem le_ceil_mul (total : Nat) (L : Int) (hL : 1 ≤ L) :
    (total : Int) ≤ ⌈(total : ℚ) / (L : ℚ)⌉ * L := by
  have hLq : (0 : ℚ) < (L : ℚ) := by exact_mod_cast (by omega : 0 < L)
  have h1 : (total : ℚ) / L ≤ (⌈(total : ℚ) / (L : ℚ)⌉ : ℚ) := Int.le_ceil _
  have h2 : (total : ℚ) ≤ (⌈(total : ℚ) / (L : ℚ)⌉ : ℚ) * L := by
    rwa [div_le_iff₀ hLq] at h1
  exact_mod_cast h2

/-- A reply of `getAllProducts` that carries a `pagination` object was built
from a page size of at least 0 and an offset of at least 0. -/
theorem getAllProducts_pagination (like : String → String → Bool) (isNaN : String → Bool)
    (shop : Shop) (q : ProductsQuery) (pg : Pagination)
    (h : (getAllProducts like isNaN shop q).pagination = some pg) :
    0 ≤ limitNum q ∧
    pg = { current_page := parsedPage q
           per_page := limitNum q
           total := countTotal like isNaN shop q
           total_pages := ⌈(countTotal like isNaN shop q : ℚ) / (limitNum q : ℚ)⌉ } := by
  unfold getAllProducts at h
  cases ho : offset q with
  | none => simp [ho] at h
  | some off =>
    simp only [ho] at h
    by_cases hb : limitNum q < 0 ∨ off < 0
    · simp [hb] at h
    · simp only [hb, if_false, Option.some.injEq] at h
      refine ⟨by omega, h.symm⟩

/-- White space in the sense of JavaScript is skipped by `parseInt` and stripped
by `trim`: a form feed or a no-break space before `5`, a no-break space after
`Kitchen`. -/
theorem jsWhiteSpace_examples :
    parseIntStr "\x0c5" = some 5 ∧ parseIntStr "\u00a05" = some 5 ∧
    limitNum ⟨some "\x0c5", none, none, none⟩ = 5 ∧
    jsTrim "Kitchen\u00a0" = "Kitchen" ∧ jsTrim "\ufeff Kitchen\u2003\n" = "Kitchen" := by
  decide

/-- Claim C25.  For every `limit` the page size of `getAllProducts` is at most
100 and is 20 when `limit` is absent or not a number; every reply that reports a
pagination has `per_page` equal to that page size, which is then at least 1,
`total_pages = ceil(total / per_page)`, and `total_pages × per_page ≥ total`. -/
theorem getAllProducts_page_size (like : String → String → Bool) (isNaN : String → Bool)
    (shop : Shop) (q : ProductsQuery) :
    limitNum q ≤ 100 ∧
    ((q.limit = none ∨ ∃ s, q.limit = some s ∧ parseIntStr s = none) → limitNum q = 20) ∧
    (∀ pg, (getAllProducts like isNaN shop q).pagination = some pg →
      pg.per_page = limitNum q ∧ 1 ≤ pg.per_page ∧
      pg.total = countTotal like isNaN shop q ∧
      pg.total_pages = ⌈(pg.total : ℚ) / (pg.per_page : ℚ)⌉ ∧
      (pg.total : Int) ≤ pg.total_pages * pg.per_page) := by
  refine ⟨limitNum_le q, limitNum_default q, ?_⟩
  intro pg h
  obtain ⟨h0, rfl⟩ := getAllProducts_pagination like isNaN shop q pg h
  have h1 : 1 ≤ limitNum q := by
    have := limitNum_ne_zero q
    omega
  exact ⟨rfl, h1, rfl, rfl, le_ceil_mul _ _ h1⟩

/-- Claim C25, instance: two products per page in category 1 of `shop1`. -/
theorem getAllProducts_page_size_witness :
    (getAllProducts like0 isNaN0 shop1 ⟨some "2", none, some "1", none⟩).pagination =
        some ⟨some 1, 2, 2, 1⟩ ∧
      ((2 : Nat) : Int) ≤ (1 : Int) * 2 :=
  ⟨by decide!,
    ((getAllProducts_page_size like0 isNaN0 shop1 ⟨some "2", none, some "1", none⟩).2.2
      ⟨some 1, 2, 2, 1⟩ (by decide!)).2.2.2.2⟩

/-- When `limit` is absent, not a number or at least 1, and `page` is absent or
at least 1, the interpolated values are as intended: `LIMIT` between 1 and 100
and a non-negative `OFFSET`. -/
theorem paging_values_in_range (q : ProductsQuery)
    (hl : ∀ n, parsedLimit q = some n → 0 ≤ n)
    (page : Int) (hp : parsedPage q = some page) (hpage : 1 ≤ page) :
    1 ≤ limitNum q ∧ limitNum q ≤ 100 ∧ ∃ o, offset q = some o ∧ 0 ≤ o := by
  have hne := limitNum_ne_zero q
  have h0 : 0 ≤ limitNum q := by
    unfold limitNum jsOr
    cases h : parsedLimit q with
    | none => simp [truthy]
    | some n =>
      have hn := hl n h
      by_cases hz : n = 0
      · simp [truthy, hz]
      · simp only [truthy, ne_eq, hz, not_false_eq_true, decide_True, if_true, Option.getD_some]
        rw [min_def]
        split <;> omega
  refine ⟨by omega, limitNum_le q, (page - 1) * limitNum q, by simp [offset, hp], ?_⟩
  exact mul_nonneg (by omega) h0

/-- Claim C26.  The values that `getAllProducts` concatenates into the SQL text
are only capped from above: `limit=-5` gives `LIMIT -5`, `page=0` gives
`OFFSET -20` and `page=abc` gives `OFFSET NaN`; the statement is then refused
and the handler answers 500. -/
theorem getAllProducts_paging_unchecked :
    limitNum ⟨some "-5", none, none, none⟩ = -5 ∧
    pagingClause ⟨some "-5", none, none, none⟩ = " ORDER BY p.name ASC LIMIT -5 OFFSET 0" ∧
    offset ⟨none, some "0", none, none⟩ = some (-20) ∧
    pagingClause ⟨none, some "0", none, none⟩ = " ORDER BY p.name ASC LIMIT 20 OFFSET -20" ∧
    offset ⟨none, some "abc", none, none⟩ = none ∧
    pagingClause ⟨none, some "abc", none, none⟩ = " ORDER BY p.name ASC LIMIT 20 OFFSET NaN" ∧
    (getAllProducts like0 isNaN0 shop1 ⟨some "-5", none, none, none⟩).status = 500 ∧
    (getAllProducts like0 isNaN0 shop1 ⟨none, some "0", none, none⟩).status = 500 ∧
    (getAllProducts like0 isNaN0 shop1 ⟨none, some "abc", none, none⟩).status = 500 := by
  refine ⟨by decide, by decide, by decide, by decide, by decide, by decide, by decide,
    by decide, by decide⟩

/-- A `flatMap` whose pieces all have one element keeps the length. -/
theorem length_flatMap_of_length_one {α β : Type} (f : α → List β) :
    ∀ l : List α, (∀ a ∈ l, (f a).length = 1) → (l.flatMap f).length = l.length
  | [], _ => rfl
  | a :: l, h => by
    rw [List.flatMap_cons, List.length_append, h a (List.mem_cons_self _ _),
      length_flatMap_of_length_one f l fun b hb => h b (List.mem_cons_of_mem _ hb)]
    simp [Nat.add_comm]

/-- Claim C27.  The conditions and bound values of the count query are those of
the data query; when no product matches two category rows, the reported total is
the number of rows of the data query without `LIMIT` and `OFFSET`. -/
theorem count_query_matches_data_query (like : String → String → Bool)
    (isNaN : String → Bool) (shop : Shop) (q : ProductsQuery)
    (hjoin : ∀ p ∈ shop.products,
      (shop.categories.filter fun c => decide (p.category_id = c.id)).length ≤ 1) :
    countFilter isNaN q = dataFilter isNaN q ∧
    countTotal like isNaN shop q = (dataRowsAll like isNaN shop q).length ∧
    (∀ pg, (getAllProducts like isNaN shop q).pagination = some pg →
      pg.total = (dataRowsAll like isNaN shop q).length) := by
  have hf : countFilter isNaN q = dataFilter isNaN q := rfl
  have hlen : countTotal like isNaN shop q = (dataRowsAll like isNaN shop q).length := by
    unfold countTotal dataRowsAll
    rw [List.length_insertionSort, length_flatMap_of_length_one, hf]
    intro p hp
    have hp2 : p ∈ shop.products := (List.mem_filter.mp hp).1
    have := hjoin p hp2
    cases hc : shop.categories.filter fun c => decide (p.category_id = c.id) with
    | nil => rfl
    | cons c cs =>
      rw [hc] at this
      simp only [List.length_cons] at this
      have hcs : cs = [] := List.length_eq_zero.mp (by omega)
      simp [hcs]
  refine ⟨hf, hlen, ?_⟩
  intro pg h
  obtain ⟨_, rfl⟩ := getAllProducts_pagination like isNaN shop q pg h
  exact hlen

/-- Claim C27, instance: the search `u` over `shop1` counts its three rows. -/
theorem count_query_matches_data_query_witness :
    countFilter isNaN0 ⟨some "2", some "2", none, some "u"⟩ =
        ([" AND (p.name LIKE ? OR p.description LIKE ?)"], [.text "%u%", .text "%u%"]) ∧
      countTotal like0 isNaN0 shop1 ⟨some "2", some "2", none, some "u"⟩ = 3 ∧
      (dataRowsAll like0 isNaN0 shop1 ⟨some "2", some "2", none, some "u"⟩).length = 3 ∧
      countTotal like0 isNaN0 shop1 ⟨some "2", some "2", none, some "u"⟩ =
        (dataRowsAll like0 isNaN0 shop1 ⟨some "2", some "2", none, some "u"⟩).length :=
  ⟨by decide, by decide, by decide!,
    (count_query_matches_data_query like0 isNaN0 shop1 ⟨some "2", some "2", none, some "u"⟩
      (by decide)).2.1⟩

/-! ## `product_count` and deletability -/

/-- Claim C28.  In `shop0` category 1 is reported with `product_count` 0, its
only product being out of stock, and `deleteCategory` still rejects it with 400;
and whenever `deleteCategory` accepts a category, `getCategoryById` reports it
with `product_count` 0. -/
theorem product_count_vs_deleteCategory :
    ((getCategoryById shop0 (some 1)).2.map (fun r => r.2) = some 0 ∧
      (getCategoryById shop0 (some 1)).1.status = 200 ∧
      (deleteCategory shop0 (some 1)).reply.status = 400 ∧
      (deleteCategory shop0 (some 1)).stmt = none) ∧
    (∀ (shop : Shop) (id : Option Int), (deleteCategory shop id).reply.status = 200 →
      (getCategoryById shop id).1.status = 200 ∧
      (getCategoryById shop id).2.map (fun r => r.2) = some 0) := by
  refine ⟨⟨by decide, by decide, by decide, by decide⟩, ?_⟩
  intro shop id h
  cases id with
  | none => exact absurd h (by simp [deleteCategory])
  | some id =>
    unfold deleteCategory at h
    simp only at h
    cases hc : shop.categories.filter fun c => decide (c.id = id) with
    | nil =>
      rw [hc] at h
      simp at h
    | cons c cs =>
      rw [hc] at h
      simp only at h
      by_cases hp : (shop.products.filter fun p => decide (p.category_id = id)).length > 0
      · rw [if_pos hp] at h
        simp at h
      · have hnil : (shop.products.filter fun p => decide (p.category_id = id)) = [] :=
          List.length_eq_zero.mp (by omega)
        have hcid : c.id = id := by
          have hm : c ∈ shop.categories.filter fun c => decide (c.id = id) := by
            rw [hc]
            exact List.mem_cons_self _ _
          simpa using (List.mem_filter.mp hm).2
        have hcount : (shop.products.filter fun p =>
            decide (c.id = p.category_id ∧ p.stock_quantity > 0)) = [] := by
          rw [List.filter_eq_nil_iff]
          intro p hp2
          have hno := (List.filter_eq_nil_iff.mp hnil) p hp2
          simp only [decide_eq_true_eq] at hno ⊢
          intro hcp
          exact hno (by rw [← hcid]; exact hcp.1.symm)
        have hg : getCategoryById shop (some id) = (⟨200, true, ""⟩, some (c, 0)) := by
          simp only [getCategoryById, hc, List.map_cons, hcount, List.length_nil]
        rw [hg]
        exact ⟨rfl, rfl⟩

/-- Claim C28, instance: category 2 of `shop0` has no product, is deleted, and
is reported with `product_count` 0. -/
theorem product_count_vs_deleteCategory_witness :
    (deleteCategory shop0 (some 2)).reply.status = 200 ∧
      (getCategoryById shop0 (some 2)).2.map (fun r => r.2) = some 0 :=
  ⟨by decide, (product_count_vs_deleteCategory.2 shop0 (some 2) (by decide)).2⟩

/-! ## The local cart: merging an added product -/

/-- The count of a cart is the sum of the quantities of its items. -/
theorem getCartCount_eq_sum (l : List LineItem) :
    CartProvider.getCartCount l = (l.map lineQuantity).sum := by
  have h : ∀ (l : List LineItem) (a : Int),
      l.foldl (fun count item => count + lineQuantity item) a = a + (l.map lineQuantity).sum := by
    intro l
    induction l with
    | nil => intro a; simp
    | cons x xs ih =>
      intro a
      rw [List.foldl_cons, ih, List.map_cons, List.sum_cons]
      ring
  rw [CartProvider.getCartCount, h]
  simp

/-- Adding to the empty cart appends the product. -/
theorem addToCart_local_nil (product : LineItem) (quantity : Option Int) :
    CartProvider.addToCart [] product quantity =
      [{ product with quantity := some (quantity.getD 1) }] := by
  simp [CartProvider.addToCart, findIndex]

/-- Adding to a cart whose first item has the product's id updates that item. -/
theorem addToCart_local_cons_eq (x : LineItem) (xs : List LineItem) (product : LineItem)
    (quantity : Option Int) (h : x.id = product.id) :
    CartProvider.addToCart (x :: xs) product quantity =
      { x with quantity := x.quantity.map fun old => old + quantity.getD 1 } :: xs := by
  simp [CartProvider.addToCart, findIndex, List.findIdx_cons, h]

/-- Adding to a cart whose first item has another id works on the rest. -/
theorem addToCart_local_cons_ne (x : LineItem) (xs : List LineItem) (product : LineItem)
    (quantity : Option Int) (h : x.id ≠ product.id) :
    CartProvider.addToCart (x :: xs) product quantity =
      x :: CartProvider.addToCart xs product quantity := by
  unfold CartProvider.addToCart findIndex
  simp only [List.findIdx_cons, h, decide_False, cond_false, List.length_cons,
    Nat.add_lt_add_iff_right]
  by_cases hlt : List.findIdx (fun item => decide (item.id = product.id)) xs < xs.length
  · simp only [hlt, if_true]
    have h1 : ((List.findIdx (fun item => decide (item.id = product.id)) xs + 1 : Nat) : Int) ≥ 0 :=
      Int.natCast_nonneg _
    have h2 : ((List.findIdx (fun item => decide (item.id = product.id)) xs : Nat) : Int) ≥ 0 :=
      Int.natCast_nonneg _
    rw [if_pos h1, if_pos h2, Int.toNat_natCast, Int.toNat_natCast, List.modify_succ_cons]
  · simp only [hlt, if_false]
    simp


/-- An item that carries the quantity `n` counts as `n`. -/
theorem lineQuantity_some (item : LineItem) (n : Int) (h : item.quantity = some n) :
    lineQuantity item = n := by
  by_cases hn : n = 0
  · simp [lineQuantity, h, jsOr, truthy, parseInt, hn]
  · simp [lineQuantity, h, jsOr, truthy, parseInt, hn]

/-- An element found at an index is a member. -/
theorem mem_of_getElem?_eq_some {α : Type} :
    ∀ (l : List α) (i : Nat) (a : α), l[i]? = some a → a ∈ l
  | [], i, a, h => by simp at h
  | x :: xs, 0, a, h => by
    simp only [List.getElem?_cons_zero, Option.some.injEq] at h
    subst h
    exact List.mem_cons_self _ _
  | x :: xs, i + 1, a, h => by
    simp only [List.getElem?_cons_succ] at h
    exact List.mem_cons_of_mem _ (mem_of_getElem?_eq_some xs i a h)

/-- The ids after adding: unchanged when the product's id is present, otherwise
the product's id is appended. -/
theorem addToCart_local_ids (product : LineItem) (quantity : Option Int) :
    ∀ cartItems : List LineItem,
      (CartProvider.addToCart cartItems product quantity).map (fun item => item.id) =
        if product.id ∈ cartItems.map (fun item => item.id) then
          cartItems.map (fun item => item.id)
        else cartItems.map (fun item => item.id) ++ [product.id]
  | [] => by simp [addToCart_local_nil]
  | x :: xs => by
    by_cases h : x.id = product.id
    · rw [addToCart_local_cons_eq x xs product quantity h]
      simp [h]
    · rw [addToCart_local_cons_ne x xs product quantity h, List.map_cons,
        addToCart_local_ids product quantity xs]
      have h2 : ¬ product.id = x.id := fun e => h e.symm
      by_cases hm : product.id ∈ xs.map (fun item => item.id)
      · rw [if_pos hm, if_pos (by simp only [List.map_cons]; exact List.mem_cons_of_mem _ hm)]
        rfl
      · rw [if_neg hm, if_neg (by
          simp only [List.map_cons, List.mem_cons, not_or]
          exact ⟨h2, hm⟩)]
        rfl

/-- The item with the product's id is updated in place. -/
theorem addToCart_local_present (product : LineItem) (quantity : Option Int) :
    ∀ (cartItems : List LineItem), (cartItems.map fun item => item.id).Nodup →
      ∀ (i : Nat) (item : LineItem), cartItems[i]? = some item → item.id = product.id →
        (CartProvider.addToCart cartItems product quantity).length = cartItems.length ∧
        (CartProvider.addToCart cartItems product quantity)[i]? =
          some { item with quantity := item.quantity.map fun old => old + quantity.getD 1 }
  | [], _, i, item, hi, _ => by simp at hi
  | x :: xs, hnd, i, item, hi, hid => by
    rw [List.map_cons, List.nodup_cons] at hnd
    by_cases h : x.id = product.id
    · rw [addToCart_local_cons_eq x xs product quantity h]
      cases i with
      | zero =>
        simp only [List.getElem?_cons_zero, Option.some.injEq] at hi
        subst hi
        exact ⟨rfl, List.getElem?_cons_zero⟩
      | succ j =>
        simp only [List.getElem?_cons_succ] at hi
        have hm : item ∈ xs := mem_of_getElem?_eq_some _ _ _ hi
        exact absurd (List.mem_map.mpr ⟨item, hm, by rw [hid, h]⟩) hnd.1
    · rw [addToCart_local_cons_ne x xs product quantity h]
      cases i with
      | zero =>
        simp only [List.getElem?_cons_zero, Option.some.injEq] at hi
        subst hi
        exact absurd hid h
      | succ j =>
        simp only [List.getElem?_cons_succ] at hi
        have ih := addToCart_local_present product quantity xs hnd.2 j item hi hid
        exact ⟨by rw [List.length_cons, List.length_cons, ih.1], by
          rw [List.getElem?_cons_succ]; exact ih.2⟩

/-- Without an item of the product's id the product is appended. -/
theorem addToCart_local_absent (product : LineItem) (quantity : Option Int) :
    ∀ (cartItems : List LineItem), (∀ item ∈ cartItems, item.id ≠ product.id) →
      CartProvider.addToCart cartItems product quantity =
        cartItems ++ [{ product with quantity := some (quantity.getD 1) }]
  | [], _ => addToCart_local_nil product quantity
  | x :: xs, h => by
    rw [addToCart_local_cons_ne x xs product quantity (h x (List.mem_cons_self _ _)),
      addToCart_local_absent product quantity xs fun item hm => h item (List.mem_cons_of_mem _ hm)]
    rfl

/-- Items with another id keep their place and content. -/
theorem addToCart_local_others (product : LineItem) (quantity : Option Int) :
    ∀ (cartItems : List LineItem) (i : Nat) (item : LineItem),
      cartItems[i]? = some item → item.id ≠ product.id →
        (CartProvider.addToCart cartItems product quantity)[i]? = some item
  | [], i, item, hi, _ => by simp at hi
  | x :: xs, i, item, hi, hid => by
    by_cases h : x.id = product.id
    · rw [addToCart_local_cons_eq x xs product quantity h]
      cases i with
      | zero =>
        simp only [List.getElem?_cons_zero, Option.some.injEq] at hi
        subst hi
        exact absurd h hid
      | succ j =>
        simp only [List.getElem?_cons_succ] at hi ⊢
        exact hi
    · rw [addToCart_local_cons_ne x xs product quantity h]
      cases i with
      | zero =>
        simp only [List.getElem?_cons_zero] at hi ⊢
        exact hi
      | succ j =>
        simp only [List.getElem?_cons_succ] at hi ⊢
        exact addToCart_local_others product quantity xs j item hi hid

/-- The count grows by the added quantity when the item with the product's id,
if there is one, carries a quantity. -/
theorem addToCart_local_count (product : LineItem) (quantity : Option Int) :
    ∀ (cartItems : List LineItem),
      (∀ item ∈ cartItems, item.id = product.id → item.quantity ≠ none) →
      ((CartProvider.addToCart cartItems product quantity).map lineQuantity).sum =
        (cartItems.map lineQuantity).sum + quantity.getD 1
  | [], _ => by
    rw [addToCart_local_nil]
    simp [lineQuantity_some { product with quantity := some (quantity.getD 1) }
      (quantity.getD 1) rfl]
  | x :: xs, hq => by
    by_cases h : x.id = product.id
    · rw [addToCart_local_cons_eq x xs product quantity h]
      cases hx : x.quantity with
      | none => exact absurd hx (hq x (List.mem_cons_self _ _) h)
      | some old =>
        rw [List.map_cons, List.sum_cons, List.map_cons, List.sum_cons,
          lineQuantity_some x old hx, lineQuantity_some _ (old + quantity.getD 1) rfl]
        ring
    · rw [addToCart_local_cons_ne x xs product quantity h, List.map_cons, List.sum_cons,
        List.map_cons, List.sum_cons,
        addToCart_local_count product quantity xs fun item hm =>
          hq item (List.mem_cons_of_mem _ hm)]
      ring

/-- What C29 says holds for a local cart with pairwise distinct ids in which the
item with the product's id, if there is one, carries a quantity: after
`addToCart` the ids are still pairwise distinct; an item with the product's id
gets its old quantity plus the added one and the length is unchanged; without
such an item exactly one item with the given quantity is appended; every other
item keeps its place and content; `getCartCount` grows by the added quantity. -/
theorem addToCart_local_merge (cartItems : List LineItem) (product : LineItem)
    (quantity : Option Int)
    (hnd : (cartItems.map fun item => item.id).Nodup)
    (hq : ∀ item ∈ cartItems, item.id = product.id → item.quantity ≠ none) :
    ((CartProvider.addToCart cartItems product quantity).map fun item => item.id).Nodup ∧
    (∀ (i : Nat) (item : LineItem), cartItems[i]? = some item → item.id = product.id →
      (CartProvider.addToCart cartItems product quantity).length = cartItems.length ∧
      ∃ old, item.quantity = some old ∧
        (CartProvider.addToCart cartItems product quantity)[i]? =
          some { item with quantity := some (old + quantity.getD 1) }) ∧
    ((∀ item ∈ cartItems, item.id ≠ product.id) →
      CartProvider.addToCart cartItems product quantity =
        cartItems ++ [{ product with quantity := some (quantity.getD 1) }]) ∧
    (∀ (i : Nat) (item : LineItem), cartItems[i]? = some item → item.id ≠ product.id →
      (CartProvider.addToCart cartItems product quantity)[i]? = some item) ∧
    CartProvider.getCartCount (CartProvider.addToCart cartItems product quantity) =
      CartProvider.getCartCount cartItems + quantity.getD 1 := by
  refine ⟨?_, ?_, addToCart_local_absent product quantity cartItems,
    addToCart_local_others product quantity cartItems, ?_⟩
  · rw [addToCart_local_ids]
    by_cases hm : product.id ∈ cartItems.map (fun item => item.id)
    · rw [if_pos hm]
      exact hnd
    · rw [if_neg hm]
      exact List.Nodup.append hnd (List.nodup_singleton _) (by
        intro a ha hb
        rw [List.mem_singleton] at hb
        exact hm (hb ▸ ha))
  · intro i item hi hid
    have hp := addToCart_local_present product quantity cartItems hnd i item hi hid
    have hm : item ∈ cartItems := mem_of_getElem?_eq_some _ _ _ hi
    cases hx : item.quantity with
    | none => exact absurd hx (hq item hm hid)
    | some old =>
      refine ⟨hp.1, old, rfl, ?_⟩
      rw [hp.2, hx]
      rfl
  · rw [getCartCount_eq_sum, getCartCount_eq_sum]
    exact addToCart_local_count product quantity cartItems hq

/-- Instance of `addToCart_local_merge`: adding two of product 1 to a cart that
holds three of it and one of product 2. -/
theorem addToCart_local_merge_witness :
    CartProvider.addToCart [⟨1, some 5, none, some 3⟩, ⟨2, some 7, none, some 1⟩]
        ⟨1, some 5, none, none⟩ (some 2) =
      [⟨1, some 5, none, some 5⟩, ⟨2, some 7, none, some 1⟩] ∧
    CartProvider.getCartCount
        (CartProvider.addToCart [⟨1, some 5, none, some 3⟩, ⟨2, some 7, none, some 1⟩]
          ⟨1, some 5, none, none⟩ (some 2)) =
      CartProvider.getCartCount [⟨1, some 5, none, some 3⟩, ⟨2, some 7, none, some 1⟩] + 2 :=
  ⟨by decide!,
    (addToCart_local_merge [⟨1, some 5, none, some 3⟩, ⟨2, some 7, none, some 1⟩]
      ⟨1, some 5, none, none⟩ (some 2) (by decide) (by decide)).2.2.2.2⟩

/-- Claim C29 (the code at the failing input).  The cart `cartWithoutQuantity`
has one item, of id 1 and without a quantity; adding one of product 1 computes
`undefined + 1`, which leaves the item without a numeric quantity, and
`getCartCount` stays 0 instead of growing by 1. -/
theorem addToCart_local_missing_quantity :
    (cartWithoutQuantity.map fun item => item.id).Nodup ∧
    CartProvider.getCartCount cartWithoutQuantity = 0 ∧
    (CartProvider.addToCart cartWithoutQuantity ⟨1, some 5, none, none⟩ (some 1)).map
        (fun item => item.quantity) = [none] ∧
    CartProvider.getCartCount
        (CartProvider.addToCart cartWithoutQuantity ⟨1, some 5, none, none⟩ (some 1)) = 0 ∧
    CartProvider.getCartCount
        (CartProvider.addToCart cartWithoutQuantity ⟨1, some 5, none, none⟩ (some 1)) ≠
      CartProvider.getCartCount cartWithoutQuantity + 1 := by
  refine ⟨by decide, by decide, by decide, by decide, by decide⟩

/-! ## C7: `updateCartItem` on numbers that are not whole -/

/-- On a whole number the numeric reading of `updateCartItem` is the handler
`updateCartItem`: same reply, and the `UPDATE` runs with the same values. -/
theorem updateCartItemNumber_int (db : Db) (u cartId : Int) (q : Int) :
    updateCartItemNumber db u cartId (some (q : ℚ)) =
      ⟨(updateCartItem db u cartId (some q)).reply,
        (updateCartItem db u cartId (some q)).stmt.map fun _ => ((q : ℚ), cartId)⟩ := by
  unfold updateCartItemNumber updateCartItem
  have h1 : ((q : ℚ) = 0 ∨ (q : ℚ) < 1) ↔ (q = 0 ∨ q < 1) := by
    constructor
    · rintro (h | h)
      · exact Or.inl (by exact_mod_cast h)
      · exact Or.inr (by exact_mod_cast h)
    · rintro (h | h)
      · exact Or.inl (by exact_mod_cast h)
      · exact Or.inr (by exact_mod_cast h)
  by_cases hq : q = 0 ∨ q < 1
  · simp only [h1.mpr hq, hq, if_true, Option.map_none']
  · simp only [mt h1.mp hq, hq, if_false]
    cases selectOwnedItem db cartId u with
    | nil => simp
    | cons cartItem rest =>
      simp only
      by_cases hs : q > cartItem.2.stock_quantity
      · have hs2 : (q : ℚ) > (cartItem.2.stock_quantity : ℚ) := by exact_mod_cast hs
        simp [hs, hs2]
      · have hs2 : ¬ (q : ℚ) > (cartItem.2.stock_quantity : ℚ) := by
          intro h
          exact hs (by exact_mod_cast h)
        simp [hs, hs2]

/-- C7 (as stated, refuted): user 7 owns cart line 1 of `db2` (product 5, stock
10); the requested quantity 1.5 is not a whole number, yet the reply is 200 and
the `UPDATE` runs with 1.5. -/
theorem updateCartItem_accepts_fraction :
    (selectOwnedItem db2 1 7).map (fun cp => cp.2.stock_quantity) = [10] ∧
    (¬ ∃ n : Int, (3 / 2 : ℚ) = (n : ℚ)) ∧
    updateCartItemNumber db2 7 1 (some (3 / 2)) =
      ⟨⟨200, true, "Cart updated successfully"⟩, some (3 / 2, 1)⟩ := by
  refine ⟨by decide!, ?_, by decide!⟩
  rintro ⟨n, h⟩
  have hd := congrArg Rat.den h
  rw [Rat.den_intCast] at hd
  exact absurd hd (by decide!)

/-- C7 (amended): when the ownership query of `updateCartItem` finds the line,
the update succeeds exactly when the requested number is at least 1 and does not
exceed the product's stock, whole or not; on success the `UPDATE` runs with the
requested number for that line, and for a whole number the line is stored with
it and the lines with another id are unchanged; otherwise the reply is 400 and
no statement runs. -/
theorem updateCartItem_number_contract (db : Db) (u cartId : Int) (quantity : Option ℚ)
    (cartItem : CartRow × Product) (rest : List (CartRow × Product)) (now : Nat)
    (ho : selectOwnedItem db cartId u = cartItem :: rest) :
    ((updateCartItemNumber db u cartId quantity).reply.status = 200 ↔
      ∃ q, quantity = some q ∧ 1 ≤ q ∧ q ≤ (cartItem.2.stock_quantity : ℚ)) ∧
    (∀ q, quantity = some q → 1 ≤ q → q ≤ (cartItem.2.stock_quantity : ℚ) →
      (updateCartItemNumber db u cartId quantity).reply.success = true ∧
      (updateCartItemNumber db u cartId quantity).bound = some (q, cartId)) ∧
    (∀ n : Int, quantity = some (n : ℚ) → 1 ≤ n → n ≤ cartItem.2.stock_quantity →
      (updateCartItem db u cartId (some n)).stmt = some (.updateCartQuantity n cartId) ∧
      { cartItem.1 with quantity := n, updated_at := now } ∈
        (db.after now (updateCartItem db u cartId (some n))).cart ∧
      (∀ c ∈ (db.after now (updateCartItem db u cartId (some n))).cart,
        c.id = cartId → c.quantity = n) ∧
      (db.after now (updateCartItem db u cartId (some n))).cart.filter
          (fun c => decide (c.id ≠ cartId)) =
        db.cart.filter (fun c => decide (c.id ≠ cartId))) ∧
    ((updateCartItemNumber db u cartId quantity).reply.status ≠ 200 →
      (updateCartItemNumber db u cartId quantity).reply.status = 400 ∧
      (updateCartItemNumber db u cartId quantity).bound = none) := by
  have hacc : ∀ q : ℚ, 1 ≤ q → q ≤ (cartItem.2.stock_quantity : ℚ) →
      updateCartItemNumber db u cartId (some q) =
        ⟨⟨200, true, "Cart updated successfully"⟩, some (q, cartId)⟩ := by
    intro q h1 h2
    have hq : ¬ (q = 0 ∨ q < 1) := by
      rintro (h | h)
      · rw [h] at h1
        exact absurd h1 (by norm_num)
      · exact absurd h1 (not_le.mpr h)
    simp [updateCartItemNumber, hq, ho, not_lt.mpr h2]
  refine ⟨?_, ?_, ?_, ?_⟩
  · constructor
    · intro h
      cases quantity with
      | none => simp [updateCartItemNumber] at h
      | some q =>
        by_cases hq : q = 0 ∨ q < 1
        · simp [updateCartItemNumber, hq] at h
        · by_cases hs : q > (cartItem.2.stock_quantity : ℚ)
          · simp [updateCartItemNumber, hq, ho, hs] at h
          · refine ⟨q, rfl, ?_, not_lt.mp hs⟩
            by_contra hc
            exact hq (Or.inr (not_le.mp hc))
    · rintro ⟨q, rfl, h1, h2⟩
      rw [hacc q h1 h2]
  · rintro q rfl h1 h2
    rw [hacc q h1 h2]
    exact ⟨rfl, rfl⟩
  · intro n _ h1 h2
    have hmem : cartItem.1 ∈ db.cart ∧ cartItem.1.id = cartId := by
      have := (mem_selectOwnedItem db cartId u cartItem).mp
        (by rw [ho]; exact List.mem_cons_self _ _)
      exact ⟨this.1, this.2.2.2.1⟩
    rw [updateCartItem_accept db u cartId n cartItem rest h1 ho h2]
    refine ⟨rfl, ?_, ?_, ?_⟩
    · simp only [Db.after, Stmt.run, List.mem_map]
      exact ⟨cartItem.1, hmem.1, by simp [hmem.2]⟩
    · simp only [Db.after, Stmt.run, List.mem_map]
      rintro c ⟨c', _, rfl⟩ hc
      by_cases h : c'.id = cartId
      · simp [h]
      · simp [h] at hc
    · exact others_after_update db now n cartId
  · intro h
    cases quantity with
    | none => exact ⟨rfl, rfl⟩
    | some q =>
      by_cases hq : q = 0 ∨ q < 1
      · simp [updateCartItemNumber, hq]
      · by_cases hs : q > (cartItem.2.stock_quantity : ℚ)
        · simp [updateCartItemNumber, hq, ho, hs]
        · have h1 : 1 ≤ q := by
            by_contra hc
            exact hq (Or.inr (not_le.mp hc))
          rw [hacc q h1 (not_lt.mp hs)] at h
          exact absurd rfl h

/-- C7 (amended), instances on `db2`, where user 7 owns line 1 of product 5
(stock 10): 15 is rejected with 400, 3 is accepted and stored, 1.5 is accepted. -/
theorem updateCartItem_number_contract_witness :
    ((updateCartItemNumber db2 7 1 (some 15)).reply.status = 400 ∧
      (updateCartItemNumber db2 7 1 (some 15)).bound = none) ∧
    ((updateCartItemNumber db2 7 1 (some (3 / 2))).reply.success = true ∧
      (updateCartItemNumber db2 7 1 (some (3 / 2))).bound = some (3 / 2, 1)) ∧
    (∀ c ∈ (db2.after 9 (updateCartItem db2 7 1 (some 3))).cart, c.id = 1 → c.quantity = 3) :=
  ⟨(updateCartItem_number_contract db2 7 1 (some 15) (⟨1, 7, 5, 2, 0, 0⟩, product5) [] 9
      (by decide!)).2.2.2 (by decide!),
   (updateCartItem_number_contract db2 7 1 (some (3 / 2)) (⟨1, 7, 5, 2, 0, 0⟩, product5) [] 9
      (by decide!)).2.1 (3 / 2) rfl (by decide!) (by decide!),
   ((updateCartItem_number_contract db2 7 1 (some ((3 : Int) : ℚ)) (⟨1, 7, 5, 2, 0, 0⟩, product5)
      [] 9 (by decide!)).2.2.1 3 rfl (by decide) (by decide)).2.2.1⟩

/-- C15 (as stated, refuted): in `shopBlankName` category 3 has the empty name.
A `PUT` on category 1 with the name of two spaces and a description passes the
chain and reaches `updateCategory` with the trimmed, empty name, which belongs
to category 3; the guard `updateData.name &&` skips the duplicate check and the
reply is 200 with an `UPDATE` of the description. -/
theorem updateCategory_blank_name_counterexample :
    shopBlankName.categories.map (fun c => (c.id, c.name)) =
      [(1, "Kitchen"), (2, "Office"), (3, "")] ∧
    categoryUpdateValidation ⟨some "  ", some "x"⟩ = true ∧
    categorySanitize ⟨some "  ", some "x"⟩ = ⟨some "", some "x"⟩ ∧
    (∃ c ∈ shopBlankName.categories, c.name = jsTrim "  " ∧ c.id ≠ 1) ∧
    CatalogRoute.putCategory.rest (fun _ => true)
        ⟨some 1, emptyProductBody, ⟨some "  ", some "x"⟩, .notMultipart⟩ shopBlankName =
      ⟨⟨200, true, "Category updated successfully"⟩,
        some (.updateCategories ["description = ?"] [.str "x", .int 1])⟩ := by
  refine ⟨by decide, by decide, by decide, ?_, by decide⟩
  exact ⟨⟨3, "", none, 0⟩, by decide, by decide, by decide⟩

end Ecommerce
